import Mathlib

/-!
# tpm2-tools: protocol drivers

A shallow embedding of the protocol drivers of `tpm2_encryptdecrypt.c`,
`tpm2_activatecredential.c`, `tpm2_load.c`, `tpm2_policysigned.c` and
`tpm2_createprimary.c`, and of the credential decoder declared in
`tpm2_password_util.h`.

Conventions of the embedding.

* The TPM, the file system and the standard streams form a world of type `σ`.
  Every function that the C code calls but that lives outside the translated
  files (the TSS2 system API, the helpers of `lib/`) is a field of a `Sys σ`
  record: a total function from its arguments and the current world to its
  results and the next world.  A field named after a `Tss2_Sys_*` function
  stands for that call as the tools issue it, wrapped in `TSS2_RETRY_EXP`, so
  its response code is the one the wrapper finally hands back.
* Output parameters are returned in the response record of the call.
* The `buffer` of a sized structure lists the bytes of the C array from index
  0 on; bytes beyond the end of the list are zero.  A `(pointer, length)` pair
  handed to a helper is the list of the first `length` bytes stored at the
  pointer (`firstBytes`).
* Every external call and every diagnostic appends one `Event` to the trace of
  the run, in program order.
* Machine integers are natural numbers; bytes are natural numbers below 256.
-/

namespace Tpm2Tools

/-! ## Common data model -/

/-- Result of running a piece of a tool: returned value, world reached, events emitted. -/
structure Outcome (σ : Type) (ε : Type) (α : Type) where
  ret : α
  world : σ
  trace : List ε

/-- Argument of a `printf`-style diagnostic or output call. -/
inductive Arg where
  | num (n : Nat)
  | str (s : String)
deriving DecidableEq, Repr

/-- Byte `k` of the C array listed by `buf`. -/
def byteAt (buf : List Nat) (k : Nat) : Nat := buf.getD k 0

/-- The first `n` bytes of the C array listed by `buf`. -/
def firstBytes (buf : List Nat) (n : Nat) : List Nat := (List.range n).map (byteAt buf)

/-- The C conversion of a `bool` to `int`. -/
def intOfBool (b : Bool) : Int := if b then 1 else 0

/-- Runs `o` after the events `t` have been emitted. -/
def Outcome.after {σ ε α : Type} (t : List ε) (o : Outcome σ ε α) : Outcome σ ε α :=
  { ret := o.ret, world := o.world, trace := t ++ o.trace }

/-- A world for examples: the files written so far, newest first. -/
abbrev Disk := List (String × List Nat)

/-- Example file writer: writing succeeds exactly when a path is given. -/
def Disk.save (path : Option String) (bytes : List Nat) (d : Disk) : Bool × Disk :=
  match path with
  | some p => (true, (p, bytes) :: d)
  | none => (false, d)

/-- Sized byte buffer, the shape shared by the `TPM2B_*` structures. -/
structure TPM2B where
  size : Nat
  buffer : List Nat
deriving DecidableEq, Repr

/-- Session attribute bits of `TPMA_SESSION`. -/
structure TPMA_SESSION where
  continueSession : Bool
  auditExclusive : Bool
  auditReset : Bool
  decrypt : Bool
  encrypt : Bool
  audit : Bool
deriving DecidableEq, Repr

/-- One entry of an authorization area, `TPMS_AUTH_COMMAND`. -/
structure TPMS_AUTH_COMMAND where
  sessionHandle : Nat
  nonce : TPM2B
  sessionAttributes : TPMA_SESSION
  hmac : TPM2B
deriving DecidableEq, Repr

/-- Response code `TPM2_RC_SUCCESS` (also spelled `TPM_RC_SUCCESS`). -/
def TPM2_RC_SUCCESS : Nat := 0x000

/-- Response code `TPM2_RC_COMMAND_CODE`: the command code is not supported. -/
def TPM2_RC_COMMAND_CODE : Nat := 0x143

/-- Algorithm identifier `TPM2_ALG_NULL` (also spelled `TPM_ALG_NULL`). -/
def TPM2_ALG_NULL : Nat := 0x0010

/-- Algorithm identifier `TPM_ALG_SHA256`. -/
def TPM_ALG_SHA256 : Nat := 0x000B

/-- Largest symmetric block size in bytes, `TPM2_MAX_SYM_BLOCK_SIZE`. -/
def TPM2_MAX_SYM_BLOCK_SIZE : Nat := 16

/-- Password authorization session handle, `TPM_RS_PW`. -/
def TPM_RS_PW : Nat := 0x40000009

/-- Null hierarchy handle, `TPM_RH_NULL`. -/
def TPM_RH_NULL : Nat := 0x40000007

/-- Endorsement hierarchy handle, `TPM_RH_ENDORSEMENT`. -/
def TPM_RH_ENDORSEMENT : Nat := 0x4000000B

/-- Session type `TPM_SE_POLICY`. -/
def TPM_SE_POLICY : Nat := 0x01

/-- Success response code of the older header, `TPM_RC_SUCCESS`. -/
def TPM_RC_SUCCESS : Nat := 0x000

/-- The initializer `TPM2B_EMPTY_INIT`: size zero. -/
def TPM2B_EMPTY_INIT : TPM2B := { size := 0, buffer := [] }

/-! ## tpm2_encryptdecrypt.c -/

namespace EncryptDecrypt

/-- Option flags of `tpm_encrypt_decrypt_ctx`. -/
structure Flags where
  k : Bool
  P : Bool
  D : Bool
  I : Bool
  o : Bool
  c : Bool
  X : Bool
deriving DecidableEq, Repr

/-- The request context `struct tpm_encrypt_decrypt_ctx`. -/
structure tpm_encrypt_decrypt_ctx where
  session_data : TPMS_AUTH_COMMAND
  is_decrypt : Nat
  key_handle : Nat
  data : TPM2B
  out_file_path : Option String
  context_key_file : Option String
  flags : Flags
deriving DecidableEq, Repr

/-- Input side of `Tss2_Sys_EncryptDecrypt2` and of `Tss2_Sys_EncryptDecrypt`. -/
structure EncryptDecryptCommand where
  keyHandle : Nat
  cmdAuthsArray : List TPMS_AUTH_COMMAND
  inData : TPM2B
  decrypt : Nat
  mode : Nat
  ivIn : TPM2B
deriving DecidableEq, Repr

/-- Output side of the two commands: response code, `outData`, `ivOut`. -/
structure EncryptDecryptResponse where
  rval : Nat
  outData : TPM2B
  ivOut : TPM2B
deriving DecidableEq, Repr

/-- Calls made by `encrypt_decrypt`, in the order they happen. -/
inductive Event where
  | Tss2_Sys_EncryptDecrypt2 (cmd : EncryptDecryptCommand) (rsp : EncryptDecryptResponse)
  | Tss2_Sys_EncryptDecrypt (cmd : EncryptDecryptCommand) (rsp : EncryptDecryptResponse)
  | LOG_ERR (fmt : String) (args : List Arg)
  | files_save_bytes_to_file (path : Option String) (bytes : List Nat) (ok : Bool)
deriving DecidableEq, Repr

/-- External functions used by `encrypt_decrypt`. -/
structure Sys (σ : Type) where
  Tss2_Sys_EncryptDecrypt2 : EncryptDecryptCommand → σ → EncryptDecryptResponse × σ
  Tss2_Sys_EncryptDecrypt : EncryptDecryptCommand → σ → EncryptDecryptResponse × σ
  files_save_bytes_to_file : Option String → List Nat → σ → Bool × σ

/-- The local `iv_in` of `encrypt_decrypt`: size set, buffer zero-initialized. -/
def iv_in : TPM2B :=
  { size := TPM2_MAX_SYM_BLOCK_SIZE, buffer := List.replicate TPM2_MAX_SYM_BLOCK_SIZE 0 }

/-- The arguments `encrypt_decrypt` hands to either command. -/
def command (ctx : tpm_encrypt_decrypt_ctx) : EncryptDecryptCommand :=
  { keyHandle := ctx.key_handle
    cmdAuthsArray := [ctx.session_data]
    inData := ctx.data
    decrypt := ctx.is_decrypt
    mode := TPM2_ALG_NULL
    ivIn := iv_in }

/-- Tail of `encrypt_decrypt` from the check of `rval` on: log and fail, or save `out_data`. -/
def finish {σ : Type} (sys : Sys σ) (ctx : tpm_encrypt_decrypt_ctx)
    (rsp : EncryptDecryptResponse) (w : σ) (t : List Event) : Outcome σ Event Bool :=
  if rsp.rval ≠ TPM2_RC_SUCCESS then
    { ret := false, world := w,
      trace := t ++ [Event.LOG_ERR "EncryptDecrypt failed, error code: 0x%x" [Arg.num rsp.rval]] }
  else
    let bytes := firstBytes rsp.outData.buffer rsp.outData.size
    let r := sys.files_save_bytes_to_file ctx.out_file_path bytes w
    { ret := r.1, world := r.2,
      trace := t ++ [Event.files_save_bytes_to_file ctx.out_file_path bytes r.1] }

/-- The function `encrypt_decrypt`: try `EncryptDecrypt2`, fall back to `EncryptDecrypt`. -/
def encrypt_decrypt {σ : Type} (sys : Sys σ) (ctx : tpm_encrypt_decrypt_ctx) (w : σ) :
    Outcome σ Event Bool :=
  let r2 := sys.Tss2_Sys_EncryptDecrypt2 (command ctx) w
  let t2 := [Event.Tss2_Sys_EncryptDecrypt2 (command ctx) r2.1]
  if r2.1.rval = TPM2_RC_COMMAND_CODE then
    let r1 := sys.Tss2_Sys_EncryptDecrypt (command ctx) r2.2
    finish sys ctx r1.1 r1.2 (t2 ++ [Event.Tss2_Sys_EncryptDecrypt (command ctx) r1.1])
  else
    finish sys ctx r2.1 r2.2 t2

/-- A driver that calls only the legacy command directly, as the specification words it:
key handle, decrypt flag, mode `TPM2_ALG_NULL`, zero IV and the input data of the context. -/
def legacy_driver {σ : Type} (sys : Sys σ) (ctx : tpm_encrypt_decrypt_ctx) (w : σ) :
    Outcome σ Event Bool :=
  let cmd : EncryptDecryptCommand :=
    { keyHandle := ctx.key_handle
      cmdAuthsArray := [ctx.session_data]
      inData := ctx.data
      decrypt := ctx.is_decrypt
      mode := TPM2_ALG_NULL
      ivIn := { size := TPM2_MAX_SYM_BLOCK_SIZE,
                buffer := List.replicate TPM2_MAX_SYM_BLOCK_SIZE 0 } }
  let r := sys.Tss2_Sys_EncryptDecrypt cmd w
  if r.1.rval ≠ TPM2_RC_SUCCESS then
    { ret := false, world := r.2,
      trace := [Event.Tss2_Sys_EncryptDecrypt cmd r.1,
                Event.LOG_ERR "EncryptDecrypt failed, error code: 0x%x" [Arg.num r.1.rval]] }
  else
    let bytes := firstBytes r.1.outData.buffer r.1.outData.size
    let s := sys.files_save_bytes_to_file ctx.out_file_path bytes r.2
    { ret := s.1, world := s.2,
      trace := [Event.Tss2_Sys_EncryptDecrypt cmd r.1,
                Event.files_save_bytes_to_file ctx.out_file_path bytes s.1] }

/-- Recognizes a call of the legacy command. -/
def Event.isLegacy : Event → Bool
  | Event.Tss2_Sys_EncryptDecrypt _ _ => true
  | _ => false

/-- Recognizes a write of the output file. -/
def Event.isSave : Event → Bool
  | Event.files_save_bytes_to_file _ _ _ => true
  | _ => false

/-- The input IV of a command event, if the event is a command. -/
def Event.ivIn? : Event → Option TPM2B
  | Event.Tss2_Sys_EncryptDecrypt2 cmd _ => some cmd.ivIn
  | Event.Tss2_Sys_EncryptDecrypt cmd _ => some cmd.ivIn
  | _ => none

/-- The byte lists written to the output file during a run, in order. -/
def savedBytes : List Event → List (Option String × List Nat)
  | [] => []
  | Event.files_save_bytes_to_file p b true :: t => (p, b) :: savedBytes t
  | _ :: t => savedBytes t

/-- Example TPM without `EncryptDecrypt2`: it answers `TPM2_RC_COMMAND_CODE`; the legacy
command succeeds and returns the input with every byte incremented modulo 256. -/
def legacyOnlySys : Sys Disk :=
  { Tss2_Sys_EncryptDecrypt2 := fun _ d =>
      ({ rval := TPM2_RC_COMMAND_CODE, outData := TPM2B_EMPTY_INIT, ivOut := TPM2B_EMPTY_INIT }, d)
    Tss2_Sys_EncryptDecrypt := fun cmd d =>
      ({ rval := TPM2_RC_SUCCESS
         outData := { size := cmd.inData.size,
                      buffer := cmd.inData.buffer.map (fun b => (b + 1) % 256) }
         ivOut := cmd.ivIn }, d)
    files_save_bytes_to_file := Disk.save }

/-- Example TPM whose `EncryptDecrypt2` fails with the response code `rc`. -/
def failingSys (rc : Nat) : Sys Disk :=
  { Tss2_Sys_EncryptDecrypt2 := fun _ d =>
      ({ rval := rc, outData := TPM2B_EMPTY_INIT, ivOut := TPM2B_EMPTY_INIT }, d)
    Tss2_Sys_EncryptDecrypt := fun cmd d =>
      ({ rval := TPM2_RC_SUCCESS, outData := cmd.inData, ivOut := cmd.ivIn }, d)
    files_save_bytes_to_file := Disk.save }

/-- Example request: encrypt three bytes with key `0x81010001` into `out.bin`. -/
def sampleCtx : tpm_encrypt_decrypt_ctx :=
  { session_data :=
      { sessionHandle := TPM_RS_PW, nonce := TPM2B_EMPTY_INIT,
        sessionAttributes := ⟨false, false, false, false, false, false⟩,
        hmac := TPM2B_EMPTY_INIT }
    is_decrypt := 0
    key_handle := 0x81010001
    data := { size := 3, buffer := [1, 2, 255] }
    out_file_path := some "out.bin"
    context_key_file := none
    flags := ⟨true, false, false, true, true, false, false⟩ }

end EncryptDecrypt

/-! ## tpm2_activatecredential.c -/

namespace ActivateCredential

/-- Option flags of `tpm_activatecred_ctx`. -/
structure Flags where
  H : Bool
  c : Bool
  k : Bool
  C : Bool
  f : Bool
  o : Bool
deriving DecidableEq, Repr

/-- The member `handle` of `tpm_activatecred_ctx`. -/
structure Handle where
  activate : Nat
  key : Nat
deriving DecidableEq, Repr

/-- The member `file` of `tpm_activatecred_ctx`; `none` is the null pointer. -/
structure File where
  output : Option String
  context : Option String
  key_context : Option String
deriving DecidableEq, Repr

/-- The request context `struct tpm_activatecred_ctx`. -/
structure tpm_activatecred_ctx where
  flags : Flags
  handle : Handle
  credentialBlob : TPM2B
  secret : TPM2B
  password : TPMS_AUTH_COMMAND
  endorse_password : TPMS_AUTH_COMMAND
  file : File
deriving DecidableEq, Repr

/-- The part of `SESSION` the tool reads. -/
structure SESSION where
  sessionHandle : Nat
deriving DecidableEq, Repr

/-- Arguments of `tpm_session_start_auth_with_params`. -/
structure StartAuthParams where
  tpmKey : Nat
  bind : Nat
  nonceCaller : TPM2B
  encryptedSalt : TPM2B
  sessionType : Nat
  symmetric : Nat
  algId : Nat
deriving DecidableEq, Repr

/-- Stream handle returned by `fopen`. -/
abbrev FILE := Nat

/-- Calls and diagnostics of the tool, in the order they happen. -/
inductive Event where
  | LOG_ERR (fmt : String) (args : List Arg)
  | tpm2_tool_output (fmt : String) (args : List Arg)
  | tpm_session_start_auth_with_params (p : StartAuthParams) (rval : Nat) (session : SESSION)
  | Tss2_Sys_PolicySecret (authHandle : Nat) (policySession : Nat)
      (cmdAuthsArray : List TPMS_AUTH_COMMAND) (rval : Nat)
  | Tss2_Sys_ActivateCredential (activateHandle : Nat) (keyHandle : Nat)
      (cmdAuthsArray : List TPMS_AUTH_COMMAND) (credentialBlob : TPM2B) (secret : TPM2B)
      (rval : Nat) (certInfo : TPM2B)
  | Tss2_Sys_FlushContext (flushHandle : Nat) (rval : Nat)
  | tpm_session_auth_end (session : SESSION)
  | files_save_bytes_to_file (path : Option String) (bytes : List Nat) (ok : Bool)
  | files_load_tpm_context_from_file (path : String) (ok : Bool) (handle : Nat)
  | fopen (path : String) (fp : Option FILE)
  | fread (fp : FILE) (size : Nat) (items : Nat)
  | fclose (fp : FILE)
deriving DecidableEq, Repr

/-- External functions used by the tool.  `files_load_tpm_context_from_file` and `fread`
receive the current value of the object they write through a pointer and return its value
after the call. -/
structure Sys (σ : Type) where
  tpm_session_start_auth_with_params : StartAuthParams → σ → (Nat × SESSION) × σ
  Tss2_Sys_PolicySecret : Nat → Nat → List TPMS_AUTH_COMMAND → σ → Nat × σ
  Tss2_Sys_ActivateCredential :
    Nat → Nat → List TPMS_AUTH_COMMAND → TPM2B → TPM2B → σ → (Nat × TPM2B) × σ
  Tss2_Sys_FlushContext : Nat → σ → Nat × σ
  tpm_session_auth_end : SESSION → σ → σ
  files_save_bytes_to_file : Option String → List Nat → σ → Bool × σ
  files_load_tpm_context_from_file : Nat → String → σ → (Bool × Nat) × σ
  tpm2_util_string_to_uint32 : String → Nat → Bool × Nat
  tpm2_password_util_from_optarg : String → TPM2B → Bool × TPM2B
  fopen : String → σ → Option FILE × σ
  fread : FILE → Nat → TPM2B → σ → (Nat × TPM2B) × σ
  ferror : FILE → σ → Bool
  feof : FILE → σ → Bool
  strerror_errno : σ → String
  fclose : FILE → σ → σ
  sizeof_TPM2B_ID_OBJECT : Nat
  sizeof_TPM2B_ENCRYPTED_SECRET : Nat

/-- The static `ctx`, zero-initialized. -/
def ctx0 : tpm_activatecred_ctx :=
  { flags := ⟨false, false, false, false, false, false⟩
    handle := ⟨0, 0⟩
    credentialBlob := ⟨0, []⟩
    secret := ⟨0, []⟩
    password := ⟨0, ⟨0, []⟩, ⟨false, false, false, false, false, false⟩, ⟨0, []⟩⟩
    endorse_password := ⟨0, ⟨0, []⟩, ⟨false, false, false, false, false, false⟩, ⟨0, []⟩⟩
    file := ⟨none, none, none⟩ }

/-- The error text `read_cert_secret` picks after a short `fread`. -/
def read_err_msg {σ : Type} (sys : Sys σ) (fp : FILE) (w : σ) : String :=
  if sys.ferror fp w then sys.strerror_errno w
  else if sys.feof fp w then "end of file"
  else "Unknown error"

/-- The function `read_cert_secret`; returns the result and the two structures as left. -/
def read_cert_secret {σ : Type} (sys : Sys σ) (path : String) (credentialBlob : TPM2B)
    (secret : TPM2B) (w : σ) : Outcome σ Event (Bool × TPM2B × TPM2B) :=
  let f := sys.fopen path w
  match f.1 with
  | none =>
    { ret := (false, credentialBlob, secret), world := f.2,
      trace := [Event.fopen path none,
        Event.LOG_ERR "Could not open file \"%s\" error: \"%s\""
          [Arg.str path, Arg.str (sys.strerror_errno f.2)]] }
  | some fp =>
    let r1 := sys.fread fp sys.sizeof_TPM2B_ID_OBJECT credentialBlob f.2
    if r1.1.1 ≠ 1 then
      { ret := (false, r1.1.2, secret), world := sys.fclose fp r1.2,
        trace := [Event.fopen path (some fp),
          Event.fread fp sys.sizeof_TPM2B_ID_OBJECT r1.1.1,
          Event.LOG_ERR "Reading credential from file \"%s\" failed, error: \"%s\""
            [Arg.str path, Arg.str (read_err_msg sys fp r1.2)],
          Event.fclose fp] }
    else
      let r2 := sys.fread fp sys.sizeof_TPM2B_ENCRYPTED_SECRET secret r1.2
      if r2.1.1 ≠ 1 then
        { ret := (false, r1.1.2, r2.1.2), world := sys.fclose fp r2.2,
          trace := [Event.fopen path (some fp),
            Event.fread fp sys.sizeof_TPM2B_ID_OBJECT r1.1.1,
            Event.fread fp sys.sizeof_TPM2B_ENCRYPTED_SECRET r2.1.1,
            Event.LOG_ERR "Reading secret from file \"%s\" failed, error: \"%s\""
              [Arg.str path, Arg.str (read_err_msg sys fp r2.2)],
            Event.fclose fp] }
      else
        { ret := (true, r1.1.2, r2.1.2), world := sys.fclose fp r2.2,
          trace := [Event.fopen path (some fp),
            Event.fread fp sys.sizeof_TPM2B_ID_OBJECT r1.1.1,
            Event.fread fp sys.sizeof_TPM2B_ENCRYPTED_SECRET r2.1.1,
            Event.fclose fp] }

/-- The function `output_and_save`: print the digest in hex, then save its bytes. -/
def output_and_save {σ : Type} (sys : Sys σ) (digest : TPM2B) (path : Option String)
    (w : σ) : Outcome σ Event Bool :=
  let r := sys.files_save_bytes_to_file path (firstBytes digest.buffer digest.size) w
  { ret := r.1, world := r.2,
    trace :=
      [Event.tpm2_tool_output "certinfodata:" []] ++
      (List.range digest.size).map
        (fun k => Event.tpm2_tool_output "%.2x" [Arg.num (byteAt digest.buffer k)]) ++
      [Event.tpm2_tool_output "\n" [],
       Event.files_save_bytes_to_file path (firstBytes digest.buffer digest.size) r.1] }

/-- Arguments of the session start in `activate_credential_and_output`. -/
def startParams : StartAuthParams :=
  { tpmKey := TPM_RH_NULL, bind := TPM_RH_NULL, nonceCaller := TPM2B_EMPTY_INIT,
    encryptedSalt := TPM2B_EMPTY_INIT, sessionType := TPM_SE_POLICY,
    symmetric := TPM2_ALG_NULL, algId := TPM_ALG_SHA256 }

/-- The local `tmp_auth` as first initialized. -/
def tmp_auth_init : TPMS_AUTH_COMMAND :=
  { nonce := ⟨0, []⟩, hmac := ⟨0, []⟩, sessionHandle := 0,
    sessionAttributes := ⟨false, false, false, false, false, false⟩ }

/-- The function `activate_credential_and_output`.  The two assignments of `TPM_RS_PW` to
the session handles of `ctx.password` and `ctx.endorse_password` come first; the arrays hold
pointers, so each call sees the entries as they are when it is made. -/
def activate_credential_and_output {σ : Type} (sys : Sys σ) (ctx : tpm_activatecred_ctx)
    (w : σ) : Outcome σ Event Bool :=
  let tmp_auth := tmp_auth_init
  let password := { ctx.password with sessionHandle := TPM_RS_PW }
  let endorse_password := { ctx.endorse_password with sessionHandle := TPM_RS_PW }
  let s := sys.tpm_session_start_auth_with_params startParams w
  let session := s.1.2
  let e1 := Event.tpm_session_start_auth_with_params startParams s.1.1 session
  if s.1.1 ≠ TPM_RC_SUCCESS then
    { ret := false, world := s.2,
      trace := [e1,
        Event.LOG_ERR "tpm_session_start_auth_with_params Error. TPM Error:0x%x"
          [Arg.num s.1.1]] }
  else
    let ps := sys.Tss2_Sys_PolicySecret TPM_RH_ENDORSEMENT session.sessionHandle
      [endorse_password] s.2
    let e2 := Event.Tss2_Sys_PolicySecret TPM_RH_ENDORSEMENT session.sessionHandle
      [endorse_password] ps.1
    if ps.1 ≠ TPM_RC_SUCCESS then
      { ret := false, world := ps.2,
        trace := [e1, e2,
          Event.LOG_ERR "Tss2_Sys_PolicySecret Error. TPM Error:0x%x" [Arg.num ps.1]] }
    else
      let tmp_auth :=
        { tmp_auth with
          sessionHandle := session.sessionHandle
          sessionAttributes := { tmp_auth.sessionAttributes with continueSession := true }
          hmac := { tmp_auth.hmac with size := 0 } }
      let ac := sys.Tss2_Sys_ActivateCredential ctx.handle.activate ctx.handle.key
        [password, tmp_auth] ctx.credentialBlob ctx.secret ps.2
      let certInfoData := ac.1.2
      let e3 := Event.Tss2_Sys_ActivateCredential ctx.handle.activate ctx.handle.key
        [password, tmp_auth] ctx.credentialBlob ctx.secret ac.1.1 certInfoData
      if ac.1.1 ≠ TPM_RC_SUCCESS then
        { ret := false, world := ac.2,
          trace := [e1, e2, e3,
            Event.LOG_ERR "ActivateCredential failed. TPM Error:0x%x" [Arg.num ac.1.1]] }
      else
        let fl := sys.Tss2_Sys_FlushContext session.sessionHandle ac.2
        let e4 := Event.Tss2_Sys_FlushContext session.sessionHandle fl.1
        if fl.1 ≠ TPM_RC_SUCCESS then
          { ret := false, world := fl.2,
            trace := [e1, e2, e3, e4,
              Event.LOG_ERR "TPM2_Sys_FlushContext Error. TPM Error:0x%x" [Arg.num fl.1]] }
        else
          Outcome.after [e1, e2, e3, e4, Event.tpm_session_auth_end session]
            (output_and_save sys certInfoData ctx.file.output
              (sys.tpm_session_auth_end session fl.2))

/-- The function `on_option`; returns the result and the context as left. -/
def on_option {σ : Type} (sys : Sys σ) (key : Char) (value : String)
    (ctx : tpm_activatecred_ctx) (w : σ) : Outcome σ Event (Bool × tpm_activatecred_ctx) :=
  if key = 'H' then
    let r := sys.tpm2_util_string_to_uint32 value ctx.handle.activate
    let ctx1 := { ctx with handle := { ctx.handle with activate := r.2 } }
    if !r.1 then
      { ret := (false, ctx1), world := w,
        trace := [Event.LOG_ERR "Could not convert -H argument to a number, got \"%s\"!"
          [Arg.str value]] }
    else
      { ret := (true, { ctx1 with flags := { ctx1.flags with H := true } }), world := w,
        trace := [] }
  else if key = 'c' then
    { ret := (true, { ctx with file := { ctx.file with context := some value },
                               flags := { ctx.flags with c := true } }),
      world := w, trace := [] }
  else if key = 'k' then
    let r := sys.tpm2_util_string_to_uint32 value ctx.handle.key
    let ctx1 := { ctx with handle := { ctx.handle with key := r.2 } }
    if !r.1 then
      { ret := (false, ctx1), world := w, trace := [] }
    else
      { ret := (true, { ctx1 with flags := { ctx1.flags with k := true } }), world := w,
        trace := [] }
  else if key = 'C' then
    { ret := (true, { ctx with file := { ctx.file with key_context := some value },
                               flags := { ctx.flags with C := true } }),
      world := w, trace := [] }
  else if key = 'P' then
    let r := sys.tpm2_password_util_from_optarg value ctx.password.hmac
    let ctx1 := { ctx with password := { ctx.password with hmac := r.2 } }
    if !r.1 then
      { ret := (false, ctx1), world := w,
        trace := [Event.LOG_ERR "Invalid handle password, got\"%s\"" [Arg.str value]] }
    else
      { ret := (true, ctx1), world := w, trace := [] }
  else if key = 'e' then
    let r := sys.tpm2_password_util_from_optarg value ctx.endorse_password.hmac
    let ctx1 := { ctx with endorse_password := { ctx.endorse_password with hmac := r.2 } }
    if !r.1 then
      { ret := (false, ctx1), world := w,
        trace := [Event.LOG_ERR "Invalid endorse password, got\"%s\"" [Arg.str value]] }
    else
      { ret := (true, ctx1), world := w, trace := [] }
  else if key = 'f' then
    let r := read_cert_secret sys value ctx.credentialBlob ctx.secret w
    let ctx1 := { ctx with credentialBlob := r.ret.2.1, secret := r.ret.2.2 }
    if !r.ret.1 then
      { ret := (false, ctx1), world := r.world, trace := r.trace }
    else
      { ret := (true, { ctx1 with flags := { ctx1.flags with f := true } }),
        world := r.world, trace := r.trace }
  else if key = 'o' then
    { ret := (true, { ctx with file := { ctx.file with output := some value },
                               flags := { ctx.flags with o := true } }),
      world := w, trace := [] }
  else
    { ret := (true, ctx), world := w, trace := [] }

/-- Modelled from the spec: the CLI layer (`lib/tpm2_options.c`, not among the translated
files) populates the request context before the tool runs; it hands each supplied option to
`on_option` in order and gives up at the first one that `on_option` rejects. -/
def populate {σ : Type} (sys : Sys σ) :
    List (Char × String) → tpm_activatecred_ctx → σ →
      Outcome σ Event (Option tpm_activatecred_ctx)
  | [], ctx, w => { ret := some ctx, world := w, trace := [] }
  | (key, value) :: rest, ctx, w =>
    let r := on_option sys key value ctx w
    if r.ret.1 then Outcome.after r.trace (populate sys rest r.ret.2 r.world)
    else { ret := none, world := r.world, trace := r.trace }

/-- The last step of `tpm2_tool_onrun`: `return activate_credential_and_output(..) != true`. -/
def onrun_activate {σ : Type} (sys : Sys σ) (ctx : tpm_activatecred_ctx) (w : σ) :
    Outcome σ Event Int :=
  let r := activate_credential_and_output sys ctx w
  { ret := intOfBool (r.ret != true), world := r.world, trace := r.trace }

/-- The part of `tpm2_tool_onrun` from `if (ctx.file.key_context)` on. -/
def onrun_key_context {σ : Type} (sys : Sys σ) (ctx : tpm_activatecred_ctx) (w : σ) :
    Outcome σ Event Int :=
  match ctx.file.key_context with
  | some path =>
    let l := sys.files_load_tpm_context_from_file ctx.handle.key path w
    let res := (l.1.1 != true)
    if !res then
      { ret := 1, world := l.2,
        trace := [Event.files_load_tpm_context_from_file path l.1.1 l.1.2] }
    else
      Outcome.after [Event.files_load_tpm_context_from_file path l.1.1 l.1.2]
        (onrun_activate sys { ctx with handle := { ctx.handle with key := l.1.2 } } l.2)
  | none => onrun_activate sys ctx w

/-- The part of `tpm2_tool_onrun` from `if (ctx.file.context)` on. -/
def onrun_context {σ : Type} (sys : Sys σ) (ctx : tpm_activatecred_ctx) (w : σ) :
    Outcome σ Event Int :=
  match ctx.file.context with
  | some path =>
    let l := sys.files_load_tpm_context_from_file ctx.handle.activate path w
    let res := l.1.1
    if !res then
      { ret := 1, world := l.2,
        trace := [Event.files_load_tpm_context_from_file path l.1.1 l.1.2] }
    else
      Outcome.after [Event.files_load_tpm_context_from_file path l.1.1 l.1.2]
        (onrun_key_context sys { ctx with handle := { ctx.handle with activate := l.1.2 } } l.2)
  | none => onrun_key_context sys ctx w

/-- The function `tpm2_tool_onrun`.  The option check ends in `return false`. -/
def tpm2_tool_onrun {σ : Type} (sys : Sys σ) (ctx : tpm_activatecred_ctx) (w : σ) :
    Outcome σ Event Int :=
  if (!ctx.flags.H && !ctx.flags.c) && (!ctx.flags.k || !ctx.flags.C) && !ctx.flags.f
      && !ctx.flags.o then
    { ret := intOfBool false, world := w,
      trace := [Event.LOG_ERR "Expected options (H or c) and (k or C) and f and o" []] }
  else
    onrun_context sys ctx w

/-- The option combination the diagnostic of `tpm2_tool_onrun` asks for. -/
def Flags.expected (f : Flags) : Bool := (f.H || f.c) && (f.k || f.C) && f.f && f.o

/-- Recognizes the diagnostic of the option check. -/
def Event.isExpectedOptionsError : Event → Bool
  | Event.LOG_ERR fmt _ => fmt == "Expected options (H or c) and (k or C) and f and o"
  | _ => false

/-- Recognizes a flush of a context. -/
def Event.isFlush : Event → Bool
  | Event.Tss2_Sys_FlushContext _ _ => true
  | _ => false

/-- Recognizes a call of `Tss2_Sys_ActivateCredential`. -/
def Event.isActivate : Event → Bool
  | Event.Tss2_Sys_ActivateCredential _ _ _ _ _ _ _ => true
  | _ => false

/-- Recognizes a call of `Tss2_Sys_PolicySecret`. -/
def Event.isPolicySecret : Event → Bool
  | Event.Tss2_Sys_PolicySecret _ _ _ _ => true
  | _ => false

/-- Recognizes a session start. -/
def Event.isSessionStart : Event → Bool
  | Event.tpm_session_start_auth_with_params _ _ _ => true
  | _ => false

/-- Recognizes the events by which the secret is reported: printing and saving. -/
def Event.isReport : Event → Bool
  | Event.tpm2_tool_output _ _ => true
  | Event.files_save_bytes_to_file _ _ _ => true
  | _ => false

/-- Recognizes a write of the output file. -/
def Event.isSave : Event → Bool
  | Event.files_save_bytes_to_file _ _ _ => true
  | _ => false

/-- The auth entries a run passes to `Tss2_Sys_ActivateCredential` once `session` is started:
the password auth of the object, then `tmp_auth` bound to the session. -/
def activateAuths (ctx : tpm_activatecred_ctx) (session : SESSION) : List TPMS_AUTH_COMMAND :=
  [{ ctx.password with sessionHandle := TPM_RS_PW },
   { nonce := ⟨0, []⟩, hmac := ⟨0, []⟩, sessionHandle := session.sessionHandle,
     sessionAttributes := ⟨true, false, false, false, false, false⟩ }]

/-- The events of `output_and_save` for the digest `cert`, the path `path` and the result
`ok` of the file writer. -/
def reportEvents (cert : TPM2B) (path : Option String) (ok : Bool) : List Event :=
  [Event.tpm2_tool_output "certinfodata:" []] ++
  (List.range cert.size).map
    (fun k => Event.tpm2_tool_output "%.2x" [Arg.num (byteAt cert.buffer k)]) ++
  [Event.tpm2_tool_output "\n" [],
   Event.files_save_bytes_to_file path (firstBytes cert.buffer cert.size) ok]

/-- The five ways a run of `activate_credential_and_output` can go, as trace and returned
value; `rv` and `session` are what the session start handed back. -/
inductive Run (ctx : tpm_activatecred_ctx) (rv : Nat) (session : SESSION) :
    List Event → Bool → Prop where
  | start_failed : rv ≠ TPM_RC_SUCCESS →
      Run ctx rv session
        [Event.tpm_session_start_auth_with_params startParams rv session,
         Event.LOG_ERR "tpm_session_start_auth_with_params Error. TPM Error:0x%x"
           [Arg.num rv]] false
  | policy_secret_failed (rv2 : Nat) : rv = TPM_RC_SUCCESS → rv2 ≠ TPM_RC_SUCCESS →
      Run ctx rv session
        [Event.tpm_session_start_auth_with_params startParams rv session,
         Event.Tss2_Sys_PolicySecret TPM_RH_ENDORSEMENT session.sessionHandle
           [{ ctx.endorse_password with sessionHandle := TPM_RS_PW }] rv2,
         Event.LOG_ERR "Tss2_Sys_PolicySecret Error. TPM Error:0x%x" [Arg.num rv2]] false
  | activate_failed (rv3 : Nat) (cert : TPM2B) : rv = TPM_RC_SUCCESS →
      rv3 ≠ TPM_RC_SUCCESS →
      Run ctx rv session
        [Event.tpm_session_start_auth_with_params startParams rv session,
         Event.Tss2_Sys_PolicySecret TPM_RH_ENDORSEMENT session.sessionHandle
           [{ ctx.endorse_password with sessionHandle := TPM_RS_PW }] TPM_RC_SUCCESS,
         Event.Tss2_Sys_ActivateCredential ctx.handle.activate ctx.handle.key
           (activateAuths ctx session) ctx.credentialBlob ctx.secret rv3 cert,
         Event.LOG_ERR "ActivateCredential failed. TPM Error:0x%x" [Arg.num rv3]] false
  | flush_failed (cert : TPM2B) (rv4 : Nat) : rv = TPM_RC_SUCCESS →
      rv4 ≠ TPM_RC_SUCCESS →
      Run ctx rv session
        [Event.tpm_session_start_auth_with_params startParams rv session,
         Event.Tss2_Sys_PolicySecret TPM_RH_ENDORSEMENT session.sessionHandle
           [{ ctx.endorse_password with sessionHandle := TPM_RS_PW }] TPM_RC_SUCCESS,
         Event.Tss2_Sys_ActivateCredential ctx.handle.activate ctx.handle.key
           (activateAuths ctx session) ctx.credentialBlob ctx.secret TPM_RC_SUCCESS cert,
         Event.Tss2_Sys_FlushContext session.sessionHandle rv4,
         Event.LOG_ERR "TPM2_Sys_FlushContext Error. TPM Error:0x%x" [Arg.num rv4]] false
  | reported (cert : TPM2B) (ok : Bool) : rv = TPM_RC_SUCCESS →
      Run ctx rv session
        ([Event.tpm_session_start_auth_with_params startParams rv session,
          Event.Tss2_Sys_PolicySecret TPM_RH_ENDORSEMENT session.sessionHandle
            [{ ctx.endorse_password with sessionHandle := TPM_RS_PW }] TPM_RC_SUCCESS,
          Event.Tss2_Sys_ActivateCredential ctx.handle.activate ctx.handle.key
            (activateAuths ctx session) ctx.credentialBlob ctx.secret TPM_RC_SUCCESS cert,
          Event.Tss2_Sys_FlushContext session.sessionHandle TPM_RC_SUCCESS,
          Event.tpm_session_auth_end session] ++
         reportEvents cert ctx.file.output ok) ok

/-- Example system.  The session start succeeds with handle `0x03000000`; `PolicySecret`,
`ActivateCredential` and `FlushContext` answer `psRc`, `acRc` and `flRc`; a successful
activation recovers the secret `de ad be ef`; context files load when `loads` is true. -/
def sampleSys (psRc acRc flRc : Nat) (loads : Bool) : Sys Disk :=
  { tpm_session_start_auth_with_params := fun _ d => ((TPM_RC_SUCCESS, ⟨0x03000000⟩), d)
    Tss2_Sys_PolicySecret := fun _ _ _ d => (psRc, d)
    Tss2_Sys_ActivateCredential := fun _ _ _ _ _ d =>
      ((acRc, if acRc = TPM_RC_SUCCESS then ⟨4, [0xde, 0xad, 0xbe, 0xef]⟩ else ⟨0, []⟩), d)
    Tss2_Sys_FlushContext := fun _ d => (flRc, d)
    tpm_session_auth_end := fun _ d => d
    files_save_bytes_to_file := Disk.save
    files_load_tpm_context_from_file := fun h _ d =>
      ((loads, if loads then 0x80000001 else h), d)
    tpm2_util_string_to_uint32 := fun s h =>
      if s = "0x81010001" then (true, 0x81010001) else (false, h)
    tpm2_password_util_from_optarg := fun s _ => (true, ⟨s.length, s.data.map Char.toNat⟩)
    fopen := fun _ d => (some 3, d)
    fread := fun _ n _ d => ((1, ⟨n, []⟩), d)
    ferror := fun _ _ => false
    feof := fun _ _ => false
    strerror_errno := fun _ => "Success"
    fclose := fun _ d => d
    sizeof_TPM2B_ID_OBJECT := 134
    sizeof_TPM2B_ENCRYPTED_SECRET := 258 }

/-- Example context: every option the tool documents, given by handle. -/
def sampleCtx : tpm_activatecred_ctx :=
  { ctx0 with
    flags := ⟨true, false, true, false, true, true⟩
    handle := ⟨0x81010002, 0x81010001⟩
    credentialBlob := ⟨2, [7, 7]⟩
    secret := ⟨2, [9, 9]⟩
    file := ⟨some "secret.bin", none, none⟩ }

/-- Example context as the options `-H 0x81010001 -C key.ctx -f cred.bin -o secret.bin`
leave it under `sampleSys`. -/
def keyContextCtx : tpm_activatecred_ctx :=
  { ctx0 with
    flags := ⟨true, false, false, true, true, true⟩
    handle := ⟨0x81010001, 0⟩
    credentialBlob := ⟨134, []⟩
    secret := ⟨258, []⟩
    file := ⟨some "secret.bin", none, some "key.ctx"⟩ }

end ActivateCredential

/-! ## tpm2_load.c -/

namespace Load

/-- Option flags of `tpm_load_ctx`. -/
structure Flags where
  H : Bool
  u : Bool
  r : Bool
  c : Bool
  C : Bool
deriving DecidableEq, Repr

/-- The member `auth` of `tpm_load_ctx`; `session` is a pointer, `none` when null. -/
structure Auth where
  session_data : TPMS_AUTH_COMMAND
  session : Option Nat
deriving DecidableEq, Repr

/-- The structure `TPM2B_PUBLIC`, its public area kept as marshalled bytes. -/
structure TPM2B_PUBLIC where
  size : Nat
  publicArea : List Nat
deriving DecidableEq, Repr

/-- The structure `TPM2B_NAME`. -/
structure TPM2B_NAME where
  size : Nat
  name : List Nat
deriving DecidableEq, Repr

/-- The request context `struct tpm_load_ctx`. -/
structure tpm_load_ctx where
  auth : Auth
  parent_handle : Nat
  in_public : TPM2B_PUBLIC
  in_private : TPM2B
  out_file : Option String
  context_file : Option String
  context_parent_file : Option String
  flags : Flags
deriving DecidableEq, Repr

/-- Output side of `Tss2_Sys_Load`: response code, object handle and name. -/
structure LoadResponse where
  rval : Nat
  objectHandle : Nat
  name : TPM2B_NAME
deriving DecidableEq, Repr

/-- Calls and diagnostics of `load` and `tpm2_tool_onrun`, in the order they happen. -/
inductive Event where
  | Tss2_Sys_Load (parentHandle : Nat) (cmdAuthsArray : List TPMS_AUTH_COMMAND)
      (inPrivate : TPM2B) (inPublic : TPM2B_PUBLIC) (rsp : LoadResponse)
  | LOG_PERR (func : String) (rval : Nat)
  | tpm2_tool_output (fmt : String) (args : List Arg)
  | files_save_bytes_to_file (path : Option String) (bytes : List Nat) (ok : Bool)
  | LOG_ERR (fmt : String) (args : List Arg)
  | files_load_tpm_context_from_path (path : Option String) (ok : Bool) (handle : Nat)
  | files_save_tpm_context_to_path (handle : Nat) (path : Option String) (ok : Bool)
  | tpm2_session_save (session : Option Nat) (ok : Bool)
deriving DecidableEq, Repr

/-- External functions used by `load` and `tpm2_tool_onrun`.
`files_load_tpm_context_from_path` receives the current value of the handle it writes
through a pointer and returns its value after the call. -/
structure Sys (σ : Type) where
  Tss2_Sys_Load :
    Nat → List TPMS_AUTH_COMMAND → TPM2B → TPM2B_PUBLIC → σ → LoadResponse × σ
  files_save_bytes_to_file : Option String → List Nat → σ → Bool × σ
  files_load_tpm_context_from_path : Nat → Option String → σ → (Bool × Nat) × σ
  files_save_tpm_context_to_path : Nat → Option String → σ → Bool × σ
  tpm2_session_save : Option Nat → σ → Bool × σ

/-- The function `load`.  The value returned is the pair of the `int` result and the global
`handle` as the call leaves it. -/
def load {σ : Type} (sys : Sys σ) (ctx : tpm_load_ctx) (w : σ) :
    Outcome σ Event (Int × Nat) :=
  let sessionsData := [ctx.auth.session_data]
  let l := sys.Tss2_Sys_Load ctx.parent_handle sessionsData ctx.in_private ctx.in_public w
  let handle := l.1.objectHandle
  let nameExt := l.1.name
  let e1 := Event.Tss2_Sys_Load ctx.parent_handle sessionsData ctx.in_private ctx.in_public l.1
  if l.1.rval ≠ TPM2_RC_SUCCESS then
    { ret := (-1, handle), world := l.2,
      trace := [e1, Event.LOG_PERR "Tss2_Sys_Load" l.1.rval] }
  else
    let e2 := Event.tpm2_tool_output "handle: 0x%08x\n" [Arg.num handle]
    match ctx.out_file with
    | some path =>
      let s := sys.files_save_bytes_to_file (some path)
        (firstBytes nameExt.name nameExt.size) l.2
      let e3 := Event.files_save_bytes_to_file (some path)
        (firstBytes nameExt.name nameExt.size) s.1
      if !s.1 then
        { ret := (-2, handle), world := s.2, trace := [e1, e2, e3] }
      else
        { ret := (0, handle), world := s.2, trace := [e1, e2, e3] }
    | none => { ret := (0, handle), world := l.2, trace := [e1, e2] }

/-- Recognizes a write of a file. -/
def Event.isSave : Event → Bool
  | Event.files_save_bytes_to_file _ _ _ => true
  | _ => false

/-- The part of `tpm2_tool_onrun` from the call of `load` to the label `out`; the value
returned is `rc` as it stands at the label. -/
def onrun_load {σ : Type} (sys : Sys σ) (ctx : tpm_load_ctx) (w : σ) : Outcome σ Event Int :=
  let l := load sys ctx w
  let tmp_rc := l.ret.1
  let handle := l.ret.2
  if tmp_rc ≠ 0 then
    { ret := 1, world := l.world, trace := l.trace }
  else if ctx.flags.C then
    let s := sys.files_save_tpm_context_to_path handle ctx.context_file l.world
    if !s.1 then
      { ret := 1, world := s.2,
        trace := l.trace ++ [Event.files_save_tpm_context_to_path handle ctx.context_file s.1] }
    else
      { ret := 0, world := s.2,
        trace := l.trace ++ [Event.files_save_tpm_context_to_path handle ctx.context_file s.1] }
  else
    { ret := 0, world := l.world, trace := l.trace }

/-- The part of `tpm2_tool_onrun` before the label `out`; the value returned is `rc` as it
stands at the label. -/
def onrun_body {σ : Type} (sys : Sys σ) (ctx : tpm_load_ctx) (w : σ) : Outcome σ Event Int :=
  if (!ctx.flags.H && !ctx.flags.c) || (!ctx.flags.u || !ctx.flags.r) then
    { ret := 1, world := w,
      trace := [Event.LOG_ERR "Expected options (H or c) and u and r" []] }
  else if ctx.flags.c then
    let p := sys.files_load_tpm_context_from_path ctx.parent_handle ctx.context_parent_file w
    if !p.1.1 then
      { ret := 1, world := p.2,
        trace := [Event.files_load_tpm_context_from_path ctx.context_parent_file p.1.1 p.1.2] }
    else
      Outcome.after
        [Event.files_load_tpm_context_from_path ctx.context_parent_file p.1.1 p.1.2]
        (onrun_load sys { ctx with parent_handle := p.1.2 } p.2)
  else
    onrun_load sys ctx w

/-- The function `tpm2_tool_onrun`: the body, then at `out` the session save. -/
def tpm2_tool_onrun {σ : Type} (sys : Sys σ) (ctx : tpm_load_ctx) (w : σ) :
    Outcome σ Event Int :=
  let b := onrun_body sys ctx w
  let s := sys.tpm2_session_save ctx.auth.session b.world
  { ret := if !s.1 then 1 else b.ret, world := s.2,
    trace := b.trace ++ [Event.tpm2_session_save ctx.auth.session s.1] }

/-- The option combination the diagnostic of `tpm2_tool_onrun` asks for. -/
def Flags.expected (f : Flags) : Bool := (f.H || f.c) && f.u && f.r

/-- Recognizes a session save. -/
def Event.isSessionSave : Event → Bool
  | Event.tpm2_session_save _ _ => true
  | _ => false

/-- Recognizes a call of `Tss2_Sys_Load`. -/
def Event.isLoad : Event → Bool
  | Event.Tss2_Sys_Load _ _ _ _ _ => true
  | _ => false

/-- Recognizes a call of the context loader. -/
def Event.isContextLoad : Event → Bool
  | Event.files_load_tpm_context_from_path _ _ _ => true
  | _ => false

/-- Recognizes a call of the context writer. -/
def Event.isContextSave : Event → Bool
  | Event.files_save_tpm_context_to_path _ _ _ => true
  | _ => false

/-- Recognizes a step that reported failure: a context load, a TPM load, a name save, a
context save or a session save that did not succeed. -/
def Event.failed : Event → Bool
  | Event.files_load_tpm_context_from_path _ ok _ => !ok
  | Event.Tss2_Sys_Load _ _ _ _ rsp => rsp.rval != TPM2_RC_SUCCESS
  | Event.files_save_bytes_to_file _ _ ok => !ok
  | Event.files_save_tpm_context_to_path _ _ ok => !ok
  | Event.tpm2_session_save _ ok => !ok
  | _ => false

/-- Example system: the TPM answers `rc` to the load and names the object `00 0b aa bb`; the
name writer, the parent context loader, the context writer and the session save succeed
exactly when `writable`, `parentLoads`, `ctxSaves` and `sessionSaves` are true. -/
def sampleSysWith (rc : Nat) (writable parentLoads ctxSaves sessionSaves : Bool) : Sys Disk :=
  { Tss2_Sys_Load := fun _ _ _ _ d =>
      ({ rval := rc, objectHandle := 0x80000001,
         name := ⟨4, [0x00, 0x0b, 0xaa, 0xbb, 0xcc]⟩ }, d)
    files_save_bytes_to_file := fun p b d => if writable then Disk.save p b d else (false, d)
    files_load_tpm_context_from_path := fun h _ d =>
      ((parentLoads, if parentLoads then 0x80000000 else h), d)
    files_save_tpm_context_to_path := fun _ p d =>
      if ctxSaves then Disk.save p [] d else (false, d)
    tpm2_session_save := fun _ d => (sessionSaves, d) }

/-- Example system: the TPM loads the object when `rc` is the success code and names it
`00 0b aa bb`; the file writer succeeds exactly when `writable` is true. -/
def sampleSys (rc : Nat) (writable : Bool) : Sys Disk :=
  sampleSysWith rc writable true true true

/-- Example context: parent `0x81010001`, name requested at `name.bin`. -/
def sampleCtx : tpm_load_ctx :=
  { auth := ⟨⟨TPM_RS_PW, ⟨0, []⟩, ⟨false, false, false, false, false, false⟩, ⟨0, []⟩⟩, none⟩
    parent_handle := 0x81010001
    in_public := ⟨2, [1, 2]⟩
    in_private := ⟨2, [3, 4]⟩
    out_file := some "name.bin"
    context_file := none
    context_parent_file := none
    flags := ⟨true, true, true, false, false⟩ }

end Load

/-! ## tpm2_policysigned.c -/

/-- The enumeration `tool_rc` of `lib/tpm2_tool.h`. -/
inductive tool_rc where
  | tool_rc_success
  | tool_rc_general_error
  | tool_rc_option_error
  | tool_rc_auth_error
  | tool_rc_tcti_error
  | tool_rc_unsupported
deriving DecidableEq, Repr

namespace PolicySigned

/-- The flag bits of `tpm2_policysigned_ctx`. -/
structure Flags where
  halg : Bool
  sig : Bool
  fmt : Bool
deriving DecidableEq, Repr

/-- The request context `struct tpm2_policysigned_ctx`.  Pointers are options, `none` when
null; the signature and the loaded object are kept as the bytes and the handle they hold. -/
structure tpm2_policysigned_ctx where
  session_path : Option String
  session : Option Nat
  policy_digest_path : Option String
  signature : List Nat
  format : Nat
  halg : Nat
  sig_file_path : Option String
  context_arg : Option String
  key_context_object : Nat
  flags : Flags
deriving DecidableEq, Repr

/-- The enumeration `tpm2_convert_sig_fmt`. -/
inductive tpm2_convert_sig_fmt where
  | signature_format_tss
  | signature_format_plain
deriving DecidableEq, Repr

/-- The two algorithm classes `on_option` asks `tpm2_alg_util_from_optarg` for. -/
inductive tpm2_alg_util_flags where
  | tpm2_alg_util_flags_hash
  | tpm2_alg_util_flags_sig
deriving DecidableEq, Repr

/-- The algorithm identifier `TPM2_ALG_ERROR`. -/
def TPM2_ALG_ERROR : Nat := 0x0000

/-- Calls and diagnostics of the tool, in the order they happen. -/
inductive Event where
  | LOG_ERR (fmt : String) (args : List Arg)
  | tpm2_convert_sig_load (path : Option String) (fmt : tpm2_convert_sig_fmt) (format : Nat)
      (halg : Nat) (ok : Bool)
  | tpm2_util_object_load (objectstr : Option String) (flags : Nat) (rc : tool_rc)
  | tpm2_session_restore (path : Option String) (is_final : Bool) (rc : tool_rc)
  | tpm2_policy_build_policysigned (session : Option Nat) (key : Nat) (signature : List Nat)
      (rc : tool_rc)
  | tpm2_policy_tool_finish (session : Option Nat) (path : Option String) (rc : tool_rc)
deriving DecidableEq, Repr

/-- External functions used by the tool.  A function that writes through a pointer receives
the current value of the object and returns its value after the call. -/
structure Sys (σ : Type) where
  tpm2_alg_util_from_optarg : String → tpm2_alg_util_flags → Nat
  tpm2_convert_sig_load :
    Option String → tpm2_convert_sig_fmt → Nat → Nat → List Nat → σ → (Bool × List Nat) × σ
  tpm2_util_object_load : Option String → Nat → Nat → σ → (tool_rc × Nat) × σ
  tpm2_session_restore : Option String → Bool → Option Nat → σ → (tool_rc × Option Nat) × σ
  tpm2_policy_build_policysigned : Option Nat → Nat → List Nat → σ → tool_rc × σ
  tpm2_policy_tool_finish : Option Nat → Option String → σ → tool_rc × σ
  TPM2_HANDLES_FLAGS_TRANSIENT : Nat
  TPM2_HANDLES_FLAGS_PERSISTENT : Nat

/-- The static `ctx`, zero-initialized. -/
def ctx0 : tpm2_policysigned_ctx :=
  { session_path := none, session := none, policy_digest_path := none, signature := [],
    format := 0, halg := 0, sig_file_path := none, context_arg := none,
    key_context_object := 0, flags := ⟨false, false, false⟩ }

/-- The function `on_option`; returns the result, the context as left and the diagnostics. -/
def on_option {σ : Type} (sys : Sys σ) (key : Char) (value : String)
    (ctx : tpm2_policysigned_ctx) : (Bool × tpm2_policysigned_ctx) × List Event :=
  if key = 'L' then
    ((true, { ctx with policy_digest_path := some value }), [])
  else if key = 'S' then
    ((true, { ctx with session_path := some value }), [])
  else if key = 'g' then
    let ctx1 :=
      { ctx with halg := sys.tpm2_alg_util_from_optarg value
                   tpm2_alg_util_flags.tpm2_alg_util_flags_hash }
    if ctx1.halg = TPM2_ALG_ERROR then
      ((false, ctx1),
        [Event.LOG_ERR "Unable to convert algorithm, got: \"%s\"" [Arg.str value]])
    else
      ((true, { ctx1 with flags := { ctx1.flags with halg := true } }), [])
  else if key = 'f' then
    let ctx1 :=
      { ctx with format := sys.tpm2_alg_util_from_optarg value
                   tpm2_alg_util_flags.tpm2_alg_util_flags_sig }
    if ctx1.format = TPM2_ALG_ERROR then
      ((false, ctx1), [Event.LOG_ERR "Unknown signing scheme, got: \"%s\"" [Arg.str value]])
    else
      ((true, { ctx1 with flags := { ctx1.flags with fmt := true } }), [])
  else if key = 's' then
    ((true, { ctx with sig_file_path := some value,
                       flags := { ctx.flags with sig := true } }), [])
  else if key = 'c' then
    ((true, { ctx with context_arg := some value }), [])
  else
    ((true, ctx), [])

/-- Modelled from the spec: the CLI layer (`lib/tpm2_options.c`, not among the translated
files) populates the request context before the tool runs; it hands each supplied option to
`on_option` in order and gives up at the first one that `on_option` rejects. -/
def populate {σ : Type} (sys : Sys σ) :
    List (Char × String) → tpm2_policysigned_ctx → Option tpm2_policysigned_ctx
  | [], ctx => some ctx
  | (key, value) :: rest, ctx =>
    if (on_option sys key value ctx).1.1 then
      populate sys rest (on_option sys key value ctx).1.2
    else none

/-- The function `is_input_option_args_valid`; returns the result and the diagnostics. -/
def is_input_option_args_valid (ctx : tpm2_policysigned_ctx) : Bool × List Event :=
  if ctx.session_path.isNone then
    (false, [Event.LOG_ERR "Must specify -S session file." []])
  else if !(ctx.context_arg.isSome && ctx.flags.sig && ctx.flags.halg) then
    (false, [Event.LOG_ERR "--key-context, --sig, --hash-algorithm are required" []])
  else
    (true, [])

/-- The part of `tpm2_tool_onrun` from the call of `tpm2_util_object_load` on. -/
def onrun_object_load {σ : Type} (sys : Sys σ) (ctx : tpm2_policysigned_ctx) (w : σ) :
    Outcome σ Event tool_rc :=
  let flags := sys.TPM2_HANDLES_FLAGS_TRANSIENT ||| sys.TPM2_HANDLES_FLAGS_PERSISTENT
  let o := sys.tpm2_util_object_load ctx.context_arg flags ctx.key_context_object w
  let tmp_rc := o.1.1
  let e1 := Event.tpm2_util_object_load ctx.context_arg flags tmp_rc
  if tmp_rc ≠ tool_rc.tool_rc_success then
    { ret := tmp_rc, world := o.2, trace := [e1] }
  else
    let r := sys.tpm2_session_restore ctx.session_path false ctx.session o.2
    let rc := r.1.1
    let session := r.1.2
    let e2 := Event.tpm2_session_restore ctx.session_path false rc
    if rc ≠ tool_rc.tool_rc_success then
      { ret := rc, world := r.2, trace := [e1, e2] }
    else
      let b := sys.tpm2_policy_build_policysigned session o.1.2 ctx.signature r.2
      let e3 := Event.tpm2_policy_build_policysigned session o.1.2 ctx.signature b.1
      if b.1 ≠ tool_rc.tool_rc_success then
        { ret := b.1, world := b.2,
          trace := [e1, e2, e3, Event.LOG_ERR "Could not build policysigned TPM" []] }
      else
        let f := sys.tpm2_policy_tool_finish session ctx.policy_digest_path b.2
        { ret := f.1, world := f.2,
          trace := [e1, e2, e3,
            Event.tpm2_policy_tool_finish session ctx.policy_digest_path f.1] }

/-- The function `tpm2_tool_onrun`. -/
def tpm2_tool_onrun {σ : Type} (sys : Sys σ) (ctx : tpm2_policysigned_ctx) (w : σ) :
    Outcome σ Event tool_rc :=
  let v := is_input_option_args_valid ctx
  if !v.1 then
    { ret := tool_rc.tool_rc_option_error, world := w, trace := v.2 }
  else if ctx.flags.sig then
    let fmt := if ctx.flags.fmt then tpm2_convert_sig_fmt.signature_format_plain
      else tpm2_convert_sig_fmt.signature_format_tss
    let l := sys.tpm2_convert_sig_load ctx.sig_file_path fmt ctx.format ctx.halg
      ctx.signature w
    let e := Event.tpm2_convert_sig_load ctx.sig_file_path fmt ctx.format ctx.halg l.1.1
    if !l.1.1 then
      { ret := tool_rc.tool_rc_general_error, world := l.2, trace := v.2 ++ [e] }
    else
      Outcome.after (v.2 ++ [e]) (onrun_object_load sys { ctx with signature := l.1.2 } l.2)
  else
    Outcome.after v.2 (onrun_object_load sys ctx w)

/-- Recognizes a load of the signature file. -/
def Event.isSigLoad : Event → Bool
  | Event.tpm2_convert_sig_load _ _ _ _ _ => true
  | _ => false

/-- Recognizes a load of the signer object. -/
def Event.isObjectLoad : Event → Bool
  | Event.tpm2_util_object_load _ _ _ => true
  | _ => false

/-- Recognizes a session restore. -/
def Event.isRestore : Event → Bool
  | Event.tpm2_session_restore _ _ _ => true
  | _ => false

/-- Recognizes a policy assertion. -/
def Event.isBuild : Event → Bool
  | Event.tpm2_policy_build_policysigned _ _ _ _ => true
  | _ => false

/-- Recognizes the finishing step. -/
def Event.isFinish : Event → Bool
  | Event.tpm2_policy_tool_finish _ _ _ => true
  | _ => false

/-- Recognizes one of the four steps before the finishing step reporting failure. -/
def Event.stepFailed : Event → Bool
  | Event.tpm2_convert_sig_load _ _ _ _ ok => !ok
  | Event.tpm2_util_object_load _ _ rc => rc != tool_rc.tool_rc_success
  | Event.tpm2_session_restore _ _ rc => rc != tool_rc.tool_rc_success
  | Event.tpm2_policy_build_policysigned _ _ _ rc => rc != tool_rc.tool_rc_success
  | _ => false

/-- Drops the diagnostics from a trace, keeping the calls. -/
def calls (t : List Event) : List Event :=
  t.filter (fun e => match e with
    | Event.LOG_ERR _ _ => false
    | _ => true)

/-- Example system: the signature file parses exactly when `sigOk` is true; the signer
object load, the session restore, the policy assertion and the finishing step answer
`objRc`, `resRc`, `buildRc` and `finRc`; algorithm names `sha256` and `rsassa` are known. -/
def sampleSys (sigOk : Bool) (objRc resRc buildRc finRc : tool_rc) : Sys Unit :=
  { tpm2_alg_util_from_optarg := fun s _ =>
      if s = "sha256" then 0x000B else if s = "rsassa" then 0x0014 else TPM2_ALG_ERROR
    tpm2_convert_sig_load := fun _ _ _ _ sig u => ((sigOk, if sigOk then [1, 2, 3] else sig), u)
    tpm2_util_object_load := fun _ _ _ u => ((objRc, 0x81010001), u)
    tpm2_session_restore := fun _ _ _ u => ((resRc, some 0x03000000), u)
    tpm2_policy_build_policysigned := fun _ _ _ u => (buildRc, u)
    tpm2_policy_tool_finish := fun _ _ u => (finRc, u)
    TPM2_HANDLES_FLAGS_TRANSIENT := 1
    TPM2_HANDLES_FLAGS_PERSISTENT := 2 }

/-- Example context: session file, key context, signature file and hash algorithm given. -/
def sampleCtx : tpm2_policysigned_ctx :=
  { ctx0 with
    session_path := some "session.dat"
    context_arg := some "key.ctx"
    sig_file_path := some "sig.bin"
    halg := 0x000B
    flags := ⟨true, true, false⟩ }

end PolicySigned

/-! ## tpm2_createprimary.c -/

namespace CreatePrimary

/-- The member `parent` of `tpm_createprimary_ctx`. -/
structure Parent where
  auth_str : Option String
  session : Option Nat
deriving DecidableEq, Repr

/-- The input side of `tpm2_hierarchy_pdata` (its member `in`); the public area and the PCR
selection are kept as bytes. -/
structure PdataIn where
  hierarchy : Nat
  sensitive_userAuth : TPM2B
  «public» : List Nat
  outside_info : TPM2B
  creation_pcr : List Nat
deriving DecidableEq, Repr

/-- The output side of `tpm2_hierarchy_pdata` (its member `out`), with `creation.data` and
`creation.ticket` flattened. -/
structure PdataOut where
  handle : Nat
  «public» : List Nat
  hash : List Nat
  creation_data : List Nat
  creation_ticket : List Nat
deriving DecidableEq, Repr

/-- The structure `tpm2_hierarchy_pdata`; the member `in` is spelled `input`. -/
structure tpm2_hierarchy_pdata where
  input : PdataIn
  out : PdataOut
deriving DecidableEq, Repr

/-- The request context `struct tpm_createprimary_ctx`. -/
structure tpm_createprimary_ctx where
  parent : Parent
  objdata : tpm2_hierarchy_pdata
  context_file : Option String
  unique_file : Option String
  key_auth_str : Option String
  creation_data_file : Option String
  creation_ticket_file : Option String
  creation_hash_file : Option String
  outside_info_file : Option String
  alg : Option String
  halg : Option String
  attrs : Option String
  policy : Option String
deriving DecidableEq, Repr

/-- Calls and diagnostics of `tpm2_tool_onrun`, in the order they happen. -/
inductive Event where
  | LOG_ERR (fmt : String) (args : List Arg)
  | tpm2_auth_util_from_optarg (with_ectx : Bool) (password : Option String)
      (is_restricted : Bool) (rc : tool_rc)
  | tpm2_session_close (session : Option Nat)
  | tpm2_alg_util_public_init (ok : Bool)
  | files_get_file_size_path (path : Option String) (ok : Bool) (file_size : Nat)
  | files_load_bytes_from_path (path : Option String) (ok : Bool)
  | tpm2_hierarchy_create_primary (session : Option Nat) (input : PdataIn) (rc : tool_rc)
  | tpm2_util_public_to_yaml («public» : List Nat)
  | files_save_tpm_context_to_path (handle : Nat) (path : Option String) (rc : tool_rc)
  | files_save_creation_data (data : List Nat) (path : Option String) (ok : Bool)
  | files_save_creation_ticket (ticket : List Nat) (path : Option String) (ok : Bool)
  | files_save_digest (digest : List Nat) (path : Option String) (ok : Bool)
deriving DecidableEq, Repr

/-- External functions used by `tpm2_tool_onrun`.  A function that writes through a pointer
receives the current value of the object and returns its value after the call. -/
structure Sys (σ : Type) where
  tpm2_auth_util_from_optarg :
    Bool → Option String → Option Nat → Bool → σ → (tool_rc × Option Nat) × σ
  tpm2_session_get_auth_value : Option Nat → σ → TPM2B
  tpm2_session_close : Option Nat → σ → Option Nat × σ
  tpm2_alg_util_public_init :
    Option String → Option String → Option String → Option String → Option String → Nat →
      List Nat → σ → (Bool × List Nat) × σ
  files_get_file_size_path : Option String → Nat → σ → (Bool × Nat) × σ
  files_load_bytes_from_path : Option String → TPM2B → σ → (Bool × TPM2B) × σ
  tpm2_hierarchy_create_primary :
    Option Nat → tpm2_hierarchy_pdata → σ → (tool_rc × tpm2_hierarchy_pdata) × σ
  files_save_tpm_context_to_path : Nat → Option String → σ → tool_rc × σ
  files_save_creation_data : List Nat → Option String → σ → Bool × σ
  files_save_creation_ticket : List Nat → Option String → σ → Bool × σ
  files_save_digest : List Nat → Option String → σ → Bool × σ
  DEFAULT_ATTRS : Nat

/-- The handle `TPM2_RH_OWNER`. -/
def TPM2_RH_OWNER : Nat := 0x40000001

/-- The macro `DEFAULT_PRIMARY_KEY_ALG`. -/
def DEFAULT_PRIMARY_KEY_ALG : String := "rsa2048:null:aes128cfb"

/-- The static `ctx` as initialized. -/
def ctx0 : tpm_createprimary_ctx :=
  { parent := ⟨none, none⟩
    objdata :=
      { input := { hierarchy := TPM2_RH_OWNER, sensitive_userAuth := TPM2B_EMPTY_INIT,
                   «public» := [], outside_info := TPM2B_EMPTY_INIT, creation_pcr := [] }
        out := { handle := 0, «public» := [], hash := [], creation_data := [],
                 creation_ticket := [] } }
    context_file := none, unique_file := none, key_auth_str := none,
    creation_data_file := none, creation_ticket_file := none, creation_hash_file := none,
    outside_info_file := none, alg := some DEFAULT_PRIMARY_KEY_ALG, halg := none,
    attrs := none, policy := none }

/-- The locals `result` and `rc` together with the world and the events so far. -/
structure SaveState (σ : Type) where
  result : Bool
  rc : tool_rc
  world : σ
  trace : List Event

/-- One optional save of `tpm2_tool_onrun`, the pattern its last three steps share:
`if (file) { result = save(.., file); } if (!result) { LOG_ERR(msg); rc =
tool_rc_general_error; }`. -/
def save_step {σ : Type} (file : Option String) (save : Option String → σ → Bool × σ)
    (ev : Option String → Bool → Event) (msg : String) (st : SaveState σ) : SaveState σ :=
  let st1 : SaveState σ :=
    match file with
    | some path =>
      let r := save (some path) st.world
      { result := r.1, rc := st.rc, world := r.2, trace := st.trace ++ [ev (some path) r.1] }
    | none => st
  if !st1.result then
    { result := st1.result, rc := tool_rc.tool_rc_general_error, world := st1.world,
      trace := st1.trace ++ [Event.LOG_ERR msg []] }
  else st1

/-- The part of `tpm2_tool_onrun` after a successful `tpm2_hierarchy_create_primary`;
`result` is the local as the earlier steps left it. -/
def onrun_saves {σ : Type} (sys : Sys σ) (ctx : tpm_createprimary_ctx) (result : Bool)
    (w : σ) : Outcome σ Event tool_rc :=
  let e0 := Event.tpm2_util_public_to_yaml ctx.objdata.out.«public»
  let c : tool_rc × σ × List Event :=
    match ctx.context_file with
    | some path =>
      let r := sys.files_save_tpm_context_to_path ctx.objdata.out.handle (some path) w
      (r.1, r.2, [Event.files_save_tpm_context_to_path ctx.objdata.out.handle (some path) r.1])
    | none => (tool_rc.tool_rc_success, w, [])
  if c.1 ≠ tool_rc.tool_rc_success then
    { ret := c.1, world := c.2.1,
      trace := [e0] ++ c.2.2 ++ [Event.LOG_ERR "Failed saving object context." []] }
  else
    let s0 : SaveState σ :=
      { result := result, rc := c.1, world := c.2.1, trace := [e0] ++ c.2.2 }
    let s1 := save_step ctx.creation_data_file
      (sys.files_save_creation_data ctx.objdata.out.creation_data)
      (Event.files_save_creation_data ctx.objdata.out.creation_data)
      "Failed saving creation data." s0
    let s2 := save_step ctx.creation_ticket_file
      (sys.files_save_creation_ticket ctx.objdata.out.creation_ticket)
      (Event.files_save_creation_ticket ctx.objdata.out.creation_ticket)
      "Failed saving creation ticket." s1
    let s3 := save_step ctx.creation_hash_file
      (sys.files_save_digest ctx.objdata.out.hash)
      (Event.files_save_digest ctx.objdata.out.hash)
      "Failed saving creation hash." s2
    { ret := s3.rc, world := s3.world, trace := s3.trace }

/-- The part of `tpm2_tool_onrun` from the label `skipped_outside_info` on. -/
def onrun_create {σ : Type} (sys : Sys σ) (ctx : tpm_createprimary_ctx) (result : Bool)
    (w : σ) : Outcome σ Event tool_rc :=
  let c := sys.tpm2_hierarchy_create_primary ctx.parent.session ctx.objdata w
  let e := Event.tpm2_hierarchy_create_primary ctx.parent.session ctx.objdata.input c.1.1
  if c.1.1 ≠ tool_rc.tool_rc_success then
    { ret := c.1.1, world := c.2, trace := [e] }
  else
    Outcome.after [e] (onrun_saves sys { ctx with objdata := c.1.2 } result c.2)

/-- The part of `tpm2_tool_onrun` from the test of `ctx.outside_info_file` on. -/
def onrun_outside_info {σ : Type} (sys : Sys σ) (ctx : tpm_createprimary_ctx)
    (result : Bool) (w : σ) : Outcome σ Event tool_rc :=
  match ctx.outside_info_file with
  | none => onrun_create sys ctx result w
  | some path =>
    let g := sys.files_get_file_size_path (some path) 0 w
    let file_size := g.1.2
    let e1 := Event.files_get_file_size_path (some path) g.1.1 file_size
    if !g.1.1 || file_size == 0 then
      { ret := tool_rc.tool_rc_general_error, world := g.2,
        trace := [e1, Event.LOG_ERR "Error reading outside_info file." []] }
    else
      let l := sys.files_load_bytes_from_path (some path)
        { ctx.objdata.input.outside_info with size := file_size % 65536 } g.2
      let e2 := Event.files_load_bytes_from_path (some path) l.1.1
      let ctx1 :=
        { ctx with objdata :=
            { ctx.objdata with input := { ctx.objdata.input with outside_info := l.1.2 } } }
      if !l.1.1 then
        { ret := tool_rc.tool_rc_general_error, world := l.2,
          trace := [e1, e2, Event.LOG_ERR "Failed loading outside_info from path" []] }
      else
        Outcome.after [e1, e2] (onrun_create sys ctx1 l.1.1 l.2)

/-- The function `tpm2_tool_onrun`. -/
def tpm2_tool_onrun {σ : Type} (sys : Sys σ) (ctx : tpm_createprimary_ctx) (w : σ) :
    Outcome σ Event tool_rc :=
  let a := sys.tpm2_auth_util_from_optarg true ctx.parent.auth_str ctx.parent.session false w
  let e1 := Event.tpm2_auth_util_from_optarg true ctx.parent.auth_str false a.1.1
  if a.1.1 ≠ tool_rc.tool_rc_success then
    { ret := a.1.1, world := a.2,
      trace := [e1, Event.LOG_ERR "Invalid parent key authorization" []] }
  else
    let ctx1 := { ctx with parent := { ctx.parent with session := a.1.2 } }
    let k := sys.tpm2_auth_util_from_optarg false ctx.key_auth_str none true a.2
    let e2 := Event.tpm2_auth_util_from_optarg false ctx.key_auth_str true k.1.1
    if k.1.1 ≠ tool_rc.tool_rc_success then
      { ret := k.1.1, world := k.2,
        trace := [e1, e2, Event.LOG_ERR "Invalid new key authorization" []] }
    else
      let tmp := k.1.2
      let auth := sys.tpm2_session_get_auth_value tmp k.2
      let ctx2 :=
        { ctx1 with objdata :=
            { ctx1.objdata with
              input := { ctx1.objdata.input with sensitive_userAuth := auth } } }
      let cl := sys.tpm2_session_close tmp k.2
      let e3 := Event.tpm2_session_close tmp
      let p := sys.tpm2_alg_util_public_init ctx2.alg ctx2.halg ctx2.attrs ctx2.policy
        ctx2.unique_file sys.DEFAULT_ATTRS ctx2.objdata.input.«public» cl.2
      let result := p.1.1
      let e4 := Event.tpm2_alg_util_public_init result
      let ctx3 :=
        { ctx2 with objdata :=
            { ctx2.objdata with input := { ctx2.objdata.input with «public» := p.1.2 } } }
      if !result then
        { ret := tool_rc.tool_rc_general_error, world := p.2, trace := [e1, e2, e3, e4] }
      else
        Outcome.after [e1, e2, e3, e4] (onrun_outside_info sys ctx3 result p.2)

/-- Recognizes a successful `tpm2_hierarchy_create_primary`. -/
def Event.isCreated : Event → Bool
  | Event.tpm2_hierarchy_create_primary _ _ rc => rc == tool_rc.tool_rc_success
  | _ => false

/-- Recognizes a save of one of the four outputs that did not succeed. -/
def Event.saveFailed : Event → Bool
  | Event.files_save_tpm_context_to_path _ _ rc => rc != tool_rc.tool_rc_success
  | Event.files_save_creation_data _ _ ok => !ok
  | Event.files_save_creation_ticket _ _ ok => !ok
  | Event.files_save_digest _ _ ok => !ok
  | _ => false

/-- Recognizes a save of the object context. -/
def Event.isContextSave : Event → Bool
  | Event.files_save_tpm_context_to_path _ _ _ => true
  | _ => false

/-- Recognizes a save of the creation data. -/
def Event.isDataSave : Event → Bool
  | Event.files_save_creation_data _ _ _ => true
  | _ => false

/-- Recognizes a save of the creation ticket. -/
def Event.isTicketSave : Event → Bool
  | Event.files_save_creation_ticket _ _ _ => true
  | _ => false

/-- Recognizes a save of the creation hash. -/
def Event.isHashSave : Event → Bool
  | Event.files_save_digest _ _ _ => true
  | _ => false

/-- Recognizes a save of the object context that did not succeed. -/
def Event.contextSaveFailed : Event → Bool
  | Event.files_save_tpm_context_to_path _ _ rc => rc != tool_rc.tool_rc_success
  | _ => false

/-- Recognizes a save of the creation ticket that did not succeed. -/
def Event.ticketSaveFailed : Event → Bool
  | Event.files_save_creation_ticket _ _ ok => !ok
  | _ => false

/-- Recognizes the diagnostic of the creation ticket save. -/
def Event.isTicketError : Event → Bool
  | Event.LOG_ERR fmt _ => fmt == "Failed saving creation ticket."
  | _ => false

/-- Recognizes the diagnostic of the creation hash save. -/
def Event.isHashError : Event → Bool
  | Event.LOG_ERR fmt _ => fmt == "Failed saving creation hash."
  | _ => false

/-- What a run that created the primary object owes its output files `cf` (context), `df`
(creation data), `tf` (creation ticket) and `hf` (creation hash): success exactly when no
save failed, every requested save attempted unless the context save failed first, and
success when nothing was requested. -/
def Settled {σ : Type} (cf df tf hf : Option String) (o : Outcome σ Event tool_rc) : Prop :=
  o.trace.any Event.isCreated = true →
    (o.ret = tool_rc.tool_rc_success ↔ o.trace.any Event.saveFailed = false) ∧
    (cf ≠ none → o.trace.any Event.isContextSave = true) ∧
    (o.trace.any Event.contextSaveFailed = false →
      (df ≠ none → o.trace.any Event.isDataSave = true) ∧
      (tf ≠ none → o.trace.any Event.isTicketSave = true) ∧
      (hf ≠ none → o.trace.any Event.isHashSave = true)) ∧
    (cf = none → df = none → tf = none → hf = none → o.ret = tool_rc.tool_rc_success)

/-- Example system: both authorizations parse, the public template initializes and the
primary object is created with handle `0x80000000`; the context save answers `ctxRc`, and
the saves of creation data, ticket and hash succeed exactly when `dataOk`, `ticketOk` and
`hashOk` are true. -/
def sampleSys (ctxRc : tool_rc) (dataOk ticketOk hashOk : Bool) : Sys Disk :=
  { tpm2_auth_util_from_optarg := fun _ _ _ _ d => ((tool_rc.tool_rc_success, some 1), d)
    tpm2_session_get_auth_value := fun _ _ => TPM2B_EMPTY_INIT
    tpm2_session_close := fun _ d => (none, d)
    tpm2_alg_util_public_init := fun _ _ _ _ _ _ _ d => ((true, [1]), d)
    files_get_file_size_path := fun _ _ d => ((true, 4), d)
    files_load_bytes_from_path := fun _ b d => ((true, b), d)
    tpm2_hierarchy_create_primary := fun _ p d =>
      ((tool_rc.tool_rc_success,
        { p with out := { handle := 0x80000000, «public» := [1], hash := [2],
                          creation_data := [3], creation_ticket := [4] } }), d)
    files_save_tpm_context_to_path := fun _ p d =>
      if ctxRc = tool_rc.tool_rc_success then (ctxRc, (Disk.save p [0] d).2) else (ctxRc, d)
    files_save_creation_data := fun b p d => if dataOk then Disk.save p b d else (false, d)
    files_save_creation_ticket := fun b p d => if ticketOk then Disk.save p b d else (false, d)
    files_save_digest := fun b p d => if hashOk then Disk.save p b d else (false, d)
    DEFAULT_ATTRS := 0x30072 }

end CreatePrimary

/-! ## tpm2_password_util.h -/

namespace PasswordUtil

/-- The bytes of an ASCII literal, as a C string holds them before its terminator. -/
def cstr (s : String) : List Nat := s.toList.map Char.toNat

/-- The bytes of the prefix `hex:`. -/
def HEX_PREFIX : List Nat := [104, 101, 120, 58]

/-- The bytes of the prefix `str:`. -/
def STR_PREFIX : List Nat := [115, 116, 114, 58]

/-- The two failures of the auth-value codec. -/
inductive AuthError where
  | InvalidEncoding
  | ValueTooLong
deriving DecidableEq, Repr

/-- Value of a hex digit given by its byte: `0`-`9`, `a`-`f`, `A`-`F`. -/
def hexValue (b : Nat) : Option Nat :=
  if 48 ≤ b ∧ b ≤ 57 then some (b - 48)
  else if 97 ≤ b ∧ b ≤ 102 then some (b - 87)
  else if 65 ≤ b ∧ b ≤ 70 then some (b - 55)
  else none

/-- Modelled from the spec: the hex form of the auth-value codec (the body of
`tpm2_password_util_from_optarg` is in `lib/`, not among the translated files).  The input
length must be even and each pair of hex digits decodes to one byte; an odd length or a
character that is not a hex digit makes the decoding fail. -/
def hexDecode : List Nat → Option (List Nat)
  | [] => some []
  | [_] => none
  | a :: b :: rest =>
    match hexValue a, hexValue b, hexDecode rest with
    | some x, some y, some t => some ((16 * x + y) :: t)
    | _, _, _ => none

/-- Modelled from the spec: `tpm2_password_util_from_optarg`, declared in
`tpm2_password_util.h` with its body in `lib/`, not among the translated files.  A password
is a bare string, `str:<value>` or `hex:<hexdigits>`; no prefix is treated as `str:`.  The
string forms copy the bytes verbatim, without terminator, and fail with `ValueTooLong` when
the byte count exceeds the capacity `cap` of the auth value; the hex form decodes and fails
with `InvalidEncoding` on an odd length or a character that is not a hex digit, and with
`ValueTooLong` when the decoded length exceeds `cap`.  The argument is the C string as the
list of its bytes. -/
def tpm2_password_util_from_optarg (cap : Nat) (password : List Nat) :
    Except AuthError TPM2B :=
  if HEX_PREFIX.isPrefixOf password then
    match hexDecode (password.drop HEX_PREFIX.length) with
    | none => Except.error AuthError.InvalidEncoding
    | some bytes =>
      if bytes.length > cap then Except.error AuthError.ValueTooLong
      else Except.ok { size := bytes.length, buffer := bytes }
  else
    let value :=
      if STR_PREFIX.isPrefixOf password then password.drop STR_PREFIX.length else password
    if value.length > cap then Except.error AuthError.ValueTooLong
    else Except.ok { size := value.length, buffer := value }

/-- The lower-case hex digit of a value below 16, as a byte. -/
def hexDigit (v : Nat) : Nat := if v < 10 then 48 + v else 87 + v

/-- Hex encoding of a byte list, two lower-case digits for each byte. -/
def hexEncode : List Nat → List Nat
  | [] => []
  | b :: rest => hexDigit (b / 16) :: hexDigit (b % 16) :: hexEncode rest

/-- The lower-case form of an ASCII byte. -/
def toLower (b : Nat) : Nat := if 65 ≤ b ∧ b ≤ 90 then b + 32 else b

end PasswordUtil

/-! ## Theorems -/

section EncryptDecryptTheorems

open EncryptDecrypt

/-- The tail `finish` appends exactly one event, which is not a TPM command. -/
theorem finish_trace {σ : Type} (sys : Sys σ) (ctx : tpm_encrypt_decrypt_ctx)
    (rsp : EncryptDecryptResponse) (w : σ) (t : List Event) :
    ∃ x, (finish sys ctx rsp w t).trace = t ++ [x] ∧ Event.ivIn? x = none ∧
      Event.isLegacy x = false := by
  unfold finish
  split
  · exact ⟨_, rfl, rfl, rfl⟩
  · exact ⟨_, rfl, rfl, rfl⟩

/-- Unfolding of `encrypt_decrypt` on the fallback branch. -/
theorem encrypt_decrypt_of_command_code {σ : Type} (sys : Sys σ)
    (ctx : tpm_encrypt_decrypt_ctx) (w : σ)
    (h : (sys.Tss2_Sys_EncryptDecrypt2 (command ctx) w).1.rval = TPM2_RC_COMMAND_CODE) :
    encrypt_decrypt sys ctx w =
      finish sys ctx
        (sys.Tss2_Sys_EncryptDecrypt (command ctx)
          (sys.Tss2_Sys_EncryptDecrypt2 (command ctx) w).2).1
        (sys.Tss2_Sys_EncryptDecrypt (command ctx)
          (sys.Tss2_Sys_EncryptDecrypt2 (command ctx) w).2).2
        [Event.Tss2_Sys_EncryptDecrypt2 (command ctx)
            (sys.Tss2_Sys_EncryptDecrypt2 (command ctx) w).1,
          Event.Tss2_Sys_EncryptDecrypt (command ctx)
            (sys.Tss2_Sys_EncryptDecrypt (command ctx)
              (sys.Tss2_Sys_EncryptDecrypt2 (command ctx) w).2).1] := by
  unfold encrypt_decrypt
  simp only [h, if_true]
  rfl

/-- Unfolding of `encrypt_decrypt` when no fallback happens. -/
theorem encrypt_decrypt_of_other {σ : Type} (sys : Sys σ)
    (ctx : tpm_encrypt_decrypt_ctx) (w : σ)
    (h : (sys.Tss2_Sys_EncryptDecrypt2 (command ctx) w).1.rval ≠ TPM2_RC_COMMAND_CODE) :
    encrypt_decrypt sys ctx w =
      finish sys ctx (sys.Tss2_Sys_EncryptDecrypt2 (command ctx) w).1
        (sys.Tss2_Sys_EncryptDecrypt2 (command ctx) w).2
        [Event.Tss2_Sys_EncryptDecrypt2 (command ctx)
            (sys.Tss2_Sys_EncryptDecrypt2 (command ctx) w).1] := by
  unfold encrypt_decrypt
  simp only [h, if_false]

/-- C1: in `encrypt_decrypt`, with `r` the response code of `Tss2_Sys_EncryptDecrypt2`, the
legacy command is issued if and only if `r = TPM2_RC_COMMAND_CODE`; for every other
non-success `r` the function returns false, issues no legacy command, does not call the file
writer and leaves the world as the failed command left it. -/
theorem encrypt_decrypt_fallback_only_on_command_code {σ : Type} (sys : Sys σ)
    (ctx : tpm_encrypt_decrypt_ctx) (w : σ) :
    ((encrypt_decrypt sys ctx w).trace.any Event.isLegacy = true ↔
        (sys.Tss2_Sys_EncryptDecrypt2 (command ctx) w).1.rval = TPM2_RC_COMMAND_CODE) ∧
    ((sys.Tss2_Sys_EncryptDecrypt2 (command ctx) w).1.rval ≠ TPM2_RC_COMMAND_CODE →
      (sys.Tss2_Sys_EncryptDecrypt2 (command ctx) w).1.rval ≠ TPM2_RC_SUCCESS →
        (encrypt_decrypt sys ctx w).ret = false ∧
        (encrypt_decrypt sys ctx w).trace.any Event.isLegacy = false ∧
        (encrypt_decrypt sys ctx w).trace.any Event.isSave = false ∧
        (encrypt_decrypt sys ctx w).world = (sys.Tss2_Sys_EncryptDecrypt2 (command ctx) w).2) := by
  constructor
  · unfold encrypt_decrypt finish
    by_cases h : (sys.Tss2_Sys_EncryptDecrypt2 (command ctx) w).1.rval = TPM2_RC_COMMAND_CODE
    · simp only [h, if_true]
      split <;> simp [Event.isLegacy]
    · simp only [h, if_false]
      split <;> simp [Event.isLegacy]
  · intro h1 h2
    unfold encrypt_decrypt finish
    simp [h1, h2, Event.isLegacy, Event.isSave]

/-- Witness for C1: a TPM answering `TPM2_RC_FAILURE` (0x101) to `EncryptDecrypt2`. -/
theorem encrypt_decrypt_fallback_only_on_command_code_witness :
    ((failingSys 0x101).Tss2_Sys_EncryptDecrypt2 (command sampleCtx) []).1.rval
        ≠ TPM2_RC_COMMAND_CODE ∧
    ((failingSys 0x101).Tss2_Sys_EncryptDecrypt2 (command sampleCtx) []).1.rval
        ≠ TPM2_RC_SUCCESS ∧
    (encrypt_decrypt (failingSys 0x101) sampleCtx []).ret = false ∧
    (encrypt_decrypt (failingSys 0x101) sampleCtx []).trace.any Event.isLegacy = false ∧
    (encrypt_decrypt (failingSys 0x101) sampleCtx []).trace.any Event.isSave = false ∧
    (encrypt_decrypt (failingSys 0x101) sampleCtx []).world = [] :=
  ⟨by decide, by decide,
    (encrypt_decrypt_fallback_only_on_command_code (failingSys 0x101) sampleCtx []).2
      (by decide) (by decide)⟩

/-- C2: when `Tss2_Sys_EncryptDecrypt2` answers `TPM2_RC_COMMAND_CODE`, `encrypt_decrypt`
issues the legacy command exactly once, with the key handle, decrypt flag, mode
`TPM2_ALG_NULL`, zero input IV and input data of the request, and from the state in which
the rejected attempt left the TPM its result, final world and written bytes are those of the
driver that calls only the legacy command; when the rejected attempt leaves the state as it
found it, they are those of that driver run in place of `encrypt_decrypt`. -/
theorem encrypt_decrypt_fallback_refines_legacy_driver {σ : Type} (sys : Sys σ)
    (ctx : tpm_encrypt_decrypt_ctx) (w : σ)
    (h : (sys.Tss2_Sys_EncryptDecrypt2 (command ctx) w).1.rval = TPM2_RC_COMMAND_CODE) :
    (encrypt_decrypt sys ctx w).trace.filter Event.isLegacy =
      [Event.Tss2_Sys_EncryptDecrypt
        { keyHandle := ctx.key_handle, cmdAuthsArray := [ctx.session_data],
          inData := ctx.data, decrypt := ctx.is_decrypt, mode := TPM2_ALG_NULL,
          ivIn := (command ctx).ivIn }
        (sys.Tss2_Sys_EncryptDecrypt (command ctx)
          (sys.Tss2_Sys_EncryptDecrypt2 (command ctx) w).2).1] ∧
    (encrypt_decrypt sys ctx w).ret =
      (legacy_driver sys ctx (sys.Tss2_Sys_EncryptDecrypt2 (command ctx) w).2).ret ∧
    (encrypt_decrypt sys ctx w).world =
      (legacy_driver sys ctx (sys.Tss2_Sys_EncryptDecrypt2 (command ctx) w).2).world ∧
    savedBytes (encrypt_decrypt sys ctx w).trace =
      savedBytes (legacy_driver sys ctx (sys.Tss2_Sys_EncryptDecrypt2 (command ctx) w).2).trace ∧
    (encrypt_decrypt sys ctx w).trace =
      Event.Tss2_Sys_EncryptDecrypt2 (command ctx)
          (sys.Tss2_Sys_EncryptDecrypt2 (command ctx) w).1 ::
        (legacy_driver sys ctx (sys.Tss2_Sys_EncryptDecrypt2 (command ctx) w).2).trace ∧
    ((sys.Tss2_Sys_EncryptDecrypt2 (command ctx) w).2 = w →
      (encrypt_decrypt sys ctx w).ret = (legacy_driver sys ctx w).ret ∧
      (encrypt_decrypt sys ctx w).world = (legacy_driver sys ctx w).world ∧
      savedBytes (encrypt_decrypt sys ctx w).trace =
        savedBytes (legacy_driver sys ctx w).trace) := by
  have hc : (⟨ctx.key_handle, [ctx.session_data], ctx.data, ctx.is_decrypt, TPM2_ALG_NULL,
      ⟨TPM2_MAX_SYM_BLOCK_SIZE, List.replicate TPM2_MAX_SYM_BLOCK_SIZE 0⟩⟩ :
      EncryptDecryptCommand) = command ctx := rfl
  have main :
      (encrypt_decrypt sys ctx w).trace.filter Event.isLegacy =
        [Event.Tss2_Sys_EncryptDecrypt (command ctx)
          (sys.Tss2_Sys_EncryptDecrypt (command ctx)
            (sys.Tss2_Sys_EncryptDecrypt2 (command ctx) w).2).1] ∧
      (encrypt_decrypt sys ctx w).ret =
        (legacy_driver sys ctx (sys.Tss2_Sys_EncryptDecrypt2 (command ctx) w).2).ret ∧
      (encrypt_decrypt sys ctx w).world =
        (legacy_driver sys ctx (sys.Tss2_Sys_EncryptDecrypt2 (command ctx) w).2).world ∧
      savedBytes (encrypt_decrypt sys ctx w).trace =
        savedBytes
          (legacy_driver sys ctx (sys.Tss2_Sys_EncryptDecrypt2 (command ctx) w).2).trace ∧
      (encrypt_decrypt sys ctx w).trace =
        Event.Tss2_Sys_EncryptDecrypt2 (command ctx)
            (sys.Tss2_Sys_EncryptDecrypt2 (command ctx) w).1 ::
          (legacy_driver sys ctx (sys.Tss2_Sys_EncryptDecrypt2 (command ctx) w).2).trace := by
    unfold encrypt_decrypt legacy_driver finish
    simp only [h, if_true, hc]
    split <;> simp [Event.isLegacy, savedBytes]
  obtain ⟨m1, m2, m3, m4, m5⟩ := main
  refine ⟨m1, m2, m3, m4, m5, ?_⟩
  intro hw
  rw [hw] at m2 m3 m4
  exact ⟨m2, m3, m4⟩

/-- Witness for C2: a TPM without `EncryptDecrypt2`; the fallback writes the bytes the
legacy command produced. -/
theorem encrypt_decrypt_fallback_refines_legacy_driver_witness :
    (encrypt_decrypt legacyOnlySys sampleCtx []).ret = true ∧
    (legacy_driver legacyOnlySys sampleCtx []).ret = true ∧
    savedBytes (encrypt_decrypt legacyOnlySys sampleCtx []).trace
      = [(some "out.bin", [2, 3, 0])] ∧
    ((encrypt_decrypt legacyOnlySys sampleCtx []).ret =
        (legacy_driver legacyOnlySys sampleCtx []).ret ∧
      (encrypt_decrypt legacyOnlySys sampleCtx []).world =
        (legacy_driver legacyOnlySys sampleCtx []).world ∧
      savedBytes (encrypt_decrypt legacyOnlySys sampleCtx []).trace =
        savedBytes (legacy_driver legacyOnlySys sampleCtx []).trace) :=
  ⟨rfl, rfl, rfl,
    (encrypt_decrypt_fallback_refines_legacy_driver legacyOnlySys sampleCtx [] rfl).2.2.2.2.2
      rfl⟩

/-- C9: in every run of `encrypt_decrypt` the first call is `Tss2_Sys_EncryptDecrypt2`, and
every command issued, `EncryptDecrypt2` or the legacy one, receives an input IV of size
`TPM2_MAX_SYM_BLOCK_SIZE` whose buffer holds that many bytes, all zero, whatever the request
context is. -/
theorem encrypt_decrypt_iv_is_zero_block {σ : Type} (sys : Sys σ)
    (ctx : tpm_encrypt_decrypt_ctx) (w : σ) :
    (∃ rsp rest, (encrypt_decrypt sys ctx w).trace =
        Event.Tss2_Sys_EncryptDecrypt2 (command ctx) rsp :: rest) ∧
    ∀ e ∈ (encrypt_decrypt sys ctx w).trace, ∀ iv, Event.ivIn? e = some iv →
      iv.size = TPM2_MAX_SYM_BLOCK_SIZE ∧ iv.buffer.length = TPM2_MAX_SYM_BLOCK_SIZE ∧
        ∀ b ∈ iv.buffer, b = 0 := by
  have hiv : (command ctx).ivIn.size = TPM2_MAX_SYM_BLOCK_SIZE ∧
      (command ctx).ivIn.buffer.length = TPM2_MAX_SYM_BLOCK_SIZE ∧
      ∀ b ∈ (command ctx).ivIn.buffer, b = 0 := by
    refine ⟨rfl, by simp [command, iv_in], ?_⟩
    intro b hb
    simp only [command, iv_in] at hb
    exact (List.mem_replicate.mp hb).2
  by_cases h1 : (sys.Tss2_Sys_EncryptDecrypt2 (command ctx) w).1.rval = TPM2_RC_COMMAND_CODE
  · obtain ⟨x, hx, hxn, _⟩ := finish_trace sys ctx
      (sys.Tss2_Sys_EncryptDecrypt (command ctx)
        (sys.Tss2_Sys_EncryptDecrypt2 (command ctx) w).2).1
      (sys.Tss2_Sys_EncryptDecrypt (command ctx)
        (sys.Tss2_Sys_EncryptDecrypt2 (command ctx) w).2).2
      [Event.Tss2_Sys_EncryptDecrypt2 (command ctx)
          (sys.Tss2_Sys_EncryptDecrypt2 (command ctx) w).1,
        Event.Tss2_Sys_EncryptDecrypt (command ctx)
          (sys.Tss2_Sys_EncryptDecrypt (command ctx)
            (sys.Tss2_Sys_EncryptDecrypt2 (command ctx) w).2).1]
    rw [encrypt_decrypt_of_command_code sys ctx w h1, hx]
    refine ⟨⟨_, _, rfl⟩, ?_⟩
    intro e he iv hiv'
    simp only [List.cons_append, List.nil_append, List.mem_cons, List.mem_singleton,
      List.not_mem_nil, or_false] at he
    rcases he with he | he | he
    · subst he
      simp only [Event.ivIn?, Option.some.injEq] at hiv'
      rw [← hiv']
      exact hiv
    · subst he
      simp only [Event.ivIn?, Option.some.injEq] at hiv'
      rw [← hiv']
      exact hiv
    · subst he
      rw [hxn] at hiv'
      cases hiv'
  · obtain ⟨x, hx, hxn, _⟩ := finish_trace sys ctx
      (sys.Tss2_Sys_EncryptDecrypt2 (command ctx) w).1
      (sys.Tss2_Sys_EncryptDecrypt2 (command ctx) w).2
      [Event.Tss2_Sys_EncryptDecrypt2 (command ctx)
          (sys.Tss2_Sys_EncryptDecrypt2 (command ctx) w).1]
    rw [encrypt_decrypt_of_other sys ctx w h1, hx]
    refine ⟨⟨_, _, rfl⟩, ?_⟩
    intro e he iv hiv'
    simp only [List.cons_append, List.nil_append, List.mem_cons, List.mem_singleton,
      List.not_mem_nil, or_false] at he
    rcases he with he | he
    · subst he
      simp only [Event.ivIn?, Option.some.injEq] at hiv'
      rw [← hiv']
      exact hiv
    · subst he
      rw [hxn] at hiv'
      cases hiv'

/-- Witness for C9: the IV of the legacy call made after a rejected `EncryptDecrypt2`. -/
theorem encrypt_decrypt_iv_is_zero_block_witness :
    (command sampleCtx).ivIn.size = 16 ∧ (command sampleCtx).ivIn.buffer.length = 16 ∧
      ∀ b ∈ (command sampleCtx).ivIn.buffer, b = 0 :=
  (encrypt_decrypt_iv_is_zero_block legacyOnlySys sampleCtx []).2
    (Event.Tss2_Sys_EncryptDecrypt (command sampleCtx)
      (legacyOnlySys.Tss2_Sys_EncryptDecrypt (command sampleCtx) []).1)
    (by simp [encrypt_decrypt, finish, legacyOnlySys, TPM2_RC_COMMAND_CODE, TPM2_RC_SUCCESS])
    (command sampleCtx).ivIn rfl

end EncryptDecryptTheorems

section ActivateCredentialTheorems

open ActivateCredential

/-- Every run of `activate_credential_and_output` has one of the five shapes of `Run`. -/
theorem activate_credential_and_output_run {σ : Type} (sys : Sys σ)
    (ctx : tpm_activatecred_ctx) (w : σ) :
    Run ctx (sys.tpm_session_start_auth_with_params startParams w).1.1
      (sys.tpm_session_start_auth_with_params startParams w).1.2
      (activate_credential_and_output sys ctx w).trace
      (activate_credential_and_output sys ctx w).ret := by
  unfold activate_credential_and_output
  generalize sys.tpm_session_start_auth_with_params startParams w = s
  obtain ⟨⟨rv1, session⟩, w1⟩ := s
  simp only
  by_cases h1 : rv1 = TPM_RC_SUCCESS
  · simp only [h1, ne_eq, not_true_eq_false, if_false]
    generalize sys.Tss2_Sys_PolicySecret TPM_RH_ENDORSEMENT session.sessionHandle
      [{ ctx.endorse_password with sessionHandle := TPM_RS_PW }] w1 = ps
    obtain ⟨rv2, w2⟩ := ps
    simp only
    by_cases h2 : rv2 = TPM_RC_SUCCESS
    · simp only [h2, ne_eq, not_true_eq_false, if_false]
      generalize sys.Tss2_Sys_ActivateCredential ctx.handle.activate ctx.handle.key
        [{ ctx.password with sessionHandle := TPM_RS_PW },
         { tmp_auth_init with
           sessionHandle := session.sessionHandle
           sessionAttributes := { tmp_auth_init.sessionAttributes with continueSession := true }
           hmac := { tmp_auth_init.hmac with size := 0 } }]
        ctx.credentialBlob ctx.secret w2 = ac
      obtain ⟨⟨rv3, cert⟩, w3⟩ := ac
      simp only
      by_cases h3 : rv3 = TPM_RC_SUCCESS
      · simp only [h3, ne_eq, not_true_eq_false, if_false]
        generalize sys.Tss2_Sys_FlushContext session.sessionHandle w3 = fl
        obtain ⟨rv4, w4⟩ := fl
        simp only
        by_cases h4 : rv4 = TPM_RC_SUCCESS
        · simp only [h4, ne_eq, not_true_eq_false, if_false]
          exact Run.reported cert _ rfl
        · simp only [ne_eq, h4, not_false_eq_true, if_true]
          exact Run.flush_failed cert rv4 rfl h4
      · simp only [ne_eq, h3, not_false_eq_true, if_true]
        exact Run.activate_failed rv3 cert rfl h3
    · simp only [ne_eq, h2, not_false_eq_true, if_true]
      exact Run.policy_secret_failed rv2 rfl h2
  · simp only [ne_eq, h1, not_false_eq_true, if_true]
    exact Run.start_failed h1

/-- A list split at an element satisfying `p` keeps a leading element failing `p` in its
first part. -/
theorem split_after_head {α : Type} (p : α → Bool) {pre post l : List α} {e a : α}
    (h : pre ++ e :: post = a :: l) (he : p e = true) (ha : p a = false) :
    ∃ pre1, pre = a :: pre1 ∧ pre1 ++ e :: post = l := by
  cases pre with
  | nil =>
    simp only [List.nil_append, List.cons.injEq] at h
    rw [h.1, ha] at he
    cases he
  | cons x xs =>
    simp only [List.cons_append, List.cons.injEq] at h
    exact ⟨xs, by rw [h.1], h.2⟩

/-- The events of `output_and_save` contain no flush and no activation call. -/
theorem reportEvents_no_command (cert : TPM2B) (path : Option String) (ok : Bool) :
    (reportEvents cert path ok).filter Event.isFlush = [] ∧
    (reportEvents cert path ok).filter Event.isActivate = [] := by
  constructor <;>
  · rw [List.filter_eq_nil_iff]
    intro x hx
    simp only [reportEvents, List.mem_cons, List.mem_append, List.mem_map, List.mem_range,
      List.mem_singleton, List.not_mem_nil, or_false, List.cons_append, List.nil_append] at hx
    rcases hx with rfl | ⟨k, _, rfl⟩ | rfl | rfl <;> simp [Event.isFlush, Event.isActivate]

/-- The events of `output_and_save` contain exactly one write, the last event. -/
theorem reportEvents_save (cert : TPM2B) (path : Option String) (ok : Bool) :
    (reportEvents cert path ok).filter Event.isSave =
      [Event.files_save_bytes_to_file path (firstBytes cert.buffer cert.size) ok] := by
  have hmap : ((List.range cert.size).map
      (fun k => Event.tpm2_tool_output "%.2x" [Arg.num (byteAt cert.buffer k)])).filter
        Event.isSave = [] := by
    rw [List.filter_eq_nil_iff]
    intro x hx
    simp only [List.mem_map, List.mem_range] at hx
    rcases hx with ⟨k, _, rfl⟩
    simp [Event.isSave]
  simp only [reportEvents, List.filter_append, hmap]
  simp [Event.isSave, List.filter]

/-- C3: in every run of `activate_credential_and_output`, each `Tss2_Sys_ActivateCredential`
call carries exactly two auth entries in fixed order: first the object password auth with
session handle `TPM_RS_PW`, then the temporary auth whose session handle is that of the
policy session just started, with `continueSession` set and an hmac of size 0; each
`Tss2_Sys_PolicySecret` call is made against `TPM_RH_ENDORSEMENT` on that session and
carries exactly one entry, the endorsement password auth with handle `TPM_RS_PW`. -/
theorem activate_credential_auth_arrays {σ : Type} (sys : Sys σ)
    (ctx : tpm_activatecred_ctx) (w : σ) :
    ∀ e ∈ (activate_credential_and_output sys ctx w).trace,
      (∀ a k auths cb sec rv ci,
        e = Event.Tss2_Sys_ActivateCredential a k auths cb sec rv ci →
          ∃ t, auths = [{ ctx.password with sessionHandle := TPM_RS_PW }, t] ∧
            t.sessionHandle =
              (sys.tpm_session_start_auth_with_params startParams w).1.2.sessionHandle ∧
            t.sessionAttributes.continueSession = true ∧ t.hmac.size = 0) ∧
      (∀ ah ps auths rv, e = Event.Tss2_Sys_PolicySecret ah ps auths rv →
          ah = TPM_RH_ENDORSEMENT ∧
          ps = (sys.tpm_session_start_auth_with_params startParams w).1.2.sessionHandle ∧
          auths = [{ ctx.endorse_password with sessionHandle := TPM_RS_PW }]) := by
  intro e he
  have hrun := activate_credential_and_output_run sys ctx w
  generalize (activate_credential_and_output sys ctx w).trace = tr at he hrun
  generalize (activate_credential_and_output sys ctx w).ret = r at hrun
  generalize (sys.tpm_session_start_auth_with_params startParams w).1.2 = session at hrun ⊢
  generalize (sys.tpm_session_start_auth_with_params startParams w).1.1 = rv1 at hrun
  cases hrun
  all_goals
    simp only [reportEvents, List.mem_cons, List.mem_append, List.mem_map, List.mem_range,
      List.mem_singleton, List.not_mem_nil, or_false, List.cons_append, List.nil_append] at he
  all_goals
    refine ⟨fun a k auths cb sec rv ci h => ?_, fun ah ps auths rv h => ?_⟩
  · rcases he with rfl | rfl <;> cases h
  · rcases he with rfl | rfl <;> cases h
  · rcases he with rfl | rfl | rfl <;> cases h
  · rcases he with rfl | rfl | rfl <;> cases h
    exact ⟨rfl, rfl, rfl⟩
  · rcases he with rfl | rfl | rfl | rfl <;> cases h
    exact ⟨_, rfl, rfl, rfl, rfl⟩
  · rcases he with rfl | rfl | rfl | rfl <;> cases h
    exact ⟨rfl, rfl, rfl⟩
  · rcases he with rfl | rfl | rfl | rfl | rfl <;> cases h
    exact ⟨_, rfl, rfl, rfl, rfl⟩
  · rcases he with rfl | rfl | rfl | rfl | rfl <;> cases h
    exact ⟨rfl, rfl, rfl⟩
  · rcases he with rfl | rfl | rfl | rfl | rfl | rfl | ⟨k, _, rfl⟩ | rfl | rfl <;> cases h
    exact ⟨_, rfl, rfl, rfl, rfl⟩
  · rcases he with rfl | rfl | rfl | rfl | rfl | rfl | ⟨k, _, rfl⟩ | rfl | rfl <;> cases h
    exact ⟨rfl, rfl, rfl⟩

/-- Witness for C3: the auth entries of the activation call in a fully successful run. -/
theorem activate_credential_auth_arrays_witness :
    ∃ t, activateAuths sampleCtx ⟨0x03000000⟩ =
        [{ sampleCtx.password with sessionHandle := TPM_RS_PW }, t] ∧
      t.sessionHandle = 0x03000000 ∧
      t.sessionAttributes.continueSession = true ∧ t.hmac.size = 0 :=
  (activate_credential_auth_arrays (sampleSys 0 0 0 true) sampleCtx []
    (Event.Tss2_Sys_ActivateCredential 0x81010002 0x81010001
      (activateAuths sampleCtx ⟨0x03000000⟩) ⟨2, [7, 7]⟩ ⟨2, [9, 9]⟩ 0
      ⟨4, [0xde, 0xad, 0xbe, 0xef]⟩)
    (by decide)).1 _ _ _ _ _ _ _ rfl

/-- C4, evaluated on the code: when the session is started and `Tss2_Sys_PolicySecret`
answers `0x9A2`, or `Tss2_Sys_ActivateCredential` does, the run ends after the diagnostic:
the function returns false and no `Tss2_Sys_FlushContext` is issued for the session. -/
theorem activate_credential_failure_paths_skip_flush :
    (activate_credential_and_output (sampleSys 0x9A2 0 0 true) sampleCtx []).trace =
      [Event.tpm_session_start_auth_with_params startParams 0 ⟨0x03000000⟩,
       Event.Tss2_Sys_PolicySecret TPM_RH_ENDORSEMENT 0x03000000
         [{ sampleCtx.endorse_password with sessionHandle := TPM_RS_PW }] 0x9A2,
       Event.LOG_ERR "Tss2_Sys_PolicySecret Error. TPM Error:0x%x" [Arg.num 0x9A2]] ∧
    (activate_credential_and_output (sampleSys 0x9A2 0 0 true) sampleCtx []).ret = false ∧
    (activate_credential_and_output (sampleSys 0x9A2 0 0 true) sampleCtx []).trace.any
      Event.isFlush = false ∧
    (activate_credential_and_output (sampleSys 0 0x9A2 0 true) sampleCtx []).trace =
      [Event.tpm_session_start_auth_with_params startParams 0 ⟨0x03000000⟩,
       Event.Tss2_Sys_PolicySecret TPM_RH_ENDORSEMENT 0x03000000
         [{ sampleCtx.endorse_password with sessionHandle := TPM_RS_PW }] 0,
       Event.Tss2_Sys_ActivateCredential 0x81010002 0x81010001
         (activateAuths sampleCtx ⟨0x03000000⟩) ⟨2, [7, 7]⟩ ⟨2, [9, 9]⟩ 0x9A2 ⟨0, []⟩,
       Event.LOG_ERR "ActivateCredential failed. TPM Error:0x%x" [Arg.num 0x9A2]] ∧
    (activate_credential_and_output (sampleSys 0 0x9A2 0 true) sampleCtx []).ret = false ∧
    (activate_credential_and_output (sampleSys 0 0x9A2 0 true) sampleCtx []).trace.any
      Event.isFlush = false :=
  ⟨rfl, rfl, rfl, rfl, rfl, rfl⟩

/-- C5: in every run of `activate_credential_and_output`, whatever precedes an event that
reports the secret (a `tpm2_tool_output` or the `files_save_bytes_to_file` of
`output_and_save`) contains the `Tss2_Sys_FlushContext` of the policy session answered with
success; and when the function returns true the session was flushed exactly once, the
activation call was made exactly once and succeeded, and the one write made saves, at the
output path, exactly the first `certInfoData.size` bytes of the `certInfoData` which that
call returned. -/
theorem activate_credential_reports_after_flush {σ : Type} (sys : Sys σ)
    (ctx : tpm_activatecred_ctx) (w : σ) :
    (∀ pre e post, (activate_credential_and_output sys ctx w).trace = pre ++ e :: post →
      Event.isReport e = true →
        Event.Tss2_Sys_FlushContext
          (sys.tpm_session_start_auth_with_params startParams w).1.2.sessionHandle
          TPM_RC_SUCCESS ∈ pre) ∧
    ((activate_credential_and_output sys ctx w).ret = true →
      (activate_credential_and_output sys ctx w).trace.filter Event.isFlush =
        [Event.Tss2_Sys_FlushContext
          (sys.tpm_session_start_auth_with_params startParams w).1.2.sessionHandle
          TPM_RC_SUCCESS] ∧
      ∃ cert,
        (activate_credential_and_output sys ctx w).trace.filter Event.isActivate =
          [Event.Tss2_Sys_ActivateCredential ctx.handle.activate ctx.handle.key
            (activateAuths ctx (sys.tpm_session_start_auth_with_params startParams w).1.2)
            ctx.credentialBlob ctx.secret TPM_RC_SUCCESS cert] ∧
        (activate_credential_and_output sys ctx w).trace.filter Event.isSave =
          [Event.files_save_bytes_to_file ctx.file.output
            (firstBytes cert.buffer cert.size) true]) := by
  have hrun := activate_credential_and_output_run sys ctx w
  generalize (activate_credential_and_output sys ctx w).trace = tr at hrun ⊢
  generalize (activate_credential_and_output sys ctx w).ret = r at hrun ⊢
  generalize (sys.tpm_session_start_auth_with_params startParams w).1.2 = session at hrun ⊢
  generalize (sys.tpm_session_start_auth_with_params startParams w).1.1 = rv1 at hrun
  have hmem : ∀ (l pre post : List Event) (e : Event), l = pre ++ e :: post → e ∈ l := by
    intro l pre post e h
    rw [h]
    simp
  cases hrun
  case reported cert h1 =>
    constructor
    · intro pre e post h he
      obtain ⟨p1, hp1, h⟩ := split_after_head Event.isReport h.symm he rfl
      obtain ⟨p2, hp2, h⟩ := split_after_head Event.isReport h he rfl
      obtain ⟨p3, hp3, h⟩ := split_after_head Event.isReport h he rfl
      obtain ⟨p4, hp4, h⟩ := split_after_head Event.isReport h he rfl
      rw [hp1, hp2, hp3, hp4]
      simp
    · intro hok
      subst hok
      obtain ⟨hfl, hac⟩ := reportEvents_no_command cert ctx.file.output true
      refine ⟨?_, cert, ?_, ?_⟩
      · rw [List.filter_append, hfl]
        simp [Event.isFlush, List.filter]
      · rw [List.filter_append, hac]
        simp [Event.isActivate, List.filter]
      · rw [List.filter_append, reportEvents_save]
        simp [Event.isSave, List.filter]
  all_goals
    constructor
    · intro pre e post h he
      have hm := hmem _ pre post e h
      simp only [List.mem_cons, List.mem_singleton, List.not_mem_nil, or_false] at hm
      rcases hm with rfl | rfl | rfl | rfl | rfl <;> cases he
    · intro hok
      cases hok

/-- Witness for C5: a fully successful run flushes once and saves the recovered bytes. -/
theorem activate_credential_reports_after_flush_witness :
    (activate_credential_and_output (sampleSys 0 0 0 true) sampleCtx []).ret = true ∧
    (activate_credential_and_output (sampleSys 0 0 0 true) sampleCtx []).world =
      [("secret.bin", [0xde, 0xad, 0xbe, 0xef])] ∧
    ((activate_credential_and_output (sampleSys 0 0 0 true) sampleCtx []).trace.filter
        Event.isFlush = [Event.Tss2_Sys_FlushContext 0x03000000 TPM_RC_SUCCESS] ∧
      ∃ cert,
        (activate_credential_and_output (sampleSys 0 0 0 true) sampleCtx []).trace.filter
            Event.isActivate =
          [Event.Tss2_Sys_ActivateCredential 0x81010002 0x81010001
            (activateAuths sampleCtx ⟨0x03000000⟩) ⟨2, [7, 7]⟩ ⟨2, [9, 9]⟩
            TPM_RC_SUCCESS cert] ∧
        (activate_credential_and_output (sampleSys 0 0 0 true) sampleCtx []).trace.filter
            Event.isSave =
          [Event.files_save_bytes_to_file (some "secret.bin")
            (firstBytes cert.buffer cert.size) true]) :=
  ⟨rfl, rfl,
    (activate_credential_reports_after_flush (sampleSys 0 0 0 true) sampleCtx []).2 rfl⟩

/-- C6 as stated fails: in this run `Tss2_Sys_ActivateCredential` succeeds and the
`Tss2_Sys_FlushContext` that follows answers `0x9A2`; the call returns false, but no file
has been written and nothing has been printed: the secret is not saved on this path. -/
theorem activate_credential_flush_failure_saves_nothing :
    (activate_credential_and_output (sampleSys 0 0 0x9A2 true) sampleCtx []).trace =
      [Event.tpm_session_start_auth_with_params startParams 0 ⟨0x03000000⟩,
       Event.Tss2_Sys_PolicySecret TPM_RH_ENDORSEMENT 0x03000000
         [{ sampleCtx.endorse_password with sessionHandle := TPM_RS_PW }] 0,
       Event.Tss2_Sys_ActivateCredential 0x81010002 0x81010001
         (activateAuths sampleCtx ⟨0x03000000⟩) ⟨2, [7, 7]⟩ ⟨2, [9, 9]⟩ TPM_RC_SUCCESS
         ⟨4, [0xde, 0xad, 0xbe, 0xef]⟩,
       Event.Tss2_Sys_FlushContext 0x03000000 0x9A2,
       Event.LOG_ERR "TPM2_Sys_FlushContext Error. TPM Error:0x%x" [Arg.num 0x9A2]] ∧
    (activate_credential_and_output (sampleSys 0 0 0x9A2 true) sampleCtx []).ret = false ∧
    ¬ ((activate_credential_and_output (sampleSys 0 0 0x9A2 true) sampleCtx []).trace.any
        Event.isSave = true) ∧
    (activate_credential_and_output (sampleSys 0 0 0x9A2 true) sampleCtx []).world = [] :=
  ⟨rfl, rfl, by decide, rfl⟩

/-- C6, amended: in every run of `activate_credential_and_output` in which a
`Tss2_Sys_FlushContext` is answered with a non-success code, the activation call before it
had succeeded, the function returns false, and the secret is neither printed nor saved: the
trace holds no `tpm2_tool_output` and no `files_save_bytes_to_file`. -/
theorem activate_credential_flush_failure_fails_before_report {σ : Type} (sys : Sys σ)
    (ctx : tpm_activatecred_ctx) (w : σ) (h rv : Nat)
    (hfl : Event.Tss2_Sys_FlushContext h rv ∈ (activate_credential_and_output sys ctx w).trace)
    (hrv : rv ≠ TPM_RC_SUCCESS) :
    (∃ cert,
      Event.Tss2_Sys_ActivateCredential ctx.handle.activate ctx.handle.key
        (activateAuths ctx (sys.tpm_session_start_auth_with_params startParams w).1.2)
        ctx.credentialBlob ctx.secret TPM_RC_SUCCESS cert ∈
          (activate_credential_and_output sys ctx w).trace) ∧
    (activate_credential_and_output sys ctx w).ret = false ∧
    (activate_credential_and_output sys ctx w).trace.any Event.isReport = false ∧
    (activate_credential_and_output sys ctx w).trace.any Event.isSave = false := by
  have hrun := activate_credential_and_output_run sys ctx w
  generalize (activate_credential_and_output sys ctx w).trace = tr at hrun hfl ⊢
  generalize (activate_credential_and_output sys ctx w).ret = r at hrun ⊢
  generalize (sys.tpm_session_start_auth_with_params startParams w).1.2 = session at hrun ⊢
  generalize (sys.tpm_session_start_auth_with_params startParams w).1.1 = rv1 at hrun
  cases hrun
  case flush_failed cert rv4 h1 h4 =>
    refine ⟨⟨cert, by simp⟩, rfl, ?_, ?_⟩ <;> simp [Event.isReport, Event.isSave]
  case reported cert h1 =>
    simp only [reportEvents, List.mem_cons, List.mem_append, List.mem_map, List.mem_range,
      List.mem_singleton, List.not_mem_nil, or_false, List.cons_append, List.nil_append]
      at hfl
    rcases hfl with hfl | hfl | hfl | hfl | hfl | hfl | ⟨k, _, hfl⟩ | hfl | hfl <;>
      cases hfl
    exact absurd rfl hrv
  all_goals
    simp only [List.mem_cons, List.mem_singleton, List.not_mem_nil, or_false] at hfl
    rcases hfl with hfl | hfl | hfl | hfl <;> cases hfl

/-- Witness for the amended C6: the run in which the flush answers `0x9A2`. -/
theorem activate_credential_flush_failure_fails_before_report_witness :
    (activate_credential_and_output (sampleSys 0 0 0x9A2 true) sampleCtx []).ret = false ∧
    (activate_credential_and_output (sampleSys 0 0 0x9A2 true) sampleCtx []).trace.any
      Event.isReport = false :=
  ⟨(activate_credential_flush_failure_fails_before_report (sampleSys 0 0 0x9A2 true)
      sampleCtx [] 0x03000000 0x9A2 (by decide) (by decide)).2.1,
   (activate_credential_flush_failure_fails_before_report (sampleSys 0 0 0x9A2 true)
      sampleCtx [] 0x03000000 0x9A2 (by decide) (by decide)).2.2.1⟩

/-- The option check of `tpm2_tool_onrun` rejects exactly the contexts with none of `H`,
`c`, `f`, `o` set and not both of `k` and `C` set; it then logs and returns 0. -/
theorem onrun_option_check {σ : Type} (sys : Sys σ) (ctx : tpm_activatecred_ctx) (w : σ) :
    (((!ctx.flags.H && !ctx.flags.c) && (!ctx.flags.k || !ctx.flags.C) && !ctx.flags.f
        && !ctx.flags.o) = true →
      tpm2_tool_onrun sys ctx w =
        { ret := 0, world := w,
          trace := [Event.LOG_ERR "Expected options (H or c) and (k or C) and f and o" []] }) ∧
    (((!ctx.flags.H && !ctx.flags.c) && (!ctx.flags.k || !ctx.flags.C) && !ctx.flags.f
        && !ctx.flags.o) = false →
      tpm2_tool_onrun sys ctx w = onrun_context sys ctx w) := by
  constructor <;> intro h <;> simp only [tpm2_tool_onrun, h] <;> rfl

/-- C7, evaluated on the code: the options `-H 0x81010001` alone populate a context whose
flags do not satisfy (H or c) and (k or C) and f and o, yet `tpm2_tool_onrun` logs no
`Expected options` error and goes on into `activate_credential_and_output`, which starts a
session and issues the activation command. -/
theorem onrun_accepts_incomplete_options :
    (populate (sampleSys 0 0 0 true) [('H', "0x81010001")] ctx0 []).ret =
      some { ctx0 with flags := ⟨true, false, false, false, false, false⟩,
                       handle := ⟨0x81010001, 0⟩ } ∧
    Flags.expected ⟨true, false, false, false, false, false⟩ = false ∧
    (tpm2_tool_onrun (sampleSys 0 0 0 true)
      { ctx0 with flags := ⟨true, false, false, false, false, false⟩,
                  handle := ⟨0x81010001, 0⟩ } []).trace.any
        Event.isExpectedOptionsError = false ∧
    (tpm2_tool_onrun (sampleSys 0 0 0 true)
      { ctx0 with flags := ⟨true, false, false, false, false, false⟩,
                  handle := ⟨0x81010001, 0⟩ } []).trace.any Event.isSessionStart = true ∧
    (tpm2_tool_onrun (sampleSys 0 0 0 true)
      { ctx0 with flags := ⟨true, false, false, false, false, false⟩,
                  handle := ⟨0x81010001, 0⟩ } []).trace.any Event.isActivate = true := by
  refine ⟨by decide, rfl, by decide, by decide, by decide⟩

/-- C8, evaluated on the code: with no option supplied the context is the initial one,
`tpm2_tool_onrun` logs the `Expected options` error and returns 0, the success status. -/
theorem onrun_option_error_returns_zero :
    (populate (sampleSys 0 0 0 true) [] ctx0 []).ret = some ctx0 ∧
    (tpm2_tool_onrun (sampleSys 0 0 0 true) ctx0 []).trace =
      [Event.LOG_ERR "Expected options (H or c) and (k or C) and f and o" []] ∧
    (tpm2_tool_onrun (sampleSys 0 0 0 true) ctx0 []).ret = 0 :=
  ⟨rfl, rfl, rfl⟩

end ActivateCredentialTheorems

section LoadTheorems

open Load

/-- C10: in `load`, with `rsp` the answer of `Tss2_Sys_Load`, the result is one of 0, -1, -2;
it is -1 exactly when the TPM load failed, and then nothing is written; it is -2 exactly
when the load succeeded, a name path was requested and saving the name failed; it is 0
exactly when the load succeeded and the name save, when requested, succeeded; and when the
load succeeded and a name path was requested, the one write made is to that path and its
bytes are the first `nameExt.size` bytes of the name the TPM returned. -/
theorem load_result_and_saved_name {σ : Type} (sys : Sys σ) (ctx : tpm_load_ctx) (w : σ) :
    ((load sys ctx w).ret.1 = -1 ↔
      (sys.Tss2_Sys_Load ctx.parent_handle [ctx.auth.session_data] ctx.in_private
        ctx.in_public w).1.rval ≠ TPM2_RC_SUCCESS) ∧
    ((sys.Tss2_Sys_Load ctx.parent_handle [ctx.auth.session_data] ctx.in_private
        ctx.in_public w).1.rval ≠ TPM2_RC_SUCCESS →
      (load sys ctx w).trace.any Event.isSave = false ∧
      (load sys ctx w).world =
        (sys.Tss2_Sys_Load ctx.parent_handle [ctx.auth.session_data] ctx.in_private
          ctx.in_public w).2) ∧
    ((load sys ctx w).ret.1 = -2 ↔
      (sys.Tss2_Sys_Load ctx.parent_handle [ctx.auth.session_data] ctx.in_private
        ctx.in_public w).1.rval = TPM2_RC_SUCCESS ∧
      ∃ path, ctx.out_file = some path ∧
        (sys.files_save_bytes_to_file (some path)
          (firstBytes
            (sys.Tss2_Sys_Load ctx.parent_handle [ctx.auth.session_data] ctx.in_private
              ctx.in_public w).1.name.name
            (sys.Tss2_Sys_Load ctx.parent_handle [ctx.auth.session_data] ctx.in_private
              ctx.in_public w).1.name.size)
          (sys.Tss2_Sys_Load ctx.parent_handle [ctx.auth.session_data] ctx.in_private
            ctx.in_public w).2).1 = false) ∧
    ((load sys ctx w).ret.1 = 0 ↔
      (sys.Tss2_Sys_Load ctx.parent_handle [ctx.auth.session_data] ctx.in_private
        ctx.in_public w).1.rval = TPM2_RC_SUCCESS ∧
      ∀ path, ctx.out_file = some path →
        (sys.files_save_bytes_to_file (some path)
          (firstBytes
            (sys.Tss2_Sys_Load ctx.parent_handle [ctx.auth.session_data] ctx.in_private
              ctx.in_public w).1.name.name
            (sys.Tss2_Sys_Load ctx.parent_handle [ctx.auth.session_data] ctx.in_private
              ctx.in_public w).1.name.size)
          (sys.Tss2_Sys_Load ctx.parent_handle [ctx.auth.session_data] ctx.in_private
            ctx.in_public w).2).1 = true) ∧
    ((sys.Tss2_Sys_Load ctx.parent_handle [ctx.auth.session_data] ctx.in_private
        ctx.in_public w).1.rval = TPM2_RC_SUCCESS →
      ∀ path, ctx.out_file = some path →
        ∃ ok, (load sys ctx w).trace.filter Event.isSave =
          [Event.files_save_bytes_to_file (some path)
            (firstBytes
              (sys.Tss2_Sys_Load ctx.parent_handle [ctx.auth.session_data] ctx.in_private
                ctx.in_public w).1.name.name
              (sys.Tss2_Sys_Load ctx.parent_handle [ctx.auth.session_data] ctx.in_private
                ctx.in_public w).1.name.size) ok]) ∧
    ((load sys ctx w).ret.1 = 0 ∨ (load sys ctx w).ret.1 = -1 ∨ (load sys ctx w).ret.1 = -2) := by
  simp only [load]
  generalize sys.Tss2_Sys_Load ctx.parent_handle [ctx.auth.session_data] ctx.in_private
    ctx.in_public w = l
  obtain ⟨rsp, w1⟩ := l
  simp only
  by_cases h1 : rsp.rval = TPM2_RC_SUCCESS
  · simp only [h1, ne_eq, not_true_eq_false, if_false]
    cases hp : ctx.out_file with
    | none => simp
    | some path =>
      simp only
      generalize hs : sys.files_save_bytes_to_file (some path)
        (firstBytes rsp.name.name rsp.name.size) w1 = s
      obtain ⟨ok, w2⟩ := s
      cases ok <;> simp [Event.isSave, List.filter, hs]
  · simp [h1, Event.isSave]

/-- Witness for C10: a failed load writes nothing and yields -1; a successful load saves
the four name bytes the TPM returned, and yields 0, or -2 when the save fails. -/
theorem load_result_and_saved_name_witness :
    ((load (sampleSys 0x101 true) sampleCtx []).trace.any Event.isSave = false ∧
      (load (sampleSys 0x101 true) sampleCtx []).world = []) ∧
    (load (sampleSys 0x101 true) sampleCtx []).ret.1 = -1 ∧
    (load (sampleSys 0 true) sampleCtx []).ret.1 = 0 ∧
    (load (sampleSys 0 true) sampleCtx []).world = [("name.bin", [0x00, 0x0b, 0xaa, 0xbb])] ∧
    (load (sampleSys 0 false) sampleCtx []).ret.1 = -2 ∧
    ∃ ok, (load (sampleSys 0 true) sampleCtx []).trace.filter Event.isSave =
      [Event.files_save_bytes_to_file (some "name.bin") [0x00, 0x0b, 0xaa, 0xbb] ok] :=
  ⟨(load_result_and_saved_name (sampleSys 0x101 true) sampleCtx []).2.1 (by decide),
    rfl, rfl, rfl, rfl,
    (load_result_and_saved_name (sampleSys 0 true) sampleCtx []).2.2.2.2.1 rfl
      "name.bin" rfl⟩

end LoadTheorems

section LoadOnrunTheorems

open Load

/-- What the trace of `load` shows: the load command is issued, no session save and no
context transfer happens, and the result is 0 exactly when no step failed. -/
theorem load_trace_facts {σ : Type} (sys : Sys σ) (ctx : tpm_load_ctx) (w : σ) :
    ((load sys ctx w).ret.1 = 0 ↔ (load sys ctx w).trace.any Event.failed = false) ∧
    (load sys ctx w).trace.any Event.isSessionSave = false ∧
    (load sys ctx w).trace.any Event.isContextLoad = false ∧
    (load sys ctx w).trace.any Event.isContextSave = false ∧
    (load sys ctx w).trace.any Event.isLoad = true ∧
    ((load sys ctx w).ret.1 = 0 → ctx.out_file ≠ none →
      (load sys ctx w).trace.any Event.isSave = true) := by
  simp only [load]
  generalize sys.Tss2_Sys_Load ctx.parent_handle [ctx.auth.session_data] ctx.in_private
    ctx.in_public w = l
  obtain ⟨rsp, w1⟩ := l
  simp only
  by_cases h1 : rsp.rval = TPM2_RC_SUCCESS
  · simp only [h1, ne_eq, not_true_eq_false, if_false]
    cases hp : ctx.out_file with
    | none =>
      simp [Event.failed, Event.isSessionSave, Event.isContextLoad, Event.isContextSave,
        Event.isLoad, h1]
    | some path =>
      simp only
      generalize sys.files_save_bytes_to_file (some path)
        (firstBytes rsp.name.name rsp.name.size) w1 = s
      obtain ⟨ok, w2⟩ := s
      cases ok <;>
        simp [Event.failed, Event.isSessionSave, Event.isContextLoad, Event.isContextSave,
          Event.isLoad, Event.isSave, h1]
  · simp [h1, Event.failed, Event.isSessionSave, Event.isContextLoad, Event.isContextSave,
      Event.isLoad]

/-- What the trace of `onrun_load` shows. -/
theorem onrun_load_facts {σ : Type} (sys : Sys σ) (ctx : tpm_load_ctx) (w : σ) :
    ((onrun_load sys ctx w).ret = 0 ∨ (onrun_load sys ctx w).ret = 1) ∧
    ((onrun_load sys ctx w).ret = 0 ↔ (onrun_load sys ctx w).trace.any Event.failed = false) ∧
    (onrun_load sys ctx w).trace.any Event.isSessionSave = false ∧
    (onrun_load sys ctx w).trace.any Event.isContextLoad = false ∧
    (onrun_load sys ctx w).trace.any Event.isLoad = true ∧
    ((onrun_load sys ctx w).ret = 0 → ctx.flags.C = true →
      (onrun_load sys ctx w).trace.any Event.isContextSave = true) ∧
    ((onrun_load sys ctx w).ret = 0 → ctx.out_file ≠ none →
      (onrun_load sys ctx w).trace.any Event.isSave = true) := by
  obtain ⟨f1, f2, f3, f4, f5, f6⟩ := load_trace_facts sys ctx w
  simp only [onrun_load]
  by_cases h0 : (load sys ctx w).ret.1 = 0
  · have hf := f1.mp h0
    simp only [h0, ne_eq, not_true_eq_false, if_false]
    cases hC : ctx.flags.C with
    | false => simp [hf, f2, f3, f5]; exact fun h => List.any_eq_true.mp (f6 h0 h)
    | true =>
      simp only [if_true]
      generalize sys.files_save_tpm_context_to_path (load sys ctx w).ret.2 ctx.context_file
        (load sys ctx w).world = s
      obtain ⟨ok, w2⟩ := s
      cases ok <;>
        simp [hf, f2, f3, f5, Event.failed, Event.isSessionSave, Event.isContextLoad,
          Event.isLoad, Event.isContextSave]
      intro h
      exact Or.inl (List.any_eq_true.mp (f6 h0 h))
  · have hf : (load sys ctx w).trace.any Event.failed = true := by
      cases hb : (load sys ctx w).trace.any Event.failed with
      | true => rfl
      | false => exact absurd (f1.mpr hb) h0
    simp [h0, hf, f2, f3, f5]

/-- What the trace of `onrun_body` shows. -/
theorem onrun_body_facts {σ : Type} (sys : Sys σ) (ctx : tpm_load_ctx) (w : σ) :
    ((onrun_body sys ctx w).ret = 0 ∨ (onrun_body sys ctx w).ret = 1) ∧
    ((onrun_body sys ctx w).ret = 0 ↔
      Flags.expected ctx.flags = true ∧
        (onrun_body sys ctx w).trace.any Event.failed = false) ∧
    (onrun_body sys ctx w).trace.any Event.isSessionSave = false ∧
    ((onrun_body sys ctx w).ret = 0 →
      (onrun_body sys ctx w).trace.any Event.isLoad = true ∧
      (ctx.flags.c = true → (onrun_body sys ctx w).trace.any Event.isContextLoad = true) ∧
      (ctx.flags.C = true → (onrun_body sys ctx w).trace.any Event.isContextSave = true) ∧
      (ctx.out_file ≠ none → (onrun_body sys ctx w).trace.any Event.isSave = true)) := by
  simp only [onrun_body]
  by_cases hv : ((!ctx.flags.H && !ctx.flags.c) || (!ctx.flags.u || !ctx.flags.r)) = true
  · have he : Flags.expected ctx.flags = false := by
      revert hv
      simp only [Flags.expected]
      cases ctx.flags.H <;> cases ctx.flags.c <;> cases ctx.flags.u <;> cases ctx.flags.r <;>
        simp
    simp [hv, he, Event.isSessionSave]
  · have he : Flags.expected ctx.flags = true := by
      revert hv
      simp only [Flags.expected]
      cases ctx.flags.H <;> cases ctx.flags.c <;> cases ctx.flags.u <;> cases ctx.flags.r <;>
        simp
    simp only [hv, if_false, he, true_and]
    cases hc : ctx.flags.c with
    | false =>
      obtain ⟨g1, g2, g3, g4, g5, g6, g7⟩ := onrun_load_facts sys ctx w
      simp only [if_false, Bool.false_eq_true]
      exact ⟨g1, g2, g3, fun h => ⟨g5, fun h' => False.elim h', g6 h, g7 h⟩⟩
    | true =>
      simp only [if_true]
      generalize sys.files_load_tpm_context_from_path ctx.parent_handle
        ctx.context_parent_file w = p
      obtain ⟨⟨ok, h⟩, w1⟩ := p
      cases ok
      · simp [Event.failed, Event.isSessionSave]
      · obtain ⟨g1, g2, g3, g4, g5, g6, g7⟩ :=
          onrun_load_facts sys { ctx with parent_handle := h } w1
        simp only [Bool.not_true, Bool.false_eq_true, if_false, Outcome.after,
          List.any_append, List.any_cons, List.any_nil, Event.failed, Event.isSessionSave,
          Event.isLoad, Event.isContextLoad, Event.isContextSave, Event.isSave,
          Bool.or_false, Bool.false_or, Bool.true_or, Bool.or_true]
        exact ⟨g1, g2, g3, fun h => ⟨g5, fun _ => trivial, g6 h, g7 h⟩⟩

/-- C11: on every path through `tpm2_tool_onrun` of `tpm2_load` the trace ends with the one
`tpm2_session_save` of the run, nothing before it being a session save; the status is 0 or
1; it is 0 exactly when the option check passed and no step failed: not the parent context
load, not the TPM load or the name save inside `load`, not the object context save, not the
session save; and when it is 0 the load command was issued, the parent context was loaded
if `-c` was given, the object context was saved if `-C` was given and the name was saved if
a name path was given. -/
theorem load_onrun_session_save_once_and_status {σ : Type} (sys : Sys σ)
    (ctx : tpm_load_ctx) (w : σ) :
    (∃ pre ok, (tpm2_tool_onrun sys ctx w).trace =
        pre ++ [Event.tpm2_session_save ctx.auth.session ok] ∧
      pre.any Event.isSessionSave = false) ∧
    ((tpm2_tool_onrun sys ctx w).ret = 0 ∨ (tpm2_tool_onrun sys ctx w).ret = 1) ∧
    ((tpm2_tool_onrun sys ctx w).ret = 0 ↔
      Flags.expected ctx.flags = true ∧
        (tpm2_tool_onrun sys ctx w).trace.any Event.failed = false) ∧
    ((tpm2_tool_onrun sys ctx w).ret = 0 →
      (tpm2_tool_onrun sys ctx w).trace.any Event.isLoad = true ∧
      (ctx.flags.c = true →
        (tpm2_tool_onrun sys ctx w).trace.any Event.isContextLoad = true) ∧
      (ctx.flags.C = true →
        (tpm2_tool_onrun sys ctx w).trace.any Event.isContextSave = true) ∧
      (ctx.out_file ≠ none → (tpm2_tool_onrun sys ctx w).trace.any Event.isSave = true)) := by
  obtain ⟨b1, b2, b3, b4⟩ := onrun_body_facts sys ctx w
  simp only [tpm2_tool_onrun]
  generalize sys.tpm2_session_save ctx.auth.session (onrun_body sys ctx w).world = s
  obtain ⟨ok, w2⟩ := s
  refine ⟨⟨_, ok, rfl, b3⟩, ?_, ?_, ?_⟩
  · cases ok
    · exact Or.inr rfl
    · exact b1
  · cases ok
    · simp [Event.failed]
    · simp only [Bool.not_true, Bool.false_eq_true, if_false, List.any_append, List.any_cons,
        List.any_nil, Event.failed, Bool.or_false]
      exact b2
  · cases ok
    · simp
    · simp only [Bool.not_true, Bool.false_eq_true, if_false, List.any_append, List.any_cons,
        List.any_nil, Event.isLoad, Event.isContextLoad, Event.isContextSave, Event.isSave,
        Bool.or_false]
      exact b4

/-- Witness for C11: with `-c` and `-C` given and every step succeeding the status is 0 and
every step was made; when only the session save fails the status is 1. -/
theorem load_onrun_session_save_once_and_status_witness :
    ((tpm2_tool_onrun (sampleSysWith 0 true true true true)
        { sampleCtx with flags := ⟨false, true, true, true, true⟩,
                         context_parent_file := some "parent.ctx",
                         context_file := some "obj.ctx" } []).trace.any Event.isLoad = true ∧
      (true = true →
        (tpm2_tool_onrun (sampleSysWith 0 true true true true)
          { sampleCtx with flags := ⟨false, true, true, true, true⟩,
                           context_parent_file := some "parent.ctx",
                           context_file := some "obj.ctx" } []).trace.any
            Event.isContextLoad = true) ∧
      (true = true →
        (tpm2_tool_onrun (sampleSysWith 0 true true true true)
          { sampleCtx with flags := ⟨false, true, true, true, true⟩,
                           context_parent_file := some "parent.ctx",
                           context_file := some "obj.ctx" } []).trace.any
            Event.isContextSave = true) ∧
      (some "name.bin" ≠ none →
        (tpm2_tool_onrun (sampleSysWith 0 true true true true)
          { sampleCtx with flags := ⟨false, true, true, true, true⟩,
                           context_parent_file := some "parent.ctx",
                           context_file := some "obj.ctx" } []).trace.any
            Event.isSave = true)) ∧
    (tpm2_tool_onrun (sampleSysWith 0 true true true true)
        { sampleCtx with flags := ⟨false, true, true, true, true⟩,
                         context_parent_file := some "parent.ctx",
                         context_file := some "obj.ctx" } []).world =
      [("obj.ctx", []), ("name.bin", [0x00, 0x0b, 0xaa, 0xbb])] ∧
    (tpm2_tool_onrun (sampleSysWith 0 true true true false) sampleCtx []).ret = 1 :=
  ⟨(load_onrun_session_save_once_and_status (sampleSysWith 0 true true true true)
      { sampleCtx with flags := ⟨false, true, true, true, true⟩,
                       context_parent_file := some "parent.ctx",
                       context_file := some "obj.ctx" } []).2.2.2 rfl,
    rfl, rfl⟩

/-- C12: when the flags do not satisfy (H or c) and u and r, `tpm2_tool_onrun` of
`tpm2_load` logs `Expected options (H or c) and u and r`, does nothing else but the session
save at `out` (no call of `load`, none of the context loader) and returns 1; so a run that
issues `Tss2_Sys_Load` has flags that satisfy the condition. -/
theorem load_onrun_rejects_incomplete_options {σ : Type} (sys : Sys σ)
    (ctx : tpm_load_ctx) (w : σ) :
    (Flags.expected ctx.flags = false →
      (tpm2_tool_onrun sys ctx w).trace =
        [Event.LOG_ERR "Expected options (H or c) and u and r" [],
         Event.tpm2_session_save ctx.auth.session
           (sys.tpm2_session_save ctx.auth.session w).1] ∧
      (tpm2_tool_onrun sys ctx w).trace.any Event.isLoad = false ∧
      (tpm2_tool_onrun sys ctx w).trace.any Event.isContextLoad = false ∧
      (tpm2_tool_onrun sys ctx w).ret = 1) ∧
    ((tpm2_tool_onrun sys ctx w).trace.any Event.isLoad = true →
      Flags.expected ctx.flags = true) := by
  have key : Flags.expected ctx.flags = false →
      (tpm2_tool_onrun sys ctx w).trace =
        [Event.LOG_ERR "Expected options (H or c) and u and r" [],
         Event.tpm2_session_save ctx.auth.session
           (sys.tpm2_session_save ctx.auth.session w).1] ∧
      (tpm2_tool_onrun sys ctx w).ret = 1 := by
    intro he
    have hv : ((!ctx.flags.H && !ctx.flags.c) || (!ctx.flags.u || !ctx.flags.r)) = true := by
      revert he
      simp only [Flags.expected]
      cases ctx.flags.H <;> cases ctx.flags.c <;> cases ctx.flags.u <;> cases ctx.flags.r <;>
        simp
    simp only [tpm2_tool_onrun, onrun_body, hv, if_true]
    refine ⟨rfl, ?_⟩
    cases (sys.tpm2_session_save ctx.auth.session w).1 <;> rfl
  constructor
  · intro he
    obtain ⟨k1, k2⟩ := key he
    refine ⟨k1, ?_, ?_, k2⟩
    · rw [k1]; rfl
    · rw [k1]; rfl
  · intro hl
    cases he : Flags.expected ctx.flags with
    | true => rfl
    | false =>
      rw [(key he).1] at hl
      cases hl

/-- Witness for C12: no option at all. -/
theorem load_onrun_rejects_incomplete_options_witness :
    (tpm2_tool_onrun (sampleSys 0 true)
        { sampleCtx with flags := ⟨false, false, false, false, false⟩ } []).trace =
      [Event.LOG_ERR "Expected options (H or c) and u and r" [],
       Event.tpm2_session_save none true] ∧
    (tpm2_tool_onrun (sampleSys 0 true)
        { sampleCtx with flags := ⟨false, false, false, false, false⟩ } []).trace.any
      Event.isLoad = false ∧
    (tpm2_tool_onrun (sampleSys 0 true)
        { sampleCtx with flags := ⟨false, false, false, false, false⟩ } []).trace.any
      Event.isContextLoad = false ∧
    (tpm2_tool_onrun (sampleSys 0 true)
        { sampleCtx with flags := ⟨false, false, false, false, false⟩ } []).ret = 1 :=
  (load_onrun_rejects_incomplete_options (sampleSys 0 true)
    { sampleCtx with flags := ⟨false, false, false, false, false⟩ } []).1 rfl

end LoadOnrunTheorems

section PolicySignedTheorems

open PolicySigned

/-- The option check of `tpm2_policysigned` passes exactly when the session path and the
key context are given and the signature and hash algorithm flags are set; it then logs
nothing, and otherwise logs one diagnostic. -/
theorem is_input_option_args_valid_iff (ctx : tpm2_policysigned_ctx) :
    ((is_input_option_args_valid ctx).1 = true ↔
      ctx.session_path ≠ none ∧ ctx.context_arg ≠ none ∧ ctx.flags.sig = true ∧
        ctx.flags.halg = true) ∧
    ((is_input_option_args_valid ctx).1 = true → (is_input_option_args_valid ctx).2 = []) ∧
    ((is_input_option_args_valid ctx).1 = false →
      ∃ msg, (is_input_option_args_valid ctx).2 = [Event.LOG_ERR msg []]) := by
  unfold is_input_option_args_valid
  cases ctx.session_path <;> cases ctx.context_arg <;> cases ctx.flags.sig <;>
    cases ctx.flags.halg <;> simp

/-- The calls of `onrun_object_load` begin with the signer object load and contain no
signature load. -/
theorem onrun_object_load_trace {σ : Type} (sys : Sys σ) (ctx : tpm2_policysigned_ctx)
    (w : σ) :
    (onrun_object_load sys ctx w).trace.any Event.isObjectLoad = true ∧
    (onrun_object_load sys ctx w).trace.any Event.isSigLoad = false := by
  simp only [onrun_object_load]
  split
  · simp [Event.isObjectLoad, Event.isSigLoad]
  · split
    · simp [Event.isObjectLoad, Event.isSigLoad]
    · split <;> simp [Event.isObjectLoad, Event.isSigLoad]

/-- When the option check fails, `tpm2_tool_onrun` is the diagnostic and the option error. -/
theorem policysigned_onrun_invalid {σ : Type} (sys : Sys σ) (ctx : tpm2_policysigned_ctx)
    (w : σ) (hv : (is_input_option_args_valid ctx).1 = false) :
    tpm2_tool_onrun sys ctx w =
      { ret := tool_rc.tool_rc_option_error, world := w,
        trace := (is_input_option_args_valid ctx).2 } := by
  simp [tpm2_tool_onrun, hv]

/-- When the option check passes, `tpm2_tool_onrun` is the signature load followed, if the
signature parsed, by `onrun_object_load`. -/
theorem policysigned_onrun_valid {σ : Type} (sys : Sys σ) (ctx : tpm2_policysigned_ctx)
    (w : σ) (hv : (is_input_option_args_valid ctx).1 = true) :
    ((sys.tpm2_convert_sig_load ctx.sig_file_path
          (if ctx.flags.fmt then tpm2_convert_sig_fmt.signature_format_plain
            else tpm2_convert_sig_fmt.signature_format_tss)
          ctx.format ctx.halg ctx.signature w).1.1 = false ∧
      tpm2_tool_onrun sys ctx w =
        { ret := tool_rc.tool_rc_general_error,
          world := (sys.tpm2_convert_sig_load ctx.sig_file_path
            (if ctx.flags.fmt then tpm2_convert_sig_fmt.signature_format_plain
              else tpm2_convert_sig_fmt.signature_format_tss)
            ctx.format ctx.halg ctx.signature w).2,
          trace := [Event.tpm2_convert_sig_load ctx.sig_file_path
            (if ctx.flags.fmt then tpm2_convert_sig_fmt.signature_format_plain
              else tpm2_convert_sig_fmt.signature_format_tss)
            ctx.format ctx.halg false] }) ∨
    ((sys.tpm2_convert_sig_load ctx.sig_file_path
          (if ctx.flags.fmt then tpm2_convert_sig_fmt.signature_format_plain
            else tpm2_convert_sig_fmt.signature_format_tss)
          ctx.format ctx.halg ctx.signature w).1.1 = true ∧
      tpm2_tool_onrun sys ctx w =
        Outcome.after
          [Event.tpm2_convert_sig_load ctx.sig_file_path
            (if ctx.flags.fmt then tpm2_convert_sig_fmt.signature_format_plain
              else tpm2_convert_sig_fmt.signature_format_tss)
            ctx.format ctx.halg true]
          (onrun_object_load sys
            { ctx with signature := (sys.tpm2_convert_sig_load ctx.sig_file_path
                (if ctx.flags.fmt then tpm2_convert_sig_fmt.signature_format_plain
                  else tpm2_convert_sig_fmt.signature_format_tss)
                ctx.format ctx.halg ctx.signature w).1.2 }
            (sys.tpm2_convert_sig_load ctx.sig_file_path
              (if ctx.flags.fmt then tpm2_convert_sig_fmt.signature_format_plain
                else tpm2_convert_sig_fmt.signature_format_tss)
              ctx.format ctx.halg ctx.signature w).2)) := by
  have hsig := ((is_input_option_args_valid_iff ctx).1.mp hv).2.2.1
  have hnil := (is_input_option_args_valid_iff ctx).2.1 hv
  simp only [tpm2_tool_onrun, hv, hsig, hnil, Bool.not_true, Bool.false_eq_true, if_false,
    if_true, List.nil_append]
  cases hl : (sys.tpm2_convert_sig_load ctx.sig_file_path
      (if ctx.flags.fmt then tpm2_convert_sig_fmt.signature_format_plain
        else tpm2_convert_sig_fmt.signature_format_tss)
      ctx.format ctx.halg ctx.signature w).1.1 with
  | false => left; simp
  | true => right; simp

/-- C13: `tpm2_tool_onrun` of `tpm2_policysigned` returns `tool_rc_option_error` without
loading the signature, loading the signer object or restoring the session exactly when the
session path is missing or one of key context, signature file, hash algorithm was not
supplied, that is, when `is_input_option_args_valid` is false; the format flag plays no part:
without the hash algorithm the run ends with the option error whether or not a format was
given. -/
theorem policysigned_option_error_iff {σ : Type} (sys : Sys σ)
    (ctx : tpm2_policysigned_ctx) (w : σ) :
    (((tpm2_tool_onrun sys ctx w).ret = tool_rc.tool_rc_option_error ∧
        (tpm2_tool_onrun sys ctx w).trace.any Event.isSigLoad = false ∧
        (tpm2_tool_onrun sys ctx w).trace.any Event.isObjectLoad = false ∧
        (tpm2_tool_onrun sys ctx w).trace.any Event.isRestore = false) ↔
      (ctx.session_path = none ∨ ctx.context_arg = none ∨ ctx.flags.sig = false ∨
        ctx.flags.halg = false)) ∧
    ((is_input_option_args_valid ctx).1 = false ↔
      (ctx.session_path = none ∨ ctx.context_arg = none ∨ ctx.flags.sig = false ∨
        ctx.flags.halg = false)) ∧
    (∀ fmt : Bool,
      (tpm2_tool_onrun sys
        { ctx with flags := { ctx.flags with halg := false, fmt := fmt } } w).ret =
          tool_rc.tool_rc_option_error ∧
      calls (tpm2_tool_onrun sys
        { ctx with flags := { ctx.flags with halg := false, fmt := fmt } } w).trace = []) := by
  have inv : ∀ c : tpm2_policysigned_ctx, (is_input_option_args_valid c).1 = false →
      (tpm2_tool_onrun sys c w).ret = tool_rc.tool_rc_option_error ∧
      ∃ msg, (tpm2_tool_onrun sys c w).trace = [Event.LOG_ERR msg []] := by
    intro c hc
    obtain ⟨msg, hm⟩ := (is_input_option_args_valid_iff c).2.2 hc
    rw [policysigned_onrun_invalid sys c w hc]
    exact ⟨rfl, msg, hm⟩
  have hiff : (is_input_option_args_valid ctx).1 = false ↔
      (ctx.session_path = none ∨ ctx.context_arg = none ∨ ctx.flags.sig = false ∨
        ctx.flags.halg = false) := by
    unfold is_input_option_args_valid
    cases ctx.session_path <;> cases ctx.context_arg <;> cases ctx.flags.sig <;>
      cases ctx.flags.halg <;> simp
  refine ⟨?_, hiff, ?_⟩
  · rw [← hiff]
    constructor
    · rintro ⟨_, h2, _, _⟩
      cases hv : (is_input_option_args_valid ctx).1 with
      | false => rfl
      | true =>
        exfalso
        rcases policysigned_onrun_valid sys ctx w hv with ⟨_, h⟩ | ⟨_, h⟩ <;>
          rw [h] at h2 <;> simp [Outcome.after, Event.isSigLoad] at h2
    · intro hv
      obtain ⟨h1, msg, hm⟩ := inv ctx hv
      rw [hm]
      exact ⟨h1, rfl, rfl, rfl⟩
  · intro fmt
    have hc : (is_input_option_args_valid
        { ctx with flags := { ctx.flags with halg := false, fmt := fmt } }).1 = false := by
      unfold is_input_option_args_valid
      cases ctx.session_path <;> cases ctx.context_arg <;> cases ctx.flags.sig <;> simp
    obtain ⟨h1, msg, hm⟩ := inv _ hc
    rw [hm]
    exact ⟨h1, rfl⟩

/-- Witness for C13: with the hash algorithm missing the run is the diagnostic alone. -/
theorem policysigned_option_error_iff_witness :
    (tpm2_tool_onrun (sampleSys true tool_rc.tool_rc_success tool_rc.tool_rc_success
        tool_rc.tool_rc_success tool_rc.tool_rc_success)
      { sampleCtx with flags := ⟨false, true, true⟩ } ()).ret = tool_rc.tool_rc_option_error ∧
    (tpm2_tool_onrun (sampleSys true tool_rc.tool_rc_success tool_rc.tool_rc_success
        tool_rc.tool_rc_success tool_rc.tool_rc_success)
      { sampleCtx with flags := ⟨false, true, true⟩ } ()).trace.any Event.isSigLoad = false ∧
    (tpm2_tool_onrun (sampleSys true tool_rc.tool_rc_success tool_rc.tool_rc_success
        tool_rc.tool_rc_success tool_rc.tool_rc_success)
      { sampleCtx with flags := ⟨false, true, true⟩ } ()).trace.any Event.isObjectLoad
        = false ∧
    (tpm2_tool_onrun (sampleSys true tool_rc.tool_rc_success tool_rc.tool_rc_success
        tool_rc.tool_rc_success tool_rc.tool_rc_success)
      { sampleCtx with flags := ⟨false, true, true⟩ } ()).trace.any Event.isRestore = false :=
  (policysigned_option_error_iff (sampleSys true tool_rc.tool_rc_success
      tool_rc.tool_rc_success tool_rc.tool_rc_success tool_rc.tool_rc_success)
    { sampleCtx with flags := ⟨false, true, true⟩ } ()).1.mpr (Or.inr (Or.inr (Or.inr rfl)))

/-- An accepted option sets the format flag exactly when it is `f`. -/
theorem on_option_fmt {σ : Type} (sys : Sys σ) (key : Char) (value : String)
    (ctx : tpm2_policysigned_ctx) (h : (on_option sys key value ctx).1.1 = true) :
    (on_option sys key value ctx).1.2.flags.fmt = (ctx.flags.fmt || decide (key = 'f')) := by
  unfold on_option at h ⊢
  by_cases hL : key = 'L'
  · subst hL; simp
  by_cases hS : key = 'S'
  · subst hS; simp
  by_cases hg : key = 'g'
  · subst hg
    by_cases ha : sys.tpm2_alg_util_from_optarg value
        tpm2_alg_util_flags.tpm2_alg_util_flags_hash = TPM2_ALG_ERROR
    · simp [ha] at h
    · simp [ha]
  by_cases hf : key = 'f'
  · subst hf
    by_cases ha : sys.tpm2_alg_util_from_optarg value
        tpm2_alg_util_flags.tpm2_alg_util_flags_sig = TPM2_ALG_ERROR
    · simp [ha] at h
    · simp [ha]
  by_cases hs : key = 's'
  · subst hs; simp
  by_cases hc : key = 'c'
  · subst hc; simp
  simp [hL, hS, hg, hf, hs, hc]

/-- After the options are accepted the format flag is set exactly when it was set before
or an `f` option is among them. -/
theorem populate_fmt {σ : Type} (sys : Sys σ) (opts : List (Char × String)) :
    ∀ ctx ctx1 : tpm2_policysigned_ctx, populate sys opts ctx = some ctx1 →
      ctx1.flags.fmt = (ctx.flags.fmt || opts.any (fun o => decide (o.1 = 'f'))) := by
  induction opts with
  | nil =>
    intro ctx ctx1 h
    simp only [populate, Option.some.injEq] at h
    simp [h]
  | cons o rest ih =>
    intro ctx ctx1 h
    obtain ⟨key, value⟩ := o
    simp only [populate] at h
    split at h
    · rename_i hok
      rw [ih _ _ h, on_option_fmt sys key value ctx hok]
      simp [Bool.or_assoc]
    · cases h

/-- C14: in `tpm2_tool_onrun` of `tpm2_policysigned` every parse of the signature file is
made in the plain format exactly when the format flag is set and in the tss format exactly
when it is not, and the flag is set exactly when an `f` option was among the accepted
options; when the parse fails the tool returns `tool_rc_general_error` and the parse is the
whole run: no signer object load, no session restore, no policy assertion. -/
theorem policysigned_signature_format {σ : Type} (sys : Sys σ)
    (ctx : tpm2_policysigned_ctx) (w : σ) :
    (∀ e ∈ (tpm2_tool_onrun sys ctx w).trace, ∀ p fmt format halg ok,
      e = Event.tpm2_convert_sig_load p fmt format halg ok →
        (fmt = tpm2_convert_sig_fmt.signature_format_plain ↔ ctx.flags.fmt = true) ∧
        (fmt = tpm2_convert_sig_fmt.signature_format_tss ↔ ctx.flags.fmt = false) ∧
        (ok = false →
          (tpm2_tool_onrun sys ctx w).ret = tool_rc.tool_rc_general_error ∧
          (tpm2_tool_onrun sys ctx w).trace = [e])) ∧
    (∀ opts ctx1, populate sys opts ctx0 = some ctx1 →
      (ctx1.flags.fmt = true ↔ ∃ v, ('f', v) ∈ opts)) := by
  constructor
  · intro e he p fmt format halg ok heq
    subst heq
    cases hv : (is_input_option_args_valid ctx).1 with
    | false =>
      obtain ⟨msg, hm⟩ := (is_input_option_args_valid_iff ctx).2.2 hv
      rw [policysigned_onrun_invalid sys ctx w hv, hm] at he
      simp at he
    | true =>
      rcases policysigned_onrun_valid sys ctx w hv with ⟨_, h⟩ | ⟨_, h⟩
      · rw [h] at he ⊢
        simp only [List.mem_singleton, Event.tpm2_convert_sig_load.injEq] at he
        obtain ⟨_, hf, _, _, hok⟩ := he
        subst hok
        refine ⟨?_, ?_, fun _ => ⟨rfl, ?_⟩⟩
        · rw [hf]; cases ctx.flags.fmt <;> simp
        · rw [hf]; cases ctx.flags.fmt <;> simp
        · simp_all
      · rw [h] at he
        simp only [Outcome.after, List.cons_append, List.nil_append, List.mem_cons,
          Event.tpm2_convert_sig_load.injEq] at he
        rcases he with ⟨_, hf, _, _, hok⟩ | he
        · subst hok
          refine ⟨?_, ?_, fun hc => by cases hc⟩
          · rw [hf]; cases ctx.flags.fmt <;> simp
          · rw [hf]; cases ctx.flags.fmt <;> simp
        · exfalso
          have hno := (onrun_object_load_trace sys
            { ctx with signature := (sys.tpm2_convert_sig_load ctx.sig_file_path
                (if ctx.flags.fmt then tpm2_convert_sig_fmt.signature_format_plain
                  else tpm2_convert_sig_fmt.signature_format_tss)
                ctx.format ctx.halg ctx.signature w).1.2 }
            (sys.tpm2_convert_sig_load ctx.sig_file_path
              (if ctx.flags.fmt then tpm2_convert_sig_fmt.signature_format_plain
                else tpm2_convert_sig_fmt.signature_format_tss)
              ctx.format ctx.halg ctx.signature w).2).2
          rw [List.any_eq_false] at hno
          exact hno _ he rfl
  · intro opts ctx1 h
    rw [populate_fmt sys opts ctx0 ctx1 h]
    simp only [ctx0, Bool.false_or, List.any_eq_true, decide_eq_true_eq]
    constructor
    · rintro ⟨⟨k, v⟩, hm, hk⟩
      simp only at hk
      subst hk
      exact ⟨v, hm⟩
    · rintro ⟨v, hm⟩
      exact ⟨('f', v), hm, rfl⟩

/-- Witness for C14: a signature file that does not parse, read in the tss format because no
format was given; and the format flag after `-f rsassa`. -/
theorem policysigned_signature_format_witness :
    ((tpm2_convert_sig_fmt.signature_format_tss = tpm2_convert_sig_fmt.signature_format_plain ↔
        sampleCtx.flags.fmt = true) ∧
      (tpm2_convert_sig_fmt.signature_format_tss = tpm2_convert_sig_fmt.signature_format_tss ↔
        sampleCtx.flags.fmt = false) ∧
      (false = false →
        (tpm2_tool_onrun (sampleSys false tool_rc.tool_rc_success tool_rc.tool_rc_success
            tool_rc.tool_rc_success tool_rc.tool_rc_success) sampleCtx ()).ret =
          tool_rc.tool_rc_general_error ∧
        (tpm2_tool_onrun (sampleSys false tool_rc.tool_rc_success tool_rc.tool_rc_success
            tool_rc.tool_rc_success tool_rc.tool_rc_success) sampleCtx ()).trace =
          [Event.tpm2_convert_sig_load (some "sig.bin")
            tpm2_convert_sig_fmt.signature_format_tss 0 0x000B false])) ∧
    (({ ctx0 with format := 0x0014, flags := ⟨false, false, true⟩ } :
        tpm2_policysigned_ctx).flags.fmt = true ↔ ∃ v, ('f', v) ∈ [('f', "rsassa")]) :=
  ⟨(policysigned_signature_format (sampleSys false tool_rc.tool_rc_success
        tool_rc.tool_rc_success tool_rc.tool_rc_success tool_rc.tool_rc_success)
      sampleCtx ()).1
      (Event.tpm2_convert_sig_load (some "sig.bin") tpm2_convert_sig_fmt.signature_format_tss
        0 0x000B false)
      (by decide) _ _ _ _ _ rfl,
    (policysigned_signature_format (sampleSys false tool_rc.tool_rc_success
        tool_rc.tool_rc_success tool_rc.tool_rc_success tool_rc.tool_rc_success)
      sampleCtx ()).2 [('f', "rsassa")] _ (by decide)⟩

/-- The four ways `onrun_object_load` can go, as trace and returned value. -/
theorem onrun_object_load_cases {σ : Type} (sys : Sys σ) (ctx : tpm2_policysigned_ctx)
    (w : σ) :
    (∃ rc, rc ≠ tool_rc.tool_rc_success ∧
      (onrun_object_load sys ctx w).trace =
        [Event.tpm2_util_object_load ctx.context_arg
          (sys.TPM2_HANDLES_FLAGS_TRANSIENT ||| sys.TPM2_HANDLES_FLAGS_PERSISTENT) rc] ∧
      (onrun_object_load sys ctx w).ret = rc) ∨
    (∃ rc, rc ≠ tool_rc.tool_rc_success ∧
      (onrun_object_load sys ctx w).trace =
        [Event.tpm2_util_object_load ctx.context_arg
          (sys.TPM2_HANDLES_FLAGS_TRANSIENT ||| sys.TPM2_HANDLES_FLAGS_PERSISTENT)
          tool_rc.tool_rc_success,
         Event.tpm2_session_restore ctx.session_path false rc] ∧
      (onrun_object_load sys ctx w).ret = rc) ∨
    (∃ s k rc, rc ≠ tool_rc.tool_rc_success ∧
      (onrun_object_load sys ctx w).trace =
        [Event.tpm2_util_object_load ctx.context_arg
          (sys.TPM2_HANDLES_FLAGS_TRANSIENT ||| sys.TPM2_HANDLES_FLAGS_PERSISTENT)
          tool_rc.tool_rc_success,
         Event.tpm2_session_restore ctx.session_path false tool_rc.tool_rc_success,
         Event.tpm2_policy_build_policysigned s k ctx.signature rc,
         Event.LOG_ERR "Could not build policysigned TPM" []] ∧
      (onrun_object_load sys ctx w).ret = rc) ∨
    (∃ s k rc,
      (onrun_object_load sys ctx w).trace =
        [Event.tpm2_util_object_load ctx.context_arg
          (sys.TPM2_HANDLES_FLAGS_TRANSIENT ||| sys.TPM2_HANDLES_FLAGS_PERSISTENT)
          tool_rc.tool_rc_success,
         Event.tpm2_session_restore ctx.session_path false tool_rc.tool_rc_success,
         Event.tpm2_policy_build_policysigned s k ctx.signature tool_rc.tool_rc_success,
         Event.tpm2_policy_tool_finish s ctx.policy_digest_path rc] ∧
      (onrun_object_load sys ctx w).ret = rc) := by
  simp only [onrun_object_load]
  generalize sys.tpm2_util_object_load ctx.context_arg
    (sys.TPM2_HANDLES_FLAGS_TRANSIENT ||| sys.TPM2_HANDLES_FLAGS_PERSISTENT)
    ctx.key_context_object w = o
  obtain ⟨⟨rc1, k⟩, w1⟩ := o
  simp only
  by_cases h1 : rc1 = tool_rc.tool_rc_success
  · subst h1
    simp only [ne_eq, not_true_eq_false, if_false]
    generalize sys.tpm2_session_restore ctx.session_path false ctx.session w1 = r
    obtain ⟨⟨rc2, s⟩, w2⟩ := r
    simp only
    by_cases h2 : rc2 = tool_rc.tool_rc_success
    · subst h2
      simp only [ne_eq, not_true_eq_false, if_false]
      generalize sys.tpm2_policy_build_policysigned s k ctx.signature w2 = b
      obtain ⟨rc3, w3⟩ := b
      simp only
      by_cases h3 : rc3 = tool_rc.tool_rc_success
      · subst h3
        simp only [ne_eq, not_true_eq_false, if_false]
        exact Or.inr (Or.inr (Or.inr ⟨s, k, _, rfl, rfl⟩))
      · simp only [ne_eq, h3, not_false_eq_true, if_true]
        exact Or.inr (Or.inr (Or.inl ⟨s, k, rc3, h3, rfl, rfl⟩))
    · simp only [ne_eq, h2, not_false_eq_true, if_true]
      exact Or.inr (Or.inl ⟨rc2, h2, rfl, rfl⟩)
  · simp only [ne_eq, h1, not_false_eq_true, if_true]
    exact Or.inl ⟨rc1, h1, rfl, rfl⟩

/-- C20: when the option check has passed, a run of `tpm2_tool_onrun` of
`tpm2_policysigned` is one of five: the signature load fails and the result is
`tool_rc_general_error`; or the signature loads and the signer object load fails; or those
succeed and the session restore fails; or those succeed and the policy assertion fails, each
failure being returned as the code the failing step gave; or all four succeed, the finishing
step is made and its result is returned.  The steps appear in this order and each follows
only successful ones; the finishing step is in the trace exactly when none of the four
steps before it failed. -/
theorem policysigned_steps_in_order {σ : Type} (sys : Sys σ) (ctx : tpm2_policysigned_ctx)
    (w : σ) (hv : (is_input_option_args_valid ctx).1 = true) :
    (((tpm2_tool_onrun sys ctx w).trace =
        [Event.tpm2_convert_sig_load ctx.sig_file_path
          (if ctx.flags.fmt then tpm2_convert_sig_fmt.signature_format_plain
            else tpm2_convert_sig_fmt.signature_format_tss) ctx.format ctx.halg false] ∧
      (tpm2_tool_onrun sys ctx w).ret = tool_rc.tool_rc_general_error) ∨
    (∃ rc, rc ≠ tool_rc.tool_rc_success ∧
      (tpm2_tool_onrun sys ctx w).trace =
        [Event.tpm2_convert_sig_load ctx.sig_file_path
          (if ctx.flags.fmt then tpm2_convert_sig_fmt.signature_format_plain
            else tpm2_convert_sig_fmt.signature_format_tss) ctx.format ctx.halg true,
         Event.tpm2_util_object_load ctx.context_arg
          (sys.TPM2_HANDLES_FLAGS_TRANSIENT ||| sys.TPM2_HANDLES_FLAGS_PERSISTENT) rc] ∧
      (tpm2_tool_onrun sys ctx w).ret = rc) ∨
    (∃ rc, rc ≠ tool_rc.tool_rc_success ∧
      (tpm2_tool_onrun sys ctx w).trace =
        [Event.tpm2_convert_sig_load ctx.sig_file_path
          (if ctx.flags.fmt then tpm2_convert_sig_fmt.signature_format_plain
            else tpm2_convert_sig_fmt.signature_format_tss) ctx.format ctx.halg true,
         Event.tpm2_util_object_load ctx.context_arg
          (sys.TPM2_HANDLES_FLAGS_TRANSIENT ||| sys.TPM2_HANDLES_FLAGS_PERSISTENT)
          tool_rc.tool_rc_success,
         Event.tpm2_session_restore ctx.session_path false rc] ∧
      (tpm2_tool_onrun sys ctx w).ret = rc) ∨
    (∃ s k sg rc, rc ≠ tool_rc.tool_rc_success ∧
      (tpm2_tool_onrun sys ctx w).trace =
        [Event.tpm2_convert_sig_load ctx.sig_file_path
          (if ctx.flags.fmt then tpm2_convert_sig_fmt.signature_format_plain
            else tpm2_convert_sig_fmt.signature_format_tss) ctx.format ctx.halg true,
         Event.tpm2_util_object_load ctx.context_arg
          (sys.TPM2_HANDLES_FLAGS_TRANSIENT ||| sys.TPM2_HANDLES_FLAGS_PERSISTENT)
          tool_rc.tool_rc_success,
         Event.tpm2_session_restore ctx.session_path false tool_rc.tool_rc_success,
         Event.tpm2_policy_build_policysigned s k sg rc,
         Event.LOG_ERR "Could not build policysigned TPM" []] ∧
      (tpm2_tool_onrun sys ctx w).ret = rc) ∨
    (∃ s k sg rc,
      (tpm2_tool_onrun sys ctx w).trace =
        [Event.tpm2_convert_sig_load ctx.sig_file_path
          (if ctx.flags.fmt then tpm2_convert_sig_fmt.signature_format_plain
            else tpm2_convert_sig_fmt.signature_format_tss) ctx.format ctx.halg true,
         Event.tpm2_util_object_load ctx.context_arg
          (sys.TPM2_HANDLES_FLAGS_TRANSIENT ||| sys.TPM2_HANDLES_FLAGS_PERSISTENT)
          tool_rc.tool_rc_success,
         Event.tpm2_session_restore ctx.session_path false tool_rc.tool_rc_success,
         Event.tpm2_policy_build_policysigned s k sg tool_rc.tool_rc_success,
         Event.tpm2_policy_tool_finish s ctx.policy_digest_path rc] ∧
      (tpm2_tool_onrun sys ctx w).ret = rc)) ∧
    ((tpm2_tool_onrun sys ctx w).trace.any Event.isFinish = true ↔
      (tpm2_tool_onrun sys ctx w).trace.any Event.stepFailed = false) := by
  have shape : _ := policysigned_onrun_valid sys ctx w hv
  rcases shape with ⟨_, h⟩ | ⟨_, h⟩
  · rw [h]
    refine ⟨Or.inl ⟨rfl, rfl⟩, ?_⟩
    simp [Event.isFinish, Event.stepFailed]
  · rw [h]
    rcases onrun_object_load_cases sys
        { ctx with signature := (sys.tpm2_convert_sig_load ctx.sig_file_path
            (if ctx.flags.fmt then tpm2_convert_sig_fmt.signature_format_plain
              else tpm2_convert_sig_fmt.signature_format_tss)
            ctx.format ctx.halg ctx.signature w).1.2 }
        (sys.tpm2_convert_sig_load ctx.sig_file_path
          (if ctx.flags.fmt then tpm2_convert_sig_fmt.signature_format_plain
            else tpm2_convert_sig_fmt.signature_format_tss)
          ctx.format ctx.halg ctx.signature w).2 with
      ⟨rc, hrc, ht, hr⟩ | ⟨rc, hrc, ht, hr⟩ | ⟨s, k, rc, hrc, ht, hr⟩ | ⟨s, k, rc, ht, hr⟩
    · simp only [Outcome.after, ht, hr]
      refine ⟨Or.inr (Or.inl ⟨rc, hrc, rfl, rfl⟩), ?_⟩
      simp [Event.isFinish, Event.stepFailed, hrc]
    · simp only [Outcome.after, ht, hr]
      refine ⟨Or.inr (Or.inr (Or.inl ⟨rc, hrc, rfl, rfl⟩)), ?_⟩
      simp [Event.isFinish, Event.stepFailed, hrc]
    · simp only [Outcome.after, ht, hr]
      refine ⟨Or.inr (Or.inr (Or.inr (Or.inl ⟨s, k, _, rc, hrc, rfl, rfl⟩))), ?_⟩
      simp [Event.isFinish, Event.stepFailed, hrc]
    · simp only [Outcome.after, ht, hr]
      refine ⟨Or.inr (Or.inr (Or.inr (Or.inr ⟨s, k, _, rc, rfl, rfl⟩))), ?_⟩
      simp [Event.isFinish, Event.stepFailed]

/-- Witness for C20: a run in which every step succeeds and the finishing step answers
`tool_rc_general_error`, which is what the tool returns. -/
theorem policysigned_steps_in_order_witness :
    (tpm2_tool_onrun (sampleSys true tool_rc.tool_rc_success tool_rc.tool_rc_success
        tool_rc.tool_rc_success tool_rc.tool_rc_general_error) sampleCtx ()).trace =
      [Event.tpm2_convert_sig_load (some "sig.bin") tpm2_convert_sig_fmt.signature_format_tss
         0 0x000B true,
       Event.tpm2_util_object_load (some "key.ctx") 3 tool_rc.tool_rc_success,
       Event.tpm2_session_restore (some "session.dat") false tool_rc.tool_rc_success,
       Event.tpm2_policy_build_policysigned (some 0x03000000) 0x81010001 [1, 2, 3]
         tool_rc.tool_rc_success,
       Event.tpm2_policy_tool_finish (some 0x03000000) none tool_rc.tool_rc_general_error] ∧
    (tpm2_tool_onrun (sampleSys true tool_rc.tool_rc_success tool_rc.tool_rc_success
        tool_rc.tool_rc_success tool_rc.tool_rc_general_error) sampleCtx ()).ret =
      tool_rc.tool_rc_general_error ∧
    ((tpm2_tool_onrun (sampleSys true tool_rc.tool_rc_success tool_rc.tool_rc_success
        tool_rc.tool_rc_success tool_rc.tool_rc_general_error) sampleCtx ()).trace.any
        Event.isFinish = true ↔
      (tpm2_tool_onrun (sampleSys true tool_rc.tool_rc_success tool_rc.tool_rc_success
        tool_rc.tool_rc_success tool_rc.tool_rc_general_error) sampleCtx ()).trace.any
        Event.stepFailed = false) :=
  ⟨rfl, rfl,
    (policysigned_steps_in_order (sampleSys true tool_rc.tool_rc_success
        tool_rc.tool_rc_success tool_rc.tool_rc_success tool_rc.tool_rc_general_error)
      sampleCtx () rfl).2⟩

end PolicySignedTheorems

section CreatePrimaryTheorems

open CreatePrimary

/-- One optional save keeps the link between `rc`, `result` and the saves that failed, and
attempts the save when a file is given. -/
theorem save_step_facts {σ : Type} (file : Option String)
    (save : Option String → σ → Bool × σ) (ev : Option String → Bool → Event) (msg : String)
    (st : SaveState σ) (hev : ∀ p ok, Event.saveFailed (ev p ok) = !ok)
    (h1 : st.rc = tool_rc.tool_rc_success ↔ st.trace.any Event.saveFailed = false)
    (h2 : st.result = false → st.trace.any Event.saveFailed = true) :
    ((save_step file save ev msg st).rc = tool_rc.tool_rc_success ↔
      (save_step file save ev msg st).trace.any Event.saveFailed = false) ∧
    ((save_step file save ev msg st).result = false →
      (save_step file save ev msg st).trace.any Event.saveFailed = true) ∧
    (∃ ext, (save_step file save ev msg st).trace = st.trace ++ ext ∧
      (∀ p, file = some p → ∃ ok, ev (some p) ok ∈ ext) ∧
      (∀ e ∈ ext, (∃ p ok, e = ev p ok) ∨ e = Event.LOG_ERR msg [])) := by
  cases file with
  | none =>
    cases hr : st.result with
    | false =>
      have hf := h2 hr
      simp only [save_step, hr, Bool.not_false, if_true]
      refine ⟨?_, ?_, [Event.LOG_ERR msg []], rfl, ?_, ?_⟩
      · simp [hf]
      · intro _; simp [hf]
      · intro p hp; cases hp
      · intro e he; simp at he; exact Or.inr he
    | true =>
      simp only [save_step, hr, Bool.not_true, Bool.false_eq_true, if_false]
      refine ⟨h1, ?_, [], by simp, ?_, ?_⟩
      · intro h; cases h
      · intro p hp; cases hp
      · intro e he; cases he
  | some path =>
    simp only [save_step]
    generalize save (some path) st.world = r
    obtain ⟨ok, w1⟩ := r
    cases ok with
    | false =>
      simp only [Bool.not_false, if_true]
      refine ⟨?_, ?_, [ev (some path) false, Event.LOG_ERR msg []], by simp, ?_, ?_⟩
      · simp [hev]
      · intro _; simp [hev]
      · intro p hp; cases hp; exact ⟨false, by simp⟩
      · intro e he
        simp at he
        rcases he with he | he
        · exact Or.inl ⟨_, _, he⟩
        · exact Or.inr he
    | true =>
      simp only [Bool.not_true, Bool.false_eq_true, if_false]
      refine ⟨?_, ?_, [ev (some path) true], rfl, ?_, ?_⟩
      · simp [hev, h1]
      · intro h; cases h
      · intro p hp; cases hp; exact ⟨true, by simp⟩
      · intro e he
        simp at he
        exact Or.inl ⟨_, _, he⟩

/-- The run of the three optional saves from a state in which `result` is true, `rc` is
success and nothing has failed. -/
theorem three_saves_facts {σ : Type} (sys : Sys σ) (ctx : tpm_createprimary_ctx)
    (s0 : SaveState σ) (hres : s0.result = true) (hrc : s0.rc = tool_rc.tool_rc_success)
    (hnf : s0.trace.any Event.saveFailed = false) :
    ∃ ext,
      (save_step ctx.creation_hash_file (sys.files_save_digest ctx.objdata.out.hash)
        (Event.files_save_digest ctx.objdata.out.hash) "Failed saving creation hash."
        (save_step ctx.creation_ticket_file
          (sys.files_save_creation_ticket ctx.objdata.out.creation_ticket)
          (Event.files_save_creation_ticket ctx.objdata.out.creation_ticket)
          "Failed saving creation ticket."
          (save_step ctx.creation_data_file
            (sys.files_save_creation_data ctx.objdata.out.creation_data)
            (Event.files_save_creation_data ctx.objdata.out.creation_data)
            "Failed saving creation data." s0))).trace = s0.trace ++ ext ∧
      ((save_step ctx.creation_hash_file (sys.files_save_digest ctx.objdata.out.hash)
        (Event.files_save_digest ctx.objdata.out.hash) "Failed saving creation hash."
        (save_step ctx.creation_ticket_file
          (sys.files_save_creation_ticket ctx.objdata.out.creation_ticket)
          (Event.files_save_creation_ticket ctx.objdata.out.creation_ticket)
          "Failed saving creation ticket."
          (save_step ctx.creation_data_file
            (sys.files_save_creation_data ctx.objdata.out.creation_data)
            (Event.files_save_creation_data ctx.objdata.out.creation_data)
            "Failed saving creation data." s0))).rc = tool_rc.tool_rc_success ↔
        ext.any Event.saveFailed = false) ∧
      ext.any Event.isCreated = false ∧
      ext.any Event.isContextSave = false ∧
      ext.any Event.contextSaveFailed = false ∧
      (ctx.creation_data_file ≠ none → ext.any Event.isDataSave = true) ∧
      (ctx.creation_ticket_file ≠ none → ext.any Event.isTicketSave = true) ∧
      (ctx.creation_hash_file ≠ none → ext.any Event.isHashSave = true) ∧
      (ctx.creation_data_file = none → ctx.creation_ticket_file = none →
        ctx.creation_hash_file = none → ext = []) := by
  have inv0 : s0.rc = tool_rc.tool_rc_success ↔ s0.trace.any Event.saveFailed = false :=
    ⟨fun _ => hnf, fun _ => hrc⟩
  have inv0' : s0.result = false → s0.trace.any Event.saveFailed = true := by
    intro h; rw [hres] at h; cases h
  obtain ⟨a1, a2, x1, t1, m1, k1⟩ := save_step_facts ctx.creation_data_file
    (sys.files_save_creation_data ctx.objdata.out.creation_data)
    (Event.files_save_creation_data ctx.objdata.out.creation_data)
    "Failed saving creation data." s0 (fun _ _ => rfl) inv0 inv0'
  obtain ⟨b1, b2, x2, t2, m2, k2⟩ := save_step_facts ctx.creation_ticket_file
    (sys.files_save_creation_ticket ctx.objdata.out.creation_ticket)
    (Event.files_save_creation_ticket ctx.objdata.out.creation_ticket)
    "Failed saving creation ticket." _ (fun _ _ => rfl) a1 a2
  obtain ⟨c1, c2, x3, t3, m3, k3⟩ := save_step_facts ctx.creation_hash_file
    (sys.files_save_digest ctx.objdata.out.hash)
    (Event.files_save_digest ctx.objdata.out.hash)
    "Failed saving creation hash." _ (fun _ _ => rfl) b1 b2
  have hall : ∀ e ∈ x1 ++ x2 ++ x3,
      (∃ p ok, e = Event.files_save_creation_data ctx.objdata.out.creation_data p ok) ∨
      (∃ p ok, e = Event.files_save_creation_ticket ctx.objdata.out.creation_ticket p ok) ∨
      (∃ p ok, e = Event.files_save_digest ctx.objdata.out.hash p ok) ∨
      (∃ msg, e = Event.LOG_ERR msg []) := by
    intro e he
    simp only [List.mem_append] at he
    rcases he with (he | he) | he
    · rcases k1 e he with h | h
      · exact Or.inl h
      · exact Or.inr (Or.inr (Or.inr ⟨_, h⟩))
    · rcases k2 e he with h | h
      · exact Or.inr (Or.inl h)
      · exact Or.inr (Or.inr (Or.inr ⟨_, h⟩))
    · rcases k3 e he with h | h
      · exact Or.inr (Or.inr (Or.inl h))
      · exact Or.inr (Or.inr (Or.inr ⟨_, h⟩))
  have hnone : ∀ (q : Event → Bool),
      (∀ p ok, q (Event.files_save_creation_data ctx.objdata.out.creation_data p ok)
        = false) →
      (∀ p ok, q (Event.files_save_creation_ticket ctx.objdata.out.creation_ticket p ok)
        = false) →
      (∀ p ok, q (Event.files_save_digest ctx.objdata.out.hash p ok) = false) →
      (∀ msg, q (Event.LOG_ERR msg []) = false) →
      (x1 ++ x2 ++ x3).any q = false := by
    intro q q1 q2 q3 q4
    rw [List.any_eq_false]
    intro e he
    rcases hall e he with ⟨p, ok, rfl⟩ | ⟨p, ok, rfl⟩ | ⟨p, ok, rfl⟩ | ⟨msg, rfl⟩
    · simp [q1]
    · simp [q2]
    · simp [q3]
    · simp [q4]
  refine ⟨x1 ++ x2 ++ x3, ?_, ?_, ?_, ?_, ?_, ?_, ?_, ?_, ?_⟩
  · rw [t3, t2, t1]; simp
  · rw [c1, t3, t2, t1]
    simp only [List.any_append, hnf, Bool.false_or]
  · exact hnone _ (fun _ _ => rfl) (fun _ _ => rfl) (fun _ _ => rfl) (fun _ => rfl)
  · exact hnone _ (fun _ _ => rfl) (fun _ _ => rfl) (fun _ _ => rfl) (fun _ => rfl)
  · exact hnone _ (fun _ _ => rfl) (fun _ _ => rfl) (fun _ _ => rfl) (fun _ => rfl)
  · intro h
    cases hf : ctx.creation_data_file with
    | none => exact absurd hf h
    | some p =>
      obtain ⟨ok, hm⟩ := m1 p hf
      rw [List.any_eq_true]
      exact ⟨Event.files_save_creation_data ctx.objdata.out.creation_data (some p) ok,
        by simp [hm], rfl⟩
  · intro h
    cases hf : ctx.creation_ticket_file with
    | none => exact absurd hf h
    | some p =>
      obtain ⟨ok, hm⟩ := m2 p hf
      rw [List.any_eq_true]
      exact ⟨Event.files_save_creation_ticket ctx.objdata.out.creation_ticket (some p) ok,
        by simp [hm], rfl⟩
  · intro h
    cases hf : ctx.creation_hash_file with
    | none => exact absurd hf h
    | some p =>
      obtain ⟨ok, hm⟩ := m3 p hf
      rw [List.any_eq_true]
      exact ⟨Event.files_save_digest ctx.objdata.out.hash (some p) ok, by simp [hm], rfl⟩
  · intro hd ht hh
    have e1 : x1 = [] := by
      have := t1
      simp only [save_step, hd, hres, Bool.not_true, Bool.false_eq_true, if_false] at this
      simpa using this
    have hs1 : save_step ctx.creation_data_file
        (sys.files_save_creation_data ctx.objdata.out.creation_data)
        (Event.files_save_creation_data ctx.objdata.out.creation_data)
        "Failed saving creation data." s0 = s0 := by
      simp [save_step, hd, hres]
    have e2 : x2 = [] := by
      have := t2
      rw [hs1] at this
      simp only [save_step, ht, hres, Bool.not_true, Bool.false_eq_true, if_false] at this
      simpa using this
    have hs2 : save_step ctx.creation_ticket_file
        (sys.files_save_creation_ticket ctx.objdata.out.creation_ticket)
        (Event.files_save_creation_ticket ctx.objdata.out.creation_ticket)
        "Failed saving creation ticket." s0 = s0 := by
      simp [save_step, ht, hres]
    have e3 : x3 = [] := by
      have := t3
      rw [hs1, hs2] at this
      simp only [save_step, hh, hres, Bool.not_true, Bool.false_eq_true, if_false] at this
      simpa using this
    rw [e1, e2, e3]
    rfl

/-- The saving part of `tpm2_tool_onrun`, entered with `result` true. -/
theorem onrun_saves_facts {σ : Type} (sys : Sys σ) (ctx : tpm_createprimary_ctx) (w : σ) :
    ((onrun_saves sys ctx true w).ret = tool_rc.tool_rc_success ↔
      (onrun_saves sys ctx true w).trace.any Event.saveFailed = false) ∧
    (onrun_saves sys ctx true w).trace.any Event.isCreated = false ∧
    (ctx.context_file ≠ none →
      (onrun_saves sys ctx true w).trace.any Event.isContextSave = true) ∧
    ((onrun_saves sys ctx true w).trace.any Event.contextSaveFailed = false →
      (ctx.creation_data_file ≠ none →
        (onrun_saves sys ctx true w).trace.any Event.isDataSave = true) ∧
      (ctx.creation_ticket_file ≠ none →
        (onrun_saves sys ctx true w).trace.any Event.isTicketSave = true) ∧
      (ctx.creation_hash_file ≠ none →
        (onrun_saves sys ctx true w).trace.any Event.isHashSave = true)) ∧
    (ctx.context_file = none → ctx.creation_data_file = none →
      ctx.creation_ticket_file = none → ctx.creation_hash_file = none →
        (onrun_saves sys ctx true w).ret = tool_rc.tool_rc_success) := by
  cases hcf : ctx.context_file with
  | none =>
    obtain ⟨ext, ht, hrc, g1, g2, g3, g4, g5, g6, g7⟩ := three_saves_facts sys ctx
      { result := true, rc := tool_rc.tool_rc_success, world := w,
        trace := [Event.tpm2_util_public_to_yaml ctx.objdata.out.«public»] ++ [] }
      rfl rfl rfl
    simp only [onrun_saves, hcf, ne_eq, not_true_eq_false, if_false]
    rw [ht]
    refine ⟨?_, ?_, ?_, ?_, ?_⟩
    · rw [hrc]; simp [Event.saveFailed]
    · simp [Event.isCreated, g1]
    · intro h; exact h.elim
    · intro _
      refine ⟨fun h => ?_, fun h => ?_, fun h => ?_⟩
      · simp [g4 h]
      · simp [g5 h]
      · simp [g6 h]
    · intro _ hd htk hh
      exact hrc.mpr (by rw [g7 hd htk hh]; rfl)
  | some p =>
    simp only [onrun_saves, hcf]
    generalize sys.files_save_tpm_context_to_path ctx.objdata.out.handle (some p) w = r
    obtain ⟨rc, w1⟩ := r
    simp only
    by_cases hs : rc = tool_rc.tool_rc_success
    · subst hs
      obtain ⟨ext, ht, hrc, g1, g2, g3, g4, g5, g6, g7⟩ := three_saves_facts sys ctx
        { result := true, rc := tool_rc.tool_rc_success, world := w1,
          trace := [Event.tpm2_util_public_to_yaml ctx.objdata.out.«public»] ++
            [Event.files_save_tpm_context_to_path ctx.objdata.out.handle (some p)
              tool_rc.tool_rc_success] }
        rfl rfl rfl
      simp only [ne_eq, not_true_eq_false, if_false]
      rw [ht]
      refine ⟨?_, ?_, ?_, ?_, ?_⟩
      · rw [hrc]; simp [Event.saveFailed]
      · simp [Event.isCreated, g1]
      · intro _; simp [Event.isContextSave]
      · intro _
        refine ⟨fun h => ?_, fun h => ?_, fun h => ?_⟩
        · simp [g4 h]
        · simp [g5 h]
        · simp [g6 h]
      · intro h; cases h
    · simp only [ne_eq, hs, not_false_eq_true, if_true]
      refine ⟨?_, ?_, ?_, ?_, ?_⟩
      · simp [Event.saveFailed, hs]
      · simp [Event.isCreated]
      · intro _; simp [Event.isContextSave]
      · intro h; simp [Event.contextSaveFailed, hs] at h
      · intro h; cases h

/-- The part from `skipped_outside_info` on, entered with `result` true. -/
theorem onrun_create_settled {σ : Type} (sys : Sys σ) (ctx : tpm_createprimary_ctx)
    (w : σ) :
    Settled ctx.context_file ctx.creation_data_file ctx.creation_ticket_file
      ctx.creation_hash_file (onrun_create sys ctx true w) := by
  simp only [onrun_create]
  generalize sys.tpm2_hierarchy_create_primary ctx.parent.session ctx.objdata w = c
  obtain ⟨⟨rc, od⟩, w1⟩ := c
  simp only
  by_cases hs : rc = tool_rc.tool_rc_success
  · subst hs
    obtain ⟨f1, f2, f3, f4, f5⟩ := onrun_saves_facts sys { ctx with objdata := od } w1
    simp only [ne_eq, not_true_eq_false, if_false, Settled, Outcome.after, List.any_append,
      List.any_cons, List.any_nil, Event.isCreated, Event.saveFailed, Event.isContextSave,
      Event.contextSaveFailed, Event.isDataSave, Event.isTicketSave, Event.isHashSave,
      Bool.or_false, Bool.false_or, Bool.true_or, beq_self_eq_true, forall_const]
    exact ⟨f1, f3, f4, f5⟩
  · intro h
    simp [hs, Event.isCreated] at h

/-- The part from the test of `ctx.outside_info_file` on, entered with `result` true. -/
theorem onrun_outside_info_settled {σ : Type} (sys : Sys σ) (ctx : tpm_createprimary_ctx)
    (w : σ) :
    Settled ctx.context_file ctx.creation_data_file ctx.creation_ticket_file
      ctx.creation_hash_file (onrun_outside_info sys ctx true w) := by
  cases ho : ctx.outside_info_file with
  | none =>
    simp only [onrun_outside_info, ho]
    exact onrun_create_settled sys ctx w
  | some path =>
    simp only [onrun_outside_info, ho]
    generalize sys.files_get_file_size_path (some path) 0 w = g
    obtain ⟨⟨ok, fs⟩, w1⟩ := g
    simp only
    by_cases hg : (!ok || fs == 0) = true
    · intro h
      simp [hg, Event.isCreated] at h
    · simp only [hg, Bool.false_eq_true, if_false]
      generalize sys.files_load_bytes_from_path (some path)
        { ctx.objdata.input.outside_info with size := fs % 65536 } w1 = l
      obtain ⟨⟨ok2, buf⟩, w2⟩ := l
      cases ok2 with
      | false =>
        intro h
        simp [Event.isCreated] at h
      | true =>
        have hc := onrun_create_settled sys
          { ctx with objdata :=
              { ctx.objdata with input := { ctx.objdata.input with outside_info := buf } } }
          w2
        simp only [Settled, Outcome.after, List.any_append, List.any_cons, List.any_nil,
          Event.isCreated, Event.saveFailed, Event.isContextSave, Event.contextSaveFailed,
          Event.isDataSave, Event.isTicketSave, Event.isHashSave, Bool.or_false,
          Bool.false_or, Bool.not_true, Bool.false_eq_true, if_false] at hc ⊢
        exact hc

/-- C18: in every run of `tpm2_tool_onrun` of `tpm2_createprimary` in which
`tpm2_hierarchy_create_primary` succeeds, the returned status is `tool_rc_success` exactly
when no save of an output (object context, creation data, creation ticket, creation hash)
failed, so that a later success never hides an earlier failure; a requested object context is
saved, and unless that save failed each further requested output is saved too; and when no
output is requested the status is `tool_rc_success`. -/
theorem createprimary_status_reflects_saves {σ : Type} (sys : Sys σ)
    (ctx : tpm_createprimary_ctx) (w : σ)
    (hc : (tpm2_tool_onrun sys ctx w).trace.any Event.isCreated = true) :
    ((tpm2_tool_onrun sys ctx w).ret = tool_rc.tool_rc_success ↔
      (tpm2_tool_onrun sys ctx w).trace.any Event.saveFailed = false) ∧
    (ctx.context_file ≠ none →
      (tpm2_tool_onrun sys ctx w).trace.any Event.isContextSave = true) ∧
    ((tpm2_tool_onrun sys ctx w).trace.any Event.contextSaveFailed = false →
      (ctx.creation_data_file ≠ none →
        (tpm2_tool_onrun sys ctx w).trace.any Event.isDataSave = true) ∧
      (ctx.creation_ticket_file ≠ none →
        (tpm2_tool_onrun sys ctx w).trace.any Event.isTicketSave = true) ∧
      (ctx.creation_hash_file ≠ none →
        (tpm2_tool_onrun sys ctx w).trace.any Event.isHashSave = true)) ∧
    (ctx.context_file = none → ctx.creation_data_file = none →
      ctx.creation_ticket_file = none → ctx.creation_hash_file = none →
        (tpm2_tool_onrun sys ctx w).ret = tool_rc.tool_rc_success) := by
  have key : Settled ctx.context_file ctx.creation_data_file ctx.creation_ticket_file
      ctx.creation_hash_file (tpm2_tool_onrun sys ctx w) := by
    simp only [tpm2_tool_onrun]
    generalize sys.tpm2_auth_util_from_optarg true ctx.parent.auth_str ctx.parent.session
      false w = a
    obtain ⟨⟨rc1, ses⟩, w1⟩ := a
    simp only
    by_cases h1 : rc1 = tool_rc.tool_rc_success
    · subst h1
      simp only [ne_eq, not_true_eq_false, if_false]
      generalize sys.tpm2_auth_util_from_optarg false ctx.key_auth_str none true w1 = k
      obtain ⟨⟨rc2, tmp⟩, w2⟩ := k
      simp only
      by_cases h2 : rc2 = tool_rc.tool_rc_success
      · subst h2
        simp only [ne_eq, not_true_eq_false, if_false]
        generalize sys.tpm2_session_close tmp w2 = cl
        obtain ⟨tmp2, w3⟩ := cl
        simp only
        generalize sys.tpm2_alg_util_public_init ctx.alg ctx.halg ctx.attrs ctx.policy
          ctx.unique_file sys.DEFAULT_ATTRS ctx.objdata.input.«public» w3 = p
        obtain ⟨⟨ok, pub⟩, w4⟩ := p
        cases ok with
        | false =>
          intro h
          simp [Event.isCreated] at h
        | true =>
          have ho := onrun_outside_info_settled sys
            { ctx with
              parent := { ctx.parent with session := ses }
              objdata :=
                { ctx.objdata with
                  input :=
                    { ctx.objdata.input with
                      sensitive_userAuth := sys.tpm2_session_get_auth_value tmp w2
                      «public» := pub } } }
            w4
          simp only [Settled, Outcome.after, List.any_append, List.any_cons, List.any_nil,
            Event.isCreated, Event.saveFailed, Event.isContextSave, Event.contextSaveFailed,
            Event.isDataSave, Event.isTicketSave, Event.isHashSave, Bool.or_false,
            Bool.false_or, Bool.not_true, Bool.false_eq_true, if_false] at ho ⊢
          exact ho
      · intro h
        simp [h2, Event.isCreated] at h
    · intro h
      simp [h1, Event.isCreated] at h
  exact key hc

/-- Witness for C18: ticket and hash requested, the ticket save fails and the later hash
save succeeds; the status is `tool_rc_general_error`. -/
theorem createprimary_status_reflects_saves_witness :
    (tpm2_tool_onrun (sampleSys tool_rc.tool_rc_success true false true)
      { ctx0 with creation_ticket_file := some "t.bin", creation_hash_file := some "h.bin" }
      []).ret = tool_rc.tool_rc_general_error ∧
    (tpm2_tool_onrun (sampleSys tool_rc.tool_rc_success true false true)
      { ctx0 with creation_ticket_file := some "t.bin", creation_hash_file := some "h.bin" }
      []).world = [("h.bin", [2])] ∧
    ((tpm2_tool_onrun (sampleSys tool_rc.tool_rc_success true false true)
      { ctx0 with creation_ticket_file := some "t.bin", creation_hash_file := some "h.bin" }
      []).ret = tool_rc.tool_rc_success ↔
     (tpm2_tool_onrun (sampleSys tool_rc.tool_rc_success true false true)
      { ctx0 with creation_ticket_file := some "t.bin", creation_hash_file := some "h.bin" }
      []).trace.any Event.saveFailed = false) :=
  ⟨rfl, rfl,
    (createprimary_status_reflects_saves (sampleSys tool_rc.tool_rc_success true false true)
      { ctx0 with creation_ticket_file := some "t.bin", creation_hash_file := some "h.bin" }
      [] (by decide)).1⟩

/-- C19, evaluated on the code: with only the creation data file requested and its save
failing, the run ends with all three diagnostics: `Failed saving creation ticket.` and
`Failed saving creation hash.` are logged although neither file was requested and neither
save was made. -/
theorem createprimary_stale_result_logs_other_saves :
    ({ ctx0 with creation_data_file := some "cd.bin" } :
      tpm_createprimary_ctx).creation_ticket_file = none ∧
    ({ ctx0 with creation_data_file := some "cd.bin" } :
      tpm_createprimary_ctx).creation_hash_file = none ∧
    (tpm2_tool_onrun (sampleSys tool_rc.tool_rc_success false true true)
      { ctx0 with creation_data_file := some "cd.bin" } []).trace.drop 5 =
      [Event.tpm2_util_public_to_yaml [1],
       Event.files_save_creation_data [3] (some "cd.bin") false,
       Event.LOG_ERR "Failed saving creation data." [],
       Event.LOG_ERR "Failed saving creation ticket." [],
       Event.LOG_ERR "Failed saving creation hash." []] ∧
    (tpm2_tool_onrun (sampleSys tool_rc.tool_rc_success false true true)
      { ctx0 with creation_data_file := some "cd.bin" } []).trace.any
        Event.isTicketError = true ∧
    (tpm2_tool_onrun (sampleSys tool_rc.tool_rc_success false true true)
      { ctx0 with creation_data_file := some "cd.bin" } []).trace.any
        Event.isTicketSave = false ∧
    (tpm2_tool_onrun (sampleSys tool_rc.tool_rc_success false true true)
      { ctx0 with creation_data_file := some "cd.bin" } []).trace.any
        Event.isHashError = true ∧
    (tpm2_tool_onrun (sampleSys tool_rc.tool_rc_success false true true)
      { ctx0 with creation_data_file := some "cd.bin" } []).trace.any
        Event.isHashSave = false := by
  refine ⟨rfl, rfl, by decide, by decide, by decide, by decide, by decide⟩

end CreatePrimaryTheorems

section ActivateCredentialOnrunTheorems

open ActivateCredential

/-- C17, evaluated on the code: the options `-H 0x81010001 -C key.ctx -f cred.bin
-o secret.bin` populate `keyContextCtx`.  When the key context loads, `tpm2_tool_onrun`
returns 1 right after the load, with no session started and no activation issued; when the
load fails, it goes on into `activate_credential_and_output` and issues the activation. -/
theorem onrun_key_context_test_inverted :
    (populate (sampleSys 0 0 0 true)
      [('H', "0x81010001"), ('C', "key.ctx"), ('f', "cred.bin"), ('o', "secret.bin")]
      ctx0 []).ret = some keyContextCtx ∧
    (tpm2_tool_onrun (sampleSys 0 0 0 true) keyContextCtx []).trace =
      [Event.files_load_tpm_context_from_file "key.ctx" true 0x80000001] ∧
    (tpm2_tool_onrun (sampleSys 0 0 0 true) keyContextCtx []).ret = 1 ∧
    (tpm2_tool_onrun (sampleSys 0 0 0 false) keyContextCtx []).trace.take 2 =
      [Event.files_load_tpm_context_from_file "key.ctx" false 0,
       Event.tpm_session_start_auth_with_params startParams 0 ⟨0x03000000⟩] ∧
    (tpm2_tool_onrun (sampleSys 0 0 0 false) keyContextCtx []).trace.any
      Event.isActivate = true ∧
    (tpm2_tool_onrun (sampleSys 0 0 0 false) keyContextCtx []).ret = 0 := by
  refine ⟨by decide, by decide, rfl, by decide, by decide, rfl⟩

end ActivateCredentialOnrunTheorems

section PasswordUtilTheorems

open PasswordUtil

/-- The prefix constants are the bytes of `hex:` and `str:`. -/
theorem prefix_bytes : cstr "hex:" = HEX_PREFIX ∧ cstr "str:" = STR_PREFIX := by
  constructor <;> decide

/-- A hex digit has a value below 16 whose lower-case digit is the digit in lower case. -/
theorem hexValue_some {c v : Nat} (h : hexValue c = some v) :
    v < 16 ∧ hexDigit v = toLower c := by
  unfold hexValue at h
  unfold hexDigit toLower
  split_ifs at h <;> simp only [Option.some.injEq] at h <;> subst h <;> split_ifs <;> omega

/-- An odd-length string does not decode. -/
theorem hexDecode_odd : ∀ h : List Nat, h.length % 2 = 1 → hexDecode h = none
  | [], hl => by simp at hl
  | [_], _ => rfl
  | a :: b :: rest, hl => by
    have ih := hexDecode_odd rest (by simp only [List.length_cons] at hl; omega)
    simp only [hexDecode, ih]
    split <;> simp_all

/-- A string holding a byte that is not a hex digit does not decode. -/
theorem hexDecode_nonhex : ∀ h : List Nat, (∃ c ∈ h, hexValue c = none) → hexDecode h = none
  | [], hc => by simp at hc
  | [_], _ => rfl
  | a :: b :: rest, hc => by
    simp only [hexDecode]
    obtain ⟨c, hm, hv⟩ := hc
    simp only [List.mem_cons] at hm
    rcases hm with rfl | rfl | hm
    · simp [hv]
    · rw [hv]
      split <;> simp_all
    · have ih := hexDecode_nonhex rest ⟨c, hm, hv⟩
      rw [ih]
      split <;> simp_all

/-- An even-length string of hex digits decodes to half as many bytes, whose encoding is the
string in lower case. -/
theorem hexDecode_even : ∀ h : List Nat, h.length % 2 = 0 → (∀ c ∈ h, hexValue c ≠ none) →
    ∃ bytes, hexDecode h = some bytes ∧ bytes.length = h.length / 2 ∧
      (∀ b ∈ bytes, b < 256) ∧ hexEncode bytes = h.map toLower
  | [], _, _ => ⟨[], rfl, rfl, by simp, rfl⟩
  | [_], hl, _ => by simp at hl
  | a :: b :: rest, hl, hc => by
    obtain ⟨t, ht, hlen, hb, henc⟩ := hexDecode_even rest
      (by simp only [List.length_cons] at hl; omega)
      (fun c hm => hc c (by simp [hm]))
    cases ha : hexValue a with
    | none => exact absurd ha (hc a (by simp))
    | some x =>
      cases hbv : hexValue b with
      | none => exact absurd hbv (hc b (by simp))
      | some y =>
        obtain ⟨hx, hxd⟩ := hexValue_some ha
        obtain ⟨hy, hyd⟩ := hexValue_some hbv
        refine ⟨(16 * x + y) :: t, by simp [hexDecode, ha, hbv, ht], ?_, ?_, ?_⟩
        · simp only [List.length_cons, hlen]; omega
        · intro v hv
          simp only [List.mem_cons] at hv
          rcases hv with rfl | hv
          · omega
          · exact hb v hv
        · have h1 : (16 * x + y) / 16 = x := by omega
          have h2 : (16 * x + y) % 16 = y := by omega
          simp only [hexEncode, h1, h2, hxd, hyd, henc, List.map_cons]

/-- C15: for every password `s` that starts neither with `str:` nor with `hex:`,
`tpm2_password_util_from_optarg` gives the same result on `s` and on `str:` followed by
`s`: when `s` fits the capacity both succeed with size `len s` and the bytes of `s`
verbatim, otherwise both fail; and `str:hex:x` yields the five literal bytes `hex:x`. -/
theorem from_optarg_bare_eq_str (cap : Nat) (s : List Nat)
    (hs : STR_PREFIX.isPrefixOf s = false) (hh : HEX_PREFIX.isPrefixOf s = false) :
    tpm2_password_util_from_optarg cap s =
      tpm2_password_util_from_optarg cap (STR_PREFIX ++ s) ∧
    (s.length ≤ cap →
      tpm2_password_util_from_optarg cap s = Except.ok { size := s.length, buffer := s }) ∧
    (cap < s.length →
      tpm2_password_util_from_optarg cap s = Except.error AuthError.ValueTooLong ∧
      tpm2_password_util_from_optarg cap (STR_PREFIX ++ s) =
        Except.error AuthError.ValueTooLong) ∧
    (5 ≤ cap →
      tpm2_password_util_from_optarg cap (cstr "str:hex:x") =
        Except.ok { size := 5, buffer := cstr "hex:x" }) := by
  have hbare : tpm2_password_util_from_optarg cap s =
      if s.length > cap then Except.error AuthError.ValueTooLong
      else Except.ok { size := s.length, buffer := s } := by
    simp [tpm2_password_util_from_optarg, hs, hh]
  have hstr : tpm2_password_util_from_optarg cap (STR_PREFIX ++ s) =
      if s.length > cap then Except.error AuthError.ValueTooLong
      else Except.ok { size := s.length, buffer := s } := by
    have h1 : HEX_PREFIX.isPrefixOf (STR_PREFIX ++ s) = false := by
      simp [HEX_PREFIX, STR_PREFIX, List.isPrefixOf]
    have h2 : STR_PREFIX.isPrefixOf (STR_PREFIX ++ s) = true := by
      simp [STR_PREFIX, List.isPrefixOf]
    have h3 : (STR_PREFIX ++ s).drop STR_PREFIX.length = s := by
      simp [STR_PREFIX]
    simp only [tpm2_password_util_from_optarg, h1, h2, h3, Bool.false_eq_true, if_false,
      if_true]
  refine ⟨by rw [hbare, hstr], ?_, ?_, ?_⟩
  · intro hle
    rw [hbare, if_neg (by omega)]
  · intro hlt
    rw [hbare, hstr, if_pos (by omega)]
    exact ⟨rfl, rfl⟩
  · intro hc
    have hx : cstr "str:hex:x" = STR_PREFIX ++ [104, 101, 120, 58, 120] := by decide
    have hy : cstr "hex:x" = [104, 101, 120, 58, 120] := by decide
    have h1 : HEX_PREFIX.isPrefixOf (STR_PREFIX ++ [104, 101, 120, 58, 120]) = false := by
      decide
    have h2 : STR_PREFIX.isPrefixOf (STR_PREFIX ++ [104, 101, 120, 58, 120]) = true := by
      decide
    have h3 : (STR_PREFIX ++ [104, 101, 120, 58, 120]).drop STR_PREFIX.length =
        [104, 101, 120, 58, 120] := by decide
    rw [hx, hy]
    simp only [tpm2_password_util_from_optarg, h1, h2, h3, Bool.false_eq_true, if_false,
      if_true, List.length_cons, List.length_nil]
    rw [if_neg (by omega)]

/-- Witness for C15: the password `1234` with capacity 64, bare and behind `str:`. -/
theorem from_optarg_bare_eq_str_witness :
    tpm2_password_util_from_optarg 64 (cstr "1234") =
      tpm2_password_util_from_optarg 64 (STR_PREFIX ++ cstr "1234") ∧
    tpm2_password_util_from_optarg 64 (cstr "1234") =
      Except.ok { size := 4, buffer := [49, 50, 51, 52] } ∧
    tpm2_password_util_from_optarg 64 (cstr "str:hex:x") =
      Except.ok { size := 5, buffer := cstr "hex:x" } :=
  ⟨(from_optarg_bare_eq_str 64 (cstr "1234") (by decide) (by decide)).1,
   (from_optarg_bare_eq_str 64 (cstr "1234") (by decide) (by decide)).2.1 (by decide),
   (from_optarg_bare_eq_str 64 (cstr "1234") (by decide) (by decide)).2.2.2 (by decide)⟩

/-- C16: for every string `h`, `tpm2_password_util_from_optarg` on `hex:` followed by `h`
fails with `InvalidEncoding` when `h` has odd length or holds a byte that is not a hex digit;
when `h` has even length, holds only hex digits and `len h / 2` is within the capacity, it
succeeds with size exactly `len h / 2` and that many bytes, each below 256, whose hex
encoding equals `h` up to letter case. -/
theorem from_optarg_hex (cap : Nat) (h : List Nat) :
    (h.length % 2 = 1 →
      tpm2_password_util_from_optarg cap (HEX_PREFIX ++ h) =
        Except.error AuthError.InvalidEncoding) ∧
    ((∃ c ∈ h, hexValue c = none) →
      tpm2_password_util_from_optarg cap (HEX_PREFIX ++ h) =
        Except.error AuthError.InvalidEncoding) ∧
    (h.length % 2 = 0 → (∀ c ∈ h, hexValue c ≠ none) → h.length / 2 ≤ cap →
      ∃ bytes,
        tpm2_password_util_from_optarg cap (HEX_PREFIX ++ h) =
          Except.ok { size := h.length / 2, buffer := bytes } ∧
        bytes.length = h.length / 2 ∧ (∀ b ∈ bytes, b < 256) ∧
        (hexEncode bytes).map toLower = h.map toLower) := by
  have h1 : HEX_PREFIX.isPrefixOf (HEX_PREFIX ++ h) = true := by
    simp [HEX_PREFIX, List.isPrefixOf]
  have h2 : (HEX_PREFIX ++ h).drop HEX_PREFIX.length = h := by
    simp [HEX_PREFIX]
  have hlow : ∀ l : List Nat, (l.map toLower).map toLower = l.map toLower := by
    intro l
    simp only [List.map_map]
    apply List.map_congr_left
    intro a _
    simp only [Function.comp, toLower]
    split_ifs <;> omega
  refine ⟨?_, ?_, ?_⟩
  · intro ho
    simp only [tpm2_password_util_from_optarg, h1, h2, hexDecode_odd h ho, if_true]
  · intro hn
    simp only [tpm2_password_util_from_optarg, h1, h2, hexDecode_nonhex h hn, if_true]
  · intro he hd hc
    obtain ⟨bytes, hb, hlen, hlt, henc⟩ := hexDecode_even h he hd
    refine ⟨bytes, ?_, hlen, hlt, ?_⟩
    · simp only [tpm2_password_util_from_optarg, h1, h2, hb, if_true]
      rw [if_neg (by omega), hlen]
    · rw [henc, hlow]

/-- Witness for C16: `hex:1234aBcD` decodes to four bytes; `hex:123` and `hex:12zz` fail. -/
theorem from_optarg_hex_witness :
    tpm2_password_util_from_optarg 64 (HEX_PREFIX ++ cstr "123") =
      Except.error AuthError.InvalidEncoding ∧
    tpm2_password_util_from_optarg 64 (HEX_PREFIX ++ cstr "12zz") =
      Except.error AuthError.InvalidEncoding ∧
    tpm2_password_util_from_optarg 64 (cstr "hex:1234aBcD") =
      Except.ok { size := 4, buffer := [0x12, 0x34, 0xab, 0xcd] } ∧
    (∃ bytes,
      tpm2_password_util_from_optarg 64 (HEX_PREFIX ++ cstr "1234aBcD") =
        Except.ok { size := (cstr "1234aBcD").length / 2, buffer := bytes } ∧
      bytes.length = (cstr "1234aBcD").length / 2 ∧ (∀ b ∈ bytes, b < 256) ∧
      (hexEncode bytes).map toLower = (cstr "1234aBcD").map toLower) :=
  ⟨(from_optarg_hex 64 (cstr "123")).1 (by decide),
   (from_optarg_hex 64 (cstr "12zz")).2.1 ⟨122, by decide, by decide⟩,
   rfl,
   (from_optarg_hex 64 (cstr "1234aBcD")).2.2 (by decide) (by decide) (by decide)⟩

end PasswordUtilTheorems

end Tpm2Tools
